import Mathlib

/-!
# esedbtools/exchange.c : typed export of Exchange database records

A shallow embedding of `exchange.c`: the six typed value exporters
(`exchange_export_record_value_32bit`, `_64bit`, `_filetime`, `_guid`, `_sid`,
`_string`), the column classification of the Folders and the Mailbox table and
the two record exporters.

Conventions of the embedding

* A `FILE *` is `Option FILE`: `none` is the NULL pointer, `some text` a stream
  holding the characters written to it so far.  `fprintf` appends.
* `liberror_error_t **error` is the list of errors set so far, oldest first;
  `liberror_error_set` appends one entry.  Entries that the libraries called by
  this file add on their own are not recorded.
* Every function returns an `Outcome`: the C return value together with the
  stream and the error list it leaves behind.
* The libraries this file calls (libesedb record accessors, libfdatetime,
  libfguid, libfwnt, the generic exporter of export_handle.c) are arguments:
  a record is the collection of the answers of its accessors, the codecs are
  the fields of `Collaborators`.
-/

namespace Exchange

/-! ## Data model -/

/-- The enumeration EXCHANGE_KNOWN_COLUMN_TYPES of exchange.c. -/
inductive EXCHANGE_KNOWN_COLUMN_TYPES where
  | EXCHANGE_KNOWN_COLUMN_TYPE_UNDEFINED
  | EXCHANGE_KNOWN_COLUMN_TYPE_INTEGER_32BIT
  | EXCHANGE_KNOWN_COLUMN_TYPE_INTEGER_64BIT
  | EXCHANGE_KNOWN_COLUMN_TYPE_FILETIME
  | EXCHANGE_KNOWN_COLUMN_TYPE_GUID
  | EXCHANGE_KNOWN_COLUMN_TYPE_SID
  | EXCHANGE_KNOWN_COLUMN_TYPE_STRING
  deriving DecidableEq, Repr

export EXCHANGE_KNOWN_COLUMN_TYPES (EXCHANGE_KNOWN_COLUMN_TYPE_UNDEFINED
  EXCHANGE_KNOWN_COLUMN_TYPE_INTEGER_32BIT EXCHANGE_KNOWN_COLUMN_TYPE_INTEGER_64BIT
  EXCHANGE_KNOWN_COLUMN_TYPE_FILETIME EXCHANGE_KNOWN_COLUMN_TYPE_GUID
  EXCHANGE_KNOWN_COLUMN_TYPE_SID EXCHANGE_KNOWN_COLUMN_TYPE_STRING)

/-- Modelled from the spec: the physical storage type of a column, the
LIBESEDB_COLUMN_TYPE_* enumeration of libesedb.h (not part of exchange.c).
The three members that exchange.c names are constructors of their own; every
other member of the enumeration is `LIBESEDB_COLUMN_TYPE_OTHER n`. -/
inductive LIBESEDB_COLUMN_TYPES where
  | LIBESEDB_COLUMN_TYPE_CURRENCY
  | LIBESEDB_COLUMN_TYPE_BINARY_DATA
  | LIBESEDB_COLUMN_TYPE_LARGE_BINARY_DATA
  | LIBESEDB_COLUMN_TYPE_OTHER (n : Nat)
  deriving DecidableEq, Repr

export LIBESEDB_COLUMN_TYPES (LIBESEDB_COLUMN_TYPE_CURRENCY LIBESEDB_COLUMN_TYPE_BINARY_DATA
  LIBESEDB_COLUMN_TYPE_LARGE_BINARY_DATA LIBESEDB_COLUMN_TYPE_OTHER)

/-- Modelled from the spec: the byte order argument of the fixed-width
exporters, the _BYTE_STREAM_ENDIAN_* values of byte_stream.h (not part of
exchange.c).  Every value of the `uint8_t` argument that is neither of the two
is `BYTE_STREAM_ENDIAN_OTHER v`. -/
inductive BYTE_STREAM_ENDIAN where
  | BYTE_STREAM_ENDIAN_BIG
  | BYTE_STREAM_ENDIAN_LITTLE
  | BYTE_STREAM_ENDIAN_OTHER (v : Nat)
  deriving DecidableEq, Repr

export BYTE_STREAM_ENDIAN (BYTE_STREAM_ENDIAN_BIG BYTE_STREAM_ENDIAN_LITTLE
  BYTE_STREAM_ENDIAN_OTHER)

/-- A byte of value data (`uint8_t`). -/
abbrev uint8_t := Fin 256

/-- The characters written to a stream so far. -/
abbrev FILE := List Char

/-- What `libesedb_record_get_value` hands back for one entry: the data pointer
(`none` is NULL, otherwise the bytes it points to), the data size and the
value flags. -/
structure libesedb_value where
  value_data : Option (List uint8_t)
  value_data_size : Nat
  value_flags : Nat

/-- A record as exchange.c sees it: the answers of the libesedb accessors,
`none` where the accessor does not return 1.  `get_utf8_column_name` receives
the entry and the size passed to it and answers with the characters it stored
in the name buffer, from `column_name[ 0 ]` on (the narrow character build;
the wide character build calls the utf16 accessors in the same way). -/
structure libesedb_record_t where
  get_number_of_values : Option Int
  get_utf8_column_name_size : Int → Option Nat
  get_utf8_column_name : Int → Nat → Option (List Char)
  get_column_type : Int → Option LIBESEDB_COLUMN_TYPES
  get_value : Int → Option libesedb_value

/-- The error domains used by exchange.c. -/
inductive LIBERROR_ERROR_DOMAIN where
  | LIBERROR_ERROR_DOMAIN_ARGUMENTS
  | LIBERROR_ERROR_DOMAIN_RUNTIME
  deriving DecidableEq, Repr

/-- The error codes used by exchange.c. -/
inductive LIBERROR_ERROR_CODE where
  | LIBERROR_ARGUMENT_ERROR_INVALID_VALUE
  | LIBERROR_ARGUMENT_ERROR_UNSUPPORTED_VALUE
  | LIBERROR_RUNTIME_ERROR_GET_FAILED
  | LIBERROR_RUNTIME_ERROR_INITIALIZE_FAILED
  | LIBERROR_RUNTIME_ERROR_COPY_FAILED
  | LIBERROR_RUNTIME_ERROR_FINALIZE_FAILED
  | LIBERROR_RUNTIME_ERROR_VALUE_OUT_OF_RANGE
  | LIBERROR_RUNTIME_ERROR_GENERIC
  deriving DecidableEq, Repr

/-- The message texts of exchange.c, one constructor per format string. -/
inductive error_message where
  | invalid_record
  | unsupported_byte_order
  | invalid_table_file_stream
  | unable_to_retrieve_column_type
  | unsupported_column_type
  | unable_to_retrieve_value
  | unsupported_value_data_size
  | unable_to_create
  | unable_to_copy_byte_stream
  | unable_to_copy_to_string
  | unable_to_free
  | unable_to_retrieve_SID_string_size
  | SID_string_size_exceeds_maximum
  | unable_to_retrieve_number_of_values
  | unable_to_retrieve_column_name_size
  | column_name_size_exceeds_maximum
  | unable_to_retrieve_column_name
  | unable_to_export_record_value
  deriving DecidableEq, Repr

/-- One entry of a `liberror_error_t`. -/
structure liberror_error where
  domain : LIBERROR_ERROR_DOMAIN
  code : LIBERROR_ERROR_CODE
  message : error_message
  deriving DecidableEq, Repr

export LIBERROR_ERROR_DOMAIN (LIBERROR_ERROR_DOMAIN_ARGUMENTS LIBERROR_ERROR_DOMAIN_RUNTIME)
export LIBERROR_ERROR_CODE (LIBERROR_ARGUMENT_ERROR_INVALID_VALUE
  LIBERROR_ARGUMENT_ERROR_UNSUPPORTED_VALUE LIBERROR_RUNTIME_ERROR_GET_FAILED
  LIBERROR_RUNTIME_ERROR_INITIALIZE_FAILED LIBERROR_RUNTIME_ERROR_COPY_FAILED
  LIBERROR_RUNTIME_ERROR_FINALIZE_FAILED LIBERROR_RUNTIME_ERROR_VALUE_OUT_OF_RANGE
  LIBERROR_RUNTIME_ERROR_GENERIC)

/-- The call `liberror_error_set( error, domain, code, message )`. -/
def liberror_error_set (error : List liberror_error) (domain : LIBERROR_ERROR_DOMAIN)
    (code : LIBERROR_ERROR_CODE) (message : error_message) : List liberror_error :=
  error ++ [liberror_error.mk domain code message]

/-- The C return value of an exporter with the stream and the error it leaves. -/
structure Outcome where
  result : Int
  table_file_stream : Option FILE
  error : List liberror_error
  deriving DecidableEq, Repr

/-- The parts of the surrounding libraries that exchange.c relies on and that
are not in exchange.c.  A call that returns 1 is `true` or `some _`.

* `LIBESEDB_VALUE_FLAG_VARIABLE_SIZE` is the flag constant of libesedb.h;
* the libfdatetime, libfguid and libfwnt entries are the steps of the three
  codecs, as functions of the value data (and byte order) handed to them;
* `export_handle_export_record_value` is the generic exporter of
  export_handle.c: its return value and the text it appends to the stream. -/
structure Collaborators where
  LIBESEDB_VALUE_FLAG_VARIABLE_SIZE : Nat
  libfdatetime_filetime_initialize_result : Bool
  libfdatetime_filetime_copy_from_byte_stream : List uint8_t → Nat → BYTE_STREAM_ENDIAN → Bool
  libfdatetime_filetime_copy_to_utf8_string : List uint8_t → BYTE_STREAM_ENDIAN → Option (List Char)
  libfdatetime_filetime_free : Bool
  libfguid_identifier_initialize_result : Bool
  libfguid_identifier_copy_from_byte_stream : List uint8_t → Nat → BYTE_STREAM_ENDIAN → Bool
  libfguid_identifier_copy_to_utf8_string : List uint8_t → BYTE_STREAM_ENDIAN → Option (List Char)
  libfguid_identifier_free : Bool
  libfwnt_security_identifier_initialize_result : Bool
  libfwnt_security_identifier_copy_from_byte_stream : List uint8_t → Nat → Bool
  libfwnt_security_identifier_get_string_size : List uint8_t → Option Nat
  libfwnt_security_identifier_copy_to_utf8_string : List uint8_t → Option (List Char)
  libfwnt_security_identifier_free : Bool
  export_handle_export_record_value : libesedb_record_t → Int → Int × List Char

/-! ## Output primitives -/

/-- A `fprintf` on the stream: appends the formatted text (nothing happens on
a NULL stream, which no caller below passes). -/
def fprintf (table_file_stream : Option FILE) (text : List Char) : Option FILE :=
  table_file_stream.map (fun written => written ++ text)

/-- The text of the format "%02x" for a byte: two lowercase hexadecimal digits. -/
def format_02x (byte : uint8_t) : List Char :=
  [Nat.digitChar (byte.val / 16), Nat.digitChar (byte.val % 16)]

/-- The text of the format "0x%llx" (PRIx64) for a 64-bit value. -/
def format_0x_PRIx64 (value_64bit : Nat) : List Char :=
  ['0', 'x'] ++ Nat.toDigits 16 (value_64bit % 2 ^ 64)

/-- The text of the format "%u" (PRIu32) for a 32-bit value. -/
def format_PRIu32 (value_32bit : Nat) : List Char :=
  Nat.toDigits 10 (value_32bit % 2 ^ 32)

/-- The text of the format "%c" for `(char) byte`: the byte itself. -/
def format_c (byte : uint8_t) : List Char :=
  [Char.ofNat byte.val]

/-- The bits of `value_flags` outside `mask`: the C expression
`value_flags & ~( mask )`. -/
def and_not (value_flags mask : Nat) : Nat :=
  value_flags ^^^ (value_flags &&& mask)

/-- Modelled from the spec: the byte_stream.h copy of 4 bytes to a 32-bit value,
little-endian (byte 0 is the least significant). -/
def byte_stream_copy_to_uint32_little_endian (value_data : List uint8_t) : Nat :=
  (((((value_data.getD 3 0).val * 256 + (value_data.getD 2 0).val) * 256)
    + (value_data.getD 1 0).val) * 256) + (value_data.getD 0 0).val

/-- Modelled from the spec: the byte_stream.h copy of 4 bytes to a 32-bit value,
big-endian (byte 0 is the most significant). -/
def byte_stream_copy_to_uint32_big_endian (value_data : List uint8_t) : Nat :=
  (((((value_data.getD 0 0).val * 256 + (value_data.getD 1 0).val) * 256)
    + (value_data.getD 2 0).val) * 256) + (value_data.getD 3 0).val

/-- Modelled from the spec: the byte_stream.h copy of 8 bytes to a 64-bit value,
little-endian (byte 0 is the least significant). -/
def byte_stream_copy_to_uint64_little_endian (value_data : List uint8_t) : Nat :=
  ((List.range 8).reverse).foldl (fun value i => value * 256 + (value_data.getD i 0).val) 0

/-- Modelled from the spec: the byte_stream.h copy of 8 bytes to a 64-bit value,
big-endian (byte 0 is the most significant). -/
def byte_stream_copy_to_uint64_big_endian (value_data : List uint8_t) : Nat :=
  (List.range 8).foldl (fun value i => value * 256 + (value_data.getD i 0).val) 0

/-- The loop `while( value_data_size > 0 )` that prints every byte with "%02x"
and advances the data pointer.  The recursion is on `value_data_size`, the
number of iterations of the loop; the list is the memory at `value_data`
(the second equation, no byte left under the pointer, is not reached when the
data holds `value_data_size` bytes). -/
def while_fprintf_02x : Nat → List uint8_t → Option FILE → Option FILE
  | 0, _, table_file_stream => table_file_stream
  | _ + 1, [], table_file_stream => table_file_stream
  | value_data_size + 1, byte :: value_data, table_file_stream =>
      while_fprintf_02x value_data_size value_data (fprintf table_file_stream (format_02x byte))

/-- The loop `while( value_data_size > 0 )` of the string exporter that prints
every byte with "%c"; same recursion as `while_fprintf_02x`. -/
def while_fprintf_c : Nat → List uint8_t → Option FILE → Option FILE
  | 0, _, table_file_stream => table_file_stream
  | _ + 1, [], table_file_stream => table_file_stream
  | value_data_size + 1, byte :: value_data, table_file_stream =>
      while_fprintf_c value_data_size value_data (fprintf table_file_stream (format_c byte))

/-! ## The typed value exporters -/

/-- The statement pair `liberror_error_set( ... ); return( -1 );`. -/
def return_error (table_file_stream : Option FILE) (error : List liberror_error)
    (domain : LIBERROR_ERROR_DOMAIN) (code : LIBERROR_ERROR_CODE) (message : error_message) :
    Outcome :=
  Outcome.mk (-1) table_file_stream (liberror_error_set error domain code message)

/-- Exports a 32-bit value in a binary data table record value.
Returns 1 if successful or -1 on error. -/
def exchange_export_record_value_32bit (env : Collaborators) (record : Option libesedb_record_t)
    (record_value_entry : Int) (byte_order : BYTE_STREAM_ENDIAN)
    (table_file_stream : Option FILE) (error : List liberror_error) : Outcome :=
  match record with
  | none => return_error table_file_stream error LIBERROR_ERROR_DOMAIN_ARGUMENTS
      LIBERROR_ARGUMENT_ERROR_INVALID_VALUE error_message.invalid_record
  | some record =>
  if byte_order ≠ BYTE_STREAM_ENDIAN_BIG ∧ byte_order ≠ BYTE_STREAM_ENDIAN_LITTLE then
    return_error table_file_stream error LIBERROR_ERROR_DOMAIN_ARGUMENTS
      LIBERROR_ARGUMENT_ERROR_UNSUPPORTED_VALUE error_message.unsupported_byte_order
  else if table_file_stream = none then
    return_error table_file_stream error LIBERROR_ERROR_DOMAIN_ARGUMENTS
      LIBERROR_ARGUMENT_ERROR_INVALID_VALUE error_message.invalid_table_file_stream
  else
  match record.get_column_type record_value_entry with
  | none => return_error table_file_stream error LIBERROR_ERROR_DOMAIN_RUNTIME
      LIBERROR_RUNTIME_ERROR_GET_FAILED error_message.unable_to_retrieve_column_type
  | some column_type =>
  if column_type ≠ LIBESEDB_COLUMN_TYPE_BINARY_DATA then
    return_error table_file_stream error LIBERROR_ERROR_DOMAIN_ARGUMENTS
      LIBERROR_ARGUMENT_ERROR_UNSUPPORTED_VALUE error_message.unsupported_column_type
  else
  match record.get_value record_value_entry with
  | none => return_error table_file_stream error LIBERROR_ERROR_DOMAIN_RUNTIME
      LIBERROR_RUNTIME_ERROR_GET_FAILED error_message.unable_to_retrieve_value
  | some value =>
  if and_not value.value_flags env.LIBESEDB_VALUE_FLAG_VARIABLE_SIZE = 0 then
    match value.value_data with
    | none => Outcome.mk 1 table_file_stream error
    | some value_data =>
      if value.value_data_size ≠ 4 then
        return_error table_file_stream error LIBERROR_ERROR_DOMAIN_ARGUMENTS
          LIBERROR_ARGUMENT_ERROR_UNSUPPORTED_VALUE error_message.unsupported_value_data_size
      else
        let value_32bit :=
          if byte_order = BYTE_STREAM_ENDIAN_BIG then
            byte_stream_copy_to_uint32_big_endian value_data
          else
            byte_stream_copy_to_uint32_little_endian value_data
        Outcome.mk 1 (fprintf table_file_stream (format_PRIu32 value_32bit)) error
  else
    match value.value_data with
    | none => Outcome.mk 1 table_file_stream error
    | some value_data =>
      Outcome.mk 1 (while_fprintf_02x value.value_data_size value_data table_file_stream) error

/-- Exports a 64-bit value in a binary data table record value.
Returns 1 if successful or -1 on error. -/
def exchange_export_record_value_64bit (env : Collaborators) (record : Option libesedb_record_t)
    (record_value_entry : Int) (byte_order : BYTE_STREAM_ENDIAN)
    (table_file_stream : Option FILE) (error : List liberror_error) : Outcome :=
  match record with
  | none => return_error table_file_stream error LIBERROR_ERROR_DOMAIN_ARGUMENTS
      LIBERROR_ARGUMENT_ERROR_INVALID_VALUE error_message.invalid_record
  | some record =>
  if byte_order ≠ BYTE_STREAM_ENDIAN_BIG ∧ byte_order ≠ BYTE_STREAM_ENDIAN_LITTLE then
    return_error table_file_stream error LIBERROR_ERROR_DOMAIN_ARGUMENTS
      LIBERROR_ARGUMENT_ERROR_UNSUPPORTED_VALUE error_message.unsupported_byte_order
  else if table_file_stream = none then
    return_error table_file_stream error LIBERROR_ERROR_DOMAIN_ARGUMENTS
      LIBERROR_ARGUMENT_ERROR_INVALID_VALUE error_message.invalid_table_file_stream
  else
  match record.get_column_type record_value_entry with
  | none => return_error table_file_stream error LIBERROR_ERROR_DOMAIN_RUNTIME
      LIBERROR_RUNTIME_ERROR_GET_FAILED error_message.unable_to_retrieve_column_type
  | some column_type =>
  if column_type ≠ LIBESEDB_COLUMN_TYPE_BINARY_DATA
      ∧ column_type ≠ LIBESEDB_COLUMN_TYPE_CURRENCY then
    return_error table_file_stream error LIBERROR_ERROR_DOMAIN_ARGUMENTS
      LIBERROR_ARGUMENT_ERROR_UNSUPPORTED_VALUE error_message.unsupported_column_type
  else
  match record.get_value record_value_entry with
  | none => return_error table_file_stream error LIBERROR_ERROR_DOMAIN_RUNTIME
      LIBERROR_RUNTIME_ERROR_GET_FAILED error_message.unable_to_retrieve_value
  | some value =>
  if and_not value.value_flags env.LIBESEDB_VALUE_FLAG_VARIABLE_SIZE = 0 then
    match value.value_data with
    | none => Outcome.mk 1 table_file_stream error
    | some value_data =>
      if value.value_data_size ≠ 8 then
        return_error table_file_stream error LIBERROR_ERROR_DOMAIN_ARGUMENTS
          LIBERROR_ARGUMENT_ERROR_UNSUPPORTED_VALUE error_message.unsupported_value_data_size
      else
        let value_64bit :=
          if byte_order = BYTE_STREAM_ENDIAN_BIG then
            byte_stream_copy_to_uint64_big_endian value_data
          else
            byte_stream_copy_to_uint64_little_endian value_data
        Outcome.mk 1 (fprintf table_file_stream (format_0x_PRIx64 value_64bit)) error
  else
    match value.value_data with
    | none => Outcome.mk 1 table_file_stream error
    | some value_data =>
      Outcome.mk 1 (while_fprintf_02x value.value_data_size value_data table_file_stream) error

/-- Exports a filetime value in a binary data table record value.
Returns 1 if successful or -1 on error. -/
def exchange_export_record_value_filetime (env : Collaborators)
    (record : Option libesedb_record_t) (record_value_entry : Int)
    (byte_order : BYTE_STREAM_ENDIAN) (table_file_stream : Option FILE)
    (error : List liberror_error) : Outcome :=
  match record with
  | none => return_error table_file_stream error LIBERROR_ERROR_DOMAIN_ARGUMENTS
      LIBERROR_ARGUMENT_ERROR_INVALID_VALUE error_message.invalid_record
  | some record =>
  if table_file_stream = none then
    return_error table_file_stream error LIBERROR_ERROR_DOMAIN_ARGUMENTS
      LIBERROR_ARGUMENT_ERROR_INVALID_VALUE error_message.invalid_table_file_stream
  else
  match record.get_column_type record_value_entry with
  | none => return_error table_file_stream error LIBERROR_ERROR_DOMAIN_RUNTIME
      LIBERROR_RUNTIME_ERROR_GET_FAILED error_message.unable_to_retrieve_column_type
  | some column_type =>
  if column_type ≠ LIBESEDB_COLUMN_TYPE_BINARY_DATA
      ∧ column_type ≠ LIBESEDB_COLUMN_TYPE_CURRENCY then
    return_error table_file_stream error LIBERROR_ERROR_DOMAIN_ARGUMENTS
      LIBERROR_ARGUMENT_ERROR_UNSUPPORTED_VALUE error_message.unsupported_column_type
  else
  match record.get_value record_value_entry with
  | none => return_error table_file_stream error LIBERROR_ERROR_DOMAIN_RUNTIME
      LIBERROR_RUNTIME_ERROR_GET_FAILED error_message.unable_to_retrieve_value
  | some value =>
  if and_not value.value_flags env.LIBESEDB_VALUE_FLAG_VARIABLE_SIZE = 0 then
    match value.value_data with
    | none => Outcome.mk 1 table_file_stream error
    | some value_data =>
      if value.value_data_size ≠ 8 then
        return_error table_file_stream error LIBERROR_ERROR_DOMAIN_ARGUMENTS
          LIBERROR_ARGUMENT_ERROR_UNSUPPORTED_VALUE error_message.unsupported_value_data_size
      else if env.libfdatetime_filetime_initialize_result ≠ true then
        return_error table_file_stream error LIBERROR_ERROR_DOMAIN_RUNTIME
          LIBERROR_RUNTIME_ERROR_INITIALIZE_FAILED error_message.unable_to_create
      else if env.libfdatetime_filetime_copy_from_byte_stream value_data
          value.value_data_size byte_order ≠ true then
        return_error table_file_stream error LIBERROR_ERROR_DOMAIN_RUNTIME
          LIBERROR_RUNTIME_ERROR_COPY_FAILED error_message.unable_to_copy_byte_stream
      else
        match env.libfdatetime_filetime_copy_to_utf8_string value_data byte_order with
        | none => return_error table_file_stream error LIBERROR_ERROR_DOMAIN_RUNTIME
            LIBERROR_RUNTIME_ERROR_COPY_FAILED error_message.unable_to_copy_to_string
        | some filetime_string =>
          if env.libfdatetime_filetime_free ≠ true then
            return_error table_file_stream error LIBERROR_ERROR_DOMAIN_RUNTIME
              LIBERROR_RUNTIME_ERROR_FINALIZE_FAILED error_message.unable_to_free
          else
            Outcome.mk 1 (fprintf table_file_stream filetime_string) error
  else
    match value.value_data with
    | none => Outcome.mk 1 table_file_stream error
    | some value_data =>
      Outcome.mk 1 (while_fprintf_02x value.value_data_size value_data table_file_stream) error

/-- Exports a GUID value in a binary data table record value.
Returns 1 if successful or -1 on error. -/
def exchange_export_record_value_guid (env : Collaborators) (record : Option libesedb_record_t)
    (record_value_entry : Int) (byte_order : BYTE_STREAM_ENDIAN)
    (table_file_stream : Option FILE) (error : List liberror_error) : Outcome :=
  match record with
  | none => return_error table_file_stream error LIBERROR_ERROR_DOMAIN_ARGUMENTS
      LIBERROR_ARGUMENT_ERROR_INVALID_VALUE error_message.invalid_record
  | some record =>
  if table_file_stream = none then
    return_error table_file_stream error LIBERROR_ERROR_DOMAIN_ARGUMENTS
      LIBERROR_ARGUMENT_ERROR_INVALID_VALUE error_message.invalid_table_file_stream
  else
  match record.get_column_type record_value_entry with
  | none => return_error table_file_stream error LIBERROR_ERROR_DOMAIN_RUNTIME
      LIBERROR_RUNTIME_ERROR_GET_FAILED error_message.unable_to_retrieve_column_type
  | some column_type =>
  if column_type ≠ LIBESEDB_COLUMN_TYPE_BINARY_DATA then
    return_error table_file_stream error LIBERROR_ERROR_DOMAIN_ARGUMENTS
      LIBERROR_ARGUMENT_ERROR_UNSUPPORTED_VALUE error_message.unsupported_column_type
  else
  match record.get_value record_value_entry with
  | none => return_error table_file_stream error LIBERROR_ERROR_DOMAIN_RUNTIME
      LIBERROR_RUNTIME_ERROR_GET_FAILED error_message.unable_to_retrieve_value
  | some value =>
  if and_not value.value_flags env.LIBESEDB_VALUE_FLAG_VARIABLE_SIZE = 0 then
    match value.value_data with
    | none => Outcome.mk 1 table_file_stream error
    | some value_data =>
      if value.value_data_size ≠ 16 then
        return_error table_file_stream error LIBERROR_ERROR_DOMAIN_ARGUMENTS
          LIBERROR_ARGUMENT_ERROR_UNSUPPORTED_VALUE error_message.unsupported_value_data_size
      else if env.libfguid_identifier_initialize_result ≠ true then
        return_error table_file_stream error LIBERROR_ERROR_DOMAIN_RUNTIME
          LIBERROR_RUNTIME_ERROR_INITIALIZE_FAILED error_message.unable_to_create
      else if env.libfguid_identifier_copy_from_byte_stream value_data
          value.value_data_size byte_order ≠ true then
        return_error table_file_stream error LIBERROR_ERROR_DOMAIN_RUNTIME
          LIBERROR_RUNTIME_ERROR_COPY_FAILED error_message.unable_to_copy_byte_stream
      else
        match env.libfguid_identifier_copy_to_utf8_string value_data byte_order with
        | none => return_error table_file_stream error LIBERROR_ERROR_DOMAIN_RUNTIME
            LIBERROR_RUNTIME_ERROR_COPY_FAILED error_message.unable_to_copy_to_string
        | some guid_string =>
          if env.libfguid_identifier_free ≠ true then
            return_error table_file_stream error LIBERROR_ERROR_DOMAIN_RUNTIME
              LIBERROR_RUNTIME_ERROR_FINALIZE_FAILED error_message.unable_to_free
          else
            Outcome.mk 1 (fprintf table_file_stream guid_string) error
  else
    match value.value_data with
    | none => Outcome.mk 1 table_file_stream error
    | some value_data =>
      Outcome.mk 1 (while_fprintf_02x value.value_data_size value_data table_file_stream) error

/-- Exports a SID value in a binary data table record value.
Returns 1 if successful or -1 on error. -/
def exchange_export_record_value_sid (env : Collaborators) (record : Option libesedb_record_t)
    (record_value_entry : Int) (table_file_stream : Option FILE)
    (error : List liberror_error) : Outcome :=
  match record with
  | none => return_error table_file_stream error LIBERROR_ERROR_DOMAIN_ARGUMENTS
      LIBERROR_ARGUMENT_ERROR_INVALID_VALUE error_message.invalid_record
  | some record =>
  if table_file_stream = none then
    return_error table_file_stream error LIBERROR_ERROR_DOMAIN_ARGUMENTS
      LIBERROR_ARGUMENT_ERROR_INVALID_VALUE error_message.invalid_table_file_stream
  else
  match record.get_column_type record_value_entry with
  | none => return_error table_file_stream error LIBERROR_ERROR_DOMAIN_RUNTIME
      LIBERROR_RUNTIME_ERROR_GET_FAILED error_message.unable_to_retrieve_column_type
  | some column_type =>
  if column_type ≠ LIBESEDB_COLUMN_TYPE_BINARY_DATA then
    return_error table_file_stream error LIBERROR_ERROR_DOMAIN_ARGUMENTS
      LIBERROR_ARGUMENT_ERROR_UNSUPPORTED_VALUE error_message.unsupported_column_type
  else
  match record.get_value record_value_entry with
  | none => return_error table_file_stream error LIBERROR_ERROR_DOMAIN_RUNTIME
      LIBERROR_RUNTIME_ERROR_GET_FAILED error_message.unable_to_retrieve_value
  | some value =>
  if and_not value.value_flags env.LIBESEDB_VALUE_FLAG_VARIABLE_SIZE = 0 then
    match value.value_data with
    | none => Outcome.mk 1 table_file_stream error
    | some value_data =>
      if env.libfwnt_security_identifier_initialize_result ≠ true then
        return_error table_file_stream error LIBERROR_ERROR_DOMAIN_RUNTIME
          LIBERROR_RUNTIME_ERROR_INITIALIZE_FAILED error_message.unable_to_create
      else if env.libfwnt_security_identifier_copy_from_byte_stream value_data
          value.value_data_size ≠ true then
        return_error table_file_stream error LIBERROR_ERROR_DOMAIN_RUNTIME
          LIBERROR_RUNTIME_ERROR_COPY_FAILED error_message.unable_to_copy_byte_stream
      else
        match env.libfwnt_security_identifier_get_string_size value_data with
        | none => return_error table_file_stream error LIBERROR_ERROR_DOMAIN_RUNTIME
            LIBERROR_RUNTIME_ERROR_GET_FAILED error_message.unable_to_retrieve_SID_string_size
        | some sid_string_size =>
          if sid_string_size > 128 then
            return_error table_file_stream error LIBERROR_ERROR_DOMAIN_RUNTIME
              LIBERROR_RUNTIME_ERROR_VALUE_OUT_OF_RANGE
              error_message.SID_string_size_exceeds_maximum
          else
            match env.libfwnt_security_identifier_copy_to_utf8_string value_data with
            | none => return_error table_file_stream error LIBERROR_ERROR_DOMAIN_RUNTIME
                LIBERROR_RUNTIME_ERROR_COPY_FAILED error_message.unable_to_copy_to_string
            | some sid_string =>
              if env.libfwnt_security_identifier_free ≠ true then
                return_error table_file_stream error LIBERROR_ERROR_DOMAIN_RUNTIME
                  LIBERROR_RUNTIME_ERROR_FINALIZE_FAILED error_message.unable_to_free
              else
                Outcome.mk 1 (fprintf table_file_stream sid_string) error
  else
    match value.value_data with
    | none => Outcome.mk 1 table_file_stream error
    | some value_data =>
      Outcome.mk 1 (while_fprintf_02x value.value_data_size value_data table_file_stream) error

/-- Exports a string in a binary data table record value.
Returns 1 if successful or -1 on error. -/
def exchange_export_record_value_string (record : Option libesedb_record_t)
    (record_value_entry : Int) (table_file_stream : Option FILE)
    (error : List liberror_error) : Outcome :=
  match record with
  | none => return_error table_file_stream error LIBERROR_ERROR_DOMAIN_ARGUMENTS
      LIBERROR_ARGUMENT_ERROR_INVALID_VALUE error_message.invalid_record
  | some record =>
  if table_file_stream = none then
    return_error table_file_stream error LIBERROR_ERROR_DOMAIN_ARGUMENTS
      LIBERROR_ARGUMENT_ERROR_INVALID_VALUE error_message.invalid_table_file_stream
  else
  match record.get_column_type record_value_entry with
  | none => return_error table_file_stream error LIBERROR_ERROR_DOMAIN_RUNTIME
      LIBERROR_RUNTIME_ERROR_GET_FAILED error_message.unable_to_retrieve_column_type
  | some column_type =>
  if column_type ≠ LIBESEDB_COLUMN_TYPE_BINARY_DATA
      ∧ column_type ≠ LIBESEDB_COLUMN_TYPE_LARGE_BINARY_DATA then
    return_error table_file_stream error LIBERROR_ERROR_DOMAIN_ARGUMENTS
      LIBERROR_ARGUMENT_ERROR_UNSUPPORTED_VALUE error_message.unsupported_column_type
  else
  match record.get_value record_value_entry with
  | none => return_error table_file_stream error LIBERROR_ERROR_DOMAIN_RUNTIME
      LIBERROR_RUNTIME_ERROR_GET_FAILED error_message.unable_to_retrieve_value
  | some value =>
    match value.value_data with
    | none => Outcome.mk 1 table_file_stream error
    | some value_data =>
      Outcome.mk 1 (while_fprintf_c value.value_data_size value_data table_file_stream) error

/-! ## Column classification -/

/-- Modelled from the spec: the libcstring comparison of the first `size`
characters of two strings (libcstring.h is not part of exchange.c); 0 exactly
when they agree, which is the only thing exchange.c tests. -/
def libcstring_system_string_compare (string1 string2 : List Char) (size : Nat) : Int :=
  if string1.take size = string2.take size then 0 else 1

/-- The classification of exchange_export_record_folders: the value of
`known_column_type` after the block that starts with
`known_column_type = EXCHANGE_KNOWN_COLUMN_TYPE_UNDEFINED`, as a function of
the name buffer, the name size and the column type. -/
def exchange_export_record_folders_known_column_type (column_name : List Char)
    (column_name_size : Nat) (column_type : LIBESEDB_COLUMN_TYPES) :
    EXCHANGE_KNOWN_COLUMN_TYPES :=
  if column_type = LIBESEDB_COLUMN_TYPE_CURRENCY then
    if column_name_size > 1 ∧ column_name_size ≤ 6 then
      if column_name[0]? = some 'T' then EXCHANGE_KNOWN_COLUMN_TYPE_FILETIME
      else if column_name[0]? = some 'Q' then EXCHANGE_KNOWN_COLUMN_TYPE_INTEGER_64BIT
      else EXCHANGE_KNOWN_COLUMN_TYPE_UNDEFINED
    else EXCHANGE_KNOWN_COLUMN_TYPE_UNDEFINED
  else if column_type = LIBESEDB_COLUMN_TYPE_BINARY_DATA
      ∨ column_type = LIBESEDB_COLUMN_TYPE_LARGE_BINARY_DATA then
    if column_name_size > 1 ∧ column_name_size ≤ 6 then
      if column_name[0]? = some 'L' then EXCHANGE_KNOWN_COLUMN_TYPE_UNDEFINED
      else if column_name[0]? = some 'S' then EXCHANGE_KNOWN_COLUMN_TYPE_STRING
      else if column_name[0]? = some 'T' then EXCHANGE_KNOWN_COLUMN_TYPE_FILETIME
      else if column_name[0]? = some 'Q' then EXCHANGE_KNOWN_COLUMN_TYPE_INTEGER_64BIT
      else if column_name_size = 5 then
        if libcstring_system_string_compare column_name ['N', 'e', '5', '8'] 4 = 0 then
          EXCHANGE_KNOWN_COLUMN_TYPE_SID
        else if libcstring_system_string_compare column_name ['N', 'e', '5', '9'] 4 = 0 then
          EXCHANGE_KNOWN_COLUMN_TYPE_SID
        else EXCHANGE_KNOWN_COLUMN_TYPE_UNDEFINED
      else if column_name_size = 6 then
        if libcstring_system_string_compare column_name ['N', '3', '8', '8', '0'] 5 = 0 then
          EXCHANGE_KNOWN_COLUMN_TYPE_GUID
        else EXCHANGE_KNOWN_COLUMN_TYPE_UNDEFINED
      else EXCHANGE_KNOWN_COLUMN_TYPE_UNDEFINED
    else EXCHANGE_KNOWN_COLUMN_TYPE_UNDEFINED
  else EXCHANGE_KNOWN_COLUMN_TYPE_UNDEFINED

/-- The classification of exchange_export_record_mailbox: the value of
`known_column_type` after the block that starts with
`known_column_type = EXCHANGE_KNOWN_COLUMN_TYPE_UNDEFINED`, as a function of
the name buffer, the name size and the column type. -/
def exchange_export_record_mailbox_known_column_type (column_name : List Char)
    (column_name_size : Nat) (column_type : LIBESEDB_COLUMN_TYPES) :
    EXCHANGE_KNOWN_COLUMN_TYPES :=
  if column_type = LIBESEDB_COLUMN_TYPE_CURRENCY then
    if column_name_size > 1 ∧ column_name_size ≤ 6 then
      if column_name[0]? = some 'T' then EXCHANGE_KNOWN_COLUMN_TYPE_FILETIME
      else if column_name[0]? = some 'Q' then EXCHANGE_KNOWN_COLUMN_TYPE_INTEGER_64BIT
      else EXCHANGE_KNOWN_COLUMN_TYPE_UNDEFINED
    else EXCHANGE_KNOWN_COLUMN_TYPE_UNDEFINED
  else if column_type = LIBESEDB_COLUMN_TYPE_BINARY_DATA
      ∨ column_type = LIBESEDB_COLUMN_TYPE_LARGE_BINARY_DATA then
    if column_name_size > 1 ∧ column_name_size ≤ 6 then
      if column_name[0]? = some 'L' then EXCHANGE_KNOWN_COLUMN_TYPE_UNDEFINED
      else if column_name[0]? = some 'S' then EXCHANGE_KNOWN_COLUMN_TYPE_STRING
      else if column_name[0]? = some 'T' then EXCHANGE_KNOWN_COLUMN_TYPE_FILETIME
      else if column_name[0]? = some 'Q' then EXCHANGE_KNOWN_COLUMN_TYPE_INTEGER_64BIT
      else if column_name_size = 6 then
        if libcstring_system_string_compare column_name ['N', '6', '6', 'a', '0'] 5 = 0 then
          EXCHANGE_KNOWN_COLUMN_TYPE_SID
        else if libcstring_system_string_compare column_name ['N', '6', '7', '6', 'a'] 5 = 0 then
          EXCHANGE_KNOWN_COLUMN_TYPE_GUID
        else if libcstring_system_string_compare column_name ['N', '6', '7', '6', 'c'] 5 = 0 then
          EXCHANGE_KNOWN_COLUMN_TYPE_GUID
        else EXCHANGE_KNOWN_COLUMN_TYPE_UNDEFINED
      else EXCHANGE_KNOWN_COLUMN_TYPE_UNDEFINED
    else EXCHANGE_KNOWN_COLUMN_TYPE_UNDEFINED
  else EXCHANGE_KNOWN_COLUMN_TYPE_UNDEFINED

/-! ## The record exporters

The two exporters are the same text except for the classification block, so
the loop body and the loop are written once, with the classification as an
argument. -/

/-- The chain `if( known_column_type == ... ) result = exchange_export_record_value_...`
of the loop body: the exporter called for a known column type and what it
leaves.  `byte_order` is the local variable of the record exporter. -/
def exchange_export_record_dispatch (env : Collaborators) (record : libesedb_record_t)
    (value_iterator : Int) (byte_order : BYTE_STREAM_ENDIAN)
    (known_column_type : EXCHANGE_KNOWN_COLUMN_TYPES) (table_file_stream : Option FILE)
    (error : List liberror_error) : Outcome :=
  match known_column_type with
  | EXCHANGE_KNOWN_COLUMN_TYPE_INTEGER_32BIT =>
      exchange_export_record_value_32bit env (some record) value_iterator byte_order
        table_file_stream error
  | EXCHANGE_KNOWN_COLUMN_TYPE_INTEGER_64BIT =>
      exchange_export_record_value_64bit env (some record) value_iterator byte_order
        table_file_stream error
  | EXCHANGE_KNOWN_COLUMN_TYPE_FILETIME =>
      exchange_export_record_value_filetime env (some record) value_iterator byte_order
        table_file_stream error
  | EXCHANGE_KNOWN_COLUMN_TYPE_GUID =>
      exchange_export_record_value_guid env (some record) value_iterator byte_order
        table_file_stream error
  | EXCHANGE_KNOWN_COLUMN_TYPE_SID =>
      exchange_export_record_value_sid env (some record) value_iterator table_file_stream error
  | EXCHANGE_KNOWN_COLUMN_TYPE_STRING =>
      exchange_export_record_value_string (some record) value_iterator table_file_stream error
  | EXCHANGE_KNOWN_COLUMN_TYPE_UNDEFINED =>
      Outcome.mk (env.export_handle_export_record_value record value_iterator).1
        (fprintf table_file_stream (env.export_handle_export_record_value record value_iterator).2)
        error

/-- The body of the loop `for( value_iterator = 0; ... )` up to and including
the test `if( result != 1 )`: the column name and column type are read, the
value is classified by `known_column_type` and exported.  The result is 1
when the loop goes on to write the separator and -1 when the record exporter
returns -1. -/
def exchange_export_record_value
    (known_column_type : List Char → Nat → LIBESEDB_COLUMN_TYPES → EXCHANGE_KNOWN_COLUMN_TYPES)
    (env : Collaborators) (record : libesedb_record_t) (value_iterator : Int)
    (table_file_stream : Option FILE) (error : List liberror_error) : Outcome :=
  match record.get_utf8_column_name_size value_iterator with
  | none => return_error table_file_stream error LIBERROR_ERROR_DOMAIN_RUNTIME
      LIBERROR_RUNTIME_ERROR_GET_FAILED error_message.unable_to_retrieve_column_name_size
  | some column_name_size =>
  if column_name_size > 256 then
    return_error table_file_stream error LIBERROR_ERROR_DOMAIN_RUNTIME
      LIBERROR_RUNTIME_ERROR_VALUE_OUT_OF_RANGE error_message.column_name_size_exceeds_maximum
  else
  match record.get_utf8_column_name value_iterator column_name_size with
  | none => return_error table_file_stream error LIBERROR_ERROR_DOMAIN_RUNTIME
      LIBERROR_RUNTIME_ERROR_GET_FAILED error_message.unable_to_retrieve_column_name
  | some column_name =>
  match record.get_column_type value_iterator with
  | none => return_error table_file_stream error LIBERROR_ERROR_DOMAIN_RUNTIME
      LIBERROR_RUNTIME_ERROR_GET_FAILED error_message.unable_to_retrieve_column_type
  | some column_type =>
  let exported := exchange_export_record_dispatch env record value_iterator
    BYTE_STREAM_ENDIAN_LITTLE (known_column_type column_name column_name_size column_type)
    table_file_stream error
  if exported.result ≠ 1 then
    return_error exported.table_file_stream exported.error LIBERROR_ERROR_DOMAIN_RUNTIME
      LIBERROR_RUNTIME_ERROR_GENERIC error_message.unable_to_export_record_value
  else exported

/-- The loop `for( value_iterator = 0; value_iterator < number_of_values;
value_iterator++ )` followed by `return( 1 )`.  The first argument is the
number of iterations still to run, `number_of_values - value_iterator` (0 when
`value_iterator < number_of_values` is false); the loop is entered with
`number_of_values.toNat` and `value_iterator = 0`. -/
def exchange_export_record_loop
    (known_column_type : List Char → Nat → LIBESEDB_COLUMN_TYPES → EXCHANGE_KNOWN_COLUMN_TYPES)
    (env : Collaborators) (record : libesedb_record_t) (number_of_values : Int) :
    Nat → Int → Option FILE → List liberror_error → Outcome
  | 0, _, table_file_stream, error => Outcome.mk 1 table_file_stream error
  | remaining + 1, value_iterator, table_file_stream, error =>
    let exported := exchange_export_record_value known_column_type env record value_iterator
      table_file_stream error
    if exported.result ≠ 1 then exported
    else if value_iterator = number_of_values - 1 then
      exchange_export_record_loop known_column_type env record number_of_values remaining
        (value_iterator + 1) (fprintf exported.table_file_stream ['\n']) exported.error
    else
      exchange_export_record_loop known_column_type env record number_of_values remaining
        (value_iterator + 1) (fprintf exported.table_file_stream ['\t']) exported.error

/-- The record exporter with the classification block left open: argument
checks, `libesedb_record_get_number_of_values`, the loop. -/
def exchange_export_record
    (known_column_type : List Char → Nat → LIBESEDB_COLUMN_TYPES → EXCHANGE_KNOWN_COLUMN_TYPES)
    (env : Collaborators) (record : Option libesedb_record_t)
    (table_file_stream : Option FILE) (error : List liberror_error) : Outcome :=
  match record with
  | none => return_error table_file_stream error LIBERROR_ERROR_DOMAIN_ARGUMENTS
      LIBERROR_ARGUMENT_ERROR_INVALID_VALUE error_message.invalid_record
  | some record =>
  if table_file_stream = none then
    return_error table_file_stream error LIBERROR_ERROR_DOMAIN_ARGUMENTS
      LIBERROR_ARGUMENT_ERROR_INVALID_VALUE error_message.invalid_table_file_stream
  else
  match record.get_number_of_values with
  | none => return_error table_file_stream error LIBERROR_ERROR_DOMAIN_RUNTIME
      LIBERROR_RUNTIME_ERROR_GET_FAILED error_message.unable_to_retrieve_number_of_values
  | some number_of_values =>
    exchange_export_record_loop known_column_type env record number_of_values
      number_of_values.toNat 0 table_file_stream error

/-- Exports the values in a Folders table record.
Returns 1 if successful or -1 on error. -/
def exchange_export_record_folders (env : Collaborators) (record : Option libesedb_record_t)
    (table_file_stream : Option FILE) (error : List liberror_error) : Outcome :=
  exchange_export_record exchange_export_record_folders_known_column_type env record
    table_file_stream error

/-- Exports the values in a Mailbox table record.
Returns 1 if successful or -1 on error. -/
def exchange_export_record_mailbox (env : Collaborators) (record : Option libesedb_record_t)
    (table_file_stream : Option FILE) (error : List liberror_error) : Outcome :=
  exchange_export_record exchange_export_record_mailbox_known_column_type env record
    table_file_stream error

/-! ## Collaborators for the examples -/

/-- Collaborators for the examples: the variable-size flag is bit 0 (0x01),
every codec step succeeds, the codecs and the generic exporter produce the
fixed texts "<filetime>", "<guid>", "<sid>" and "<generic>". -/
def example_collaborators : Collaborators :=
  Collaborators.mk 1
    true (fun _ _ _ => true) (fun _ _ => some "<filetime>".toList) true
    true (fun _ _ _ => true) (fun _ _ => some "<guid>".toList) true
    true (fun _ _ => true) (fun _ => some 7) (fun _ => some "<sid>".toList) true
    (fun _ _ => (1, "<generic>".toList))

/-! ## The column names libesedb reports, and records for the examples -/

/-- Modelled from the spec: the name buffer libesedb fills for a column called
`name` (libesedb is not part of exchange.c): the characters of the name
followed by the end-of-string character. -/
def utf8_column_name (name : List Char) : List Char :=
  name ++ ['\x00']

/-- Modelled from the spec: the name size libesedb reports for a column called
`name` (libesedb is not part of exchange.c): it counts the end-of-string
character, so that a name of at most 255 characters has a size of at most 256,
the capacity of the name buffer of exchange.c. -/
def utf8_column_name_size (name : List Char) : Nat :=
  name.length + 1

/-- A record in which every entry has the same column name, column type and
value; the name is stored with its end-of-string character and the name size
counts it. -/
def uniform_record (number_of_values : Int) (name : List Char)
    (column_type : LIBESEDB_COLUMN_TYPES) (value : libesedb_value) : libesedb_record_t :=
  libesedb_record_t.mk (some number_of_values) (fun _ => some (utf8_column_name_size name))
    (fun _ _ => some (utf8_column_name name)) (fun _ => some column_type) (fun _ => some value)

/-! ## Notions used to state the properties -/

/-- The lowercase hexadecimal dump of a byte sequence: two digits per byte,
high nibble first, in the order of the bytes. -/
def hex_dump (value_data : List uint8_t) : List Char :=
  (value_data.map format_02x).flatten

/-- The text an exporter call appends to the stream: what it leaves on a
stream that was empty before the call. -/
def appended_text (call : Option FILE → List liberror_error → Outcome) : List Char :=
  (call (some []) []).table_file_stream.getD []

/-- The return value of an exporter call on an open stream. -/
def returned (call : Option FILE → List liberror_error → Outcome) : Int :=
  (call (some []) []).result

/-- The field text of position `value_iterator`: what the loop body (name and
type lookup, classification, the exporter it dispatches to) appends. -/
def field_text
    (known_column_type : List Char → Nat → LIBESEDB_COLUMN_TYPES → EXCHANGE_KNOWN_COLUMN_TYPES)
    (env : Collaborators) (record : libesedb_record_t) (value_iterator : Int) : List Char :=
  appended_text (exchange_export_record_value known_column_type env record value_iterator)

/-- Position `value_iterator` exports successfully: the lookups succeed, the
name fits the buffer and the exporter dispatched to returns 1. -/
def exports_successfully
    (known_column_type : List Char → Nat → LIBESEDB_COLUMN_TYPES → EXCHANGE_KNOWN_COLUMN_TYPES)
    (env : Collaborators) (record : libesedb_record_t) (value_iterator : Int) : Prop :=
  returned (exchange_export_record_value known_column_type env record value_iterator) = 1

instance exports_successfully_decidable
    (known_column_type : List Char → Nat → LIBESEDB_COLUMN_TYPES → EXCHANGE_KNOWN_COLUMN_TYPES)
    (env : Collaborators) (record : libesedb_record_t) (value_iterator : Int) :
    Decidable (exports_successfully known_column_type env record value_iterator) :=
  inferInstanceAs (Decidable (returned
    (exchange_export_record_value known_column_type env record value_iterator) = 1))

/-- The separator the loop writes after position `value_iterator`. -/
def separator (number_of_values : Int) (value_iterator : Int) : Char :=
  if value_iterator = number_of_values - 1 then '\n' else '\t'

/-- The call only appends: on any open stream and any error list it returns
what it returns on an empty stream and an empty error list, with its text
appended to the stream and its errors appended to the error list. -/
def appends (call : Option FILE → List liberror_error → Outcome) : Prop :=
  ∀ (written : FILE) (error : List liberror_error),
    call (some written) error
      = Outcome.mk (returned call) (some (written ++ appended_text call))
          (error ++ (call (some []) []).error)

/-- Two records answer alike at entry `value_iterator`: the four accessors
that the loop body and the exporters call for that entry, and the generic
exporter for that entry. -/
def same_entry (env : Collaborators) (record record' : libesedb_record_t)
    (value_iterator : Int) : Prop :=
  record.get_utf8_column_name_size value_iterator
      = record'.get_utf8_column_name_size value_iterator
  ∧ record.get_utf8_column_name value_iterator = record'.get_utf8_column_name value_iterator
  ∧ record.get_column_type value_iterator = record'.get_column_type value_iterator
  ∧ record.get_value value_iterator = record'.get_value value_iterator
  ∧ env.export_handle_export_record_value record value_iterator
      = env.export_handle_export_record_value record' value_iterator

/-- Position `value_iterator` fails in a lookup, on the name size, or in a
typed exporter: the name size lookup fails, or the name size exceeds 256, or
the name lookup fails, or the column type lookup fails, or the value is
classified with a kind other than Undefined and the exporter dispatched for
that kind does not return 1. -/
def fails_in_lookup_or_typed_exporter
    (known_column_type : List Char → Nat → LIBESEDB_COLUMN_TYPES → EXCHANGE_KNOWN_COLUMN_TYPES)
    (env : Collaborators) (record : libesedb_record_t) (value_iterator : Int) : Prop :=
  record.get_utf8_column_name_size value_iterator = none
  ∨ ∃ column_name_size,
      record.get_utf8_column_name_size value_iterator = some column_name_size
      ∧ (256 < column_name_size
        ∨ record.get_utf8_column_name value_iterator column_name_size = none
        ∨ ∃ column_name,
            record.get_utf8_column_name value_iterator column_name_size = some column_name
            ∧ (record.get_column_type value_iterator = none
              ∨ ∃ column_type,
                  record.get_column_type value_iterator = some column_type
                  ∧ known_column_type column_name column_name_size column_type
                      ≠ EXCHANGE_KNOWN_COLUMN_TYPE_UNDEFINED
                  ∧ returned (exchange_export_record_dispatch env record value_iterator
                      BYTE_STREAM_ENDIAN_LITTLE
                      (known_column_type column_name column_name_size column_type)) ≠ 1))

/-- The value of a lowercase hexadecimal digit: its position in
"0123456789abcdef" (16 for any other character). -/
def digit_value (c : Char) : Nat :=
  "0123456789abcdef".toList.indexOf c

/-- The number that a string of digits denotes in `base`, most significant
digit first. -/
def digits_value (base : Nat) (digits : List Char) : Nat :=
  digits.foldl (fun value c => value * base + digit_value c) 0

/-- Modelled from the spec: the canonical GUID text form that the GUID codec
(libfguid, not part of exchange.c) renders from the 16 bytes of a GUID: groups
of 8, 4, 4, 4 and 12 lowercase hexadecimal digits separated by '-'.  In
little-endian byte order the first three groups are a 32-bit and two 16-bit
values stored least significant byte first; the last two groups are the
remaining bytes in their order. -/
def libfguid_identifier_canonical_string (value_data : List uint8_t)
    (byte_order : BYTE_STREAM_ENDIAN) : List Char :=
  let group := fun (indices : List Nat) =>
    (indices.map (fun i => format_02x (value_data.getD i 0))).flatten
  if byte_order = BYTE_STREAM_ENDIAN_LITTLE then
    group [3, 2, 1, 0] ++ ['-'] ++ group [5, 4] ++ ['-'] ++ group [7, 6] ++ ['-']
      ++ group [8, 9] ++ ['-'] ++ group [10, 11, 12, 13, 14, 15]
  else
    group [0, 1, 2, 3] ++ ['-'] ++ group [4, 5] ++ ['-'] ++ group [6, 7] ++ ['-']
      ++ group [8, 9] ++ ['-'] ++ group [10, 11, 12, 13, 14, 15]

/-- Collaborators for the examples whose GUID codec renders the canonical
text; everything else as in `example_collaborators`. -/
def example_collaborators_canonical_guid : Collaborators :=
  Collaborators.mk 1
    true (fun _ _ _ => true) (fun _ _ => some "<filetime>".toList) true
    true (fun _ _ _ => true)
    (fun value_data byte_order =>
      some (libfguid_identifier_canonical_string value_data byte_order)) true
    true (fun _ _ => true) (fun _ => some 7) (fun _ => some "<sid>".toList) true
    (fun _ _ => (1, "<generic>".toList))

/-- A record given by the list of its columns (name, column type and value of
each entry): the accessors succeed for the entries of the list and for no
other entry; names are stored with their end-of-string character. -/
def record_of_columns (columns : List (List Char × LIBESEDB_COLUMN_TYPES × libesedb_value)) :
    libesedb_record_t :=
  libesedb_record_t.mk (some columns.length)
    (fun entry => if entry < 0 then none
      else (columns[entry.toNat]?).map (fun column => utf8_column_name_size column.1))
    (fun entry _ => if entry < 0 then none
      else (columns[entry.toNat]?).map (fun column => utf8_column_name column.1))
    (fun entry => if entry < 0 then none
      else (columns[entry.toNat]?).map (fun column => column.2.1))
    (fun entry => if entry < 0 then none
      else (columns[entry.toNat]?).map (fun column => column.2.2))

/-- The record whose values carry the flags `value_flags f` where `record` has
the flags `f`; everything else is as in `record`. -/
def with_value_flags (record : libesedb_record_t) (value_flags : Nat → Nat) :
    libesedb_record_t :=
  libesedb_record_t.mk record.get_number_of_values record.get_utf8_column_name_size
    record.get_utf8_column_name record.get_column_type
    (fun entry => (record.get_value entry).map (fun value =>
      libesedb_value.mk value.value_data value.value_data_size
        (value_flags value.value_flags)))

/-- One iteration of the loop `while( value_data_size > 0 )` of the hexadecimal
dump, on the state of the loop (the size left, the data under the pointer, the
stream): the byte under the pointer is printed with "%02x", the pointer
advances by one and the size decreases by one.  The loop runs an iteration
when the size of the state is greater than 0. -/
def while_fprintf_02x_iteration :
    Nat × List uint8_t × Option FILE → Nat × List uint8_t × Option FILE
  | (value_data_size, byte :: value_data, table_file_stream) =>
      (value_data_size - 1, value_data, fprintf table_file_stream (format_02x byte))
  | (value_data_size, [], table_file_stream) => (value_data_size - 1, [], table_file_stream)

/-- Reading a text pairwise as hexadecimal: every two characters give one
number, the first character being the high digit. -/
def hex_parse : List Char → List Nat
  | high :: low :: text => (digit_value high * 16 + digit_value low) :: hex_parse text
  | _ => []

/-- The call is atomic with respect to the stream: on every stream and error
list it returns 1 or -1; when it returns -1 the stream is as it was before the
call; when the stream is not as it was before the call, it returns 1. -/
def atomic (call : Option FILE → List liberror_error → Outcome) : Prop :=
  ∀ (table_file_stream : Option FILE) (error : List liberror_error),
    ((call table_file_stream error).result = 1 ∨ (call table_file_stream error).result = -1)
    ∧ ((call table_file_stream error).result = -1 →
      (call table_file_stream error).table_file_stream = table_file_stream)
    ∧ ((call table_file_stream error).table_file_stream ≠ table_file_stream →
      (call table_file_stream error).result = 1)

/-- Modelled from the spec: the month names of the ctime style date that the
FILETIME codec (libfdatetime, not part of exchange.c) renders; `month` counts
from 0. -/
def libfdatetime_month_string : Nat → List Char
  | 0 => "Jan".toList
  | 1 => "Feb".toList
  | 2 => "Mar".toList
  | 3 => "Apr".toList
  | 4 => "May".toList
  | 5 => "Jun".toList
  | 6 => "Jul".toList
  | 7 => "Aug".toList
  | 8 => "Sep".toList
  | 9 => "Oct".toList
  | 10 => "Nov".toList
  | _ => "Dec".toList

/-- Modelled from the spec: the month (counted from 0) and the day in the month
(counted from 0) of a day in the year (counted from 0), given the lengths of
the months that are left and the number of the first of them. -/
def libfdatetime_month_and_day : List Nat → Nat → Nat → Nat × Nat
  | [], month, day => (month, day)
  | days_in_month :: months, month, day =>
    if day < days_in_month then (month, day)
    else libfdatetime_month_and_day months (month + 1) (day - days_in_month)

/-- Modelled from the spec: the calendar date (year, month counted from 0, day
of the month counted from 1) of a number of days since 1 January 1601 in the
Gregorian calendar: 146097 days in 400 years, 36524 in a century that does not
end the 400 years, 1461 in 4 years that do not end such a century. -/
def libfdatetime_date_of_days (days : Nat) : Nat × Nat × Nat :=
  let centuries := min (days % 146097 / 36524) 3
  let days_in_century := days % 146097 - centuries * 36524
  let years := min (days_in_century % 1461 / 365) 3
  let day_of_year := days_in_century % 1461 - years * 365
  let leap := if years = 3 ∧ (days_in_century / 1461 ≠ 24 ∨ centuries = 3) then 1 else 0
  let month_and_day := libfdatetime_month_and_day
    [31, 28 + leap, 31, 30, 31, 30, 31, 31, 30, 31, 30, 31] 0 day_of_year
  (1601 + 400 * (days / 146097) + 100 * centuries + 4 * (days_in_century / 1461) + years,
    month_and_day.1, month_and_day.2 + 1)

/-- Modelled from the spec: two decimal digits, the text of "%02d" for a value
below 100 (a day of the month, an hour, a minute or a second). -/
def format_02u (value : Nat) : List Char :=
  [Nat.digitChar (value / 10 % 10), Nat.digitChar (value % 10)]

/-- Modelled from the spec: the date-time string in ctime style that the
FILETIME codec (libfdatetime, not part of exchange.c) renders from the 8 bytes
of a FILETIME, the number of 100 nanosecond intervals since 1 January 1601:
month name, day, year, hours, minutes and seconds as in
"Jan 01, 1601 00:00:00". -/
def libfdatetime_filetime_ctime_string (value_data : List uint8_t)
    (byte_order : BYTE_STREAM_ENDIAN) : List Char :=
  let filetime :=
    if byte_order = BYTE_STREAM_ENDIAN_BIG then byte_stream_copy_to_uint64_big_endian value_data
    else byte_stream_copy_to_uint64_little_endian value_data
  let seconds := filetime / 10000000
  let date := libfdatetime_date_of_days (seconds / 86400)
  libfdatetime_month_string date.2.1 ++ [' '] ++ format_02u date.2.2 ++ [',', ' ']
    ++ Nat.toDigits 10 date.1 ++ [' '] ++ format_02u (seconds / 3600 % 24) ++ [':']
    ++ format_02u (seconds / 60 % 60) ++ [':'] ++ format_02u (seconds % 60)

/-- Collaborators for the examples whose FILETIME codec renders the ctime style
string; everything else as in `example_collaborators`. -/
def example_collaborators_ctime_filetime : Collaborators :=
  Collaborators.mk 1
    true (fun _ _ _ => true)
    (fun value_data byte_order =>
      some (libfdatetime_filetime_ctime_string value_data byte_order)) true
    true (fun _ _ _ => true) (fun _ _ => some "<guid>".toList) true
    true (fun _ _ => true) (fun _ => some 7) (fun _ => some "<sid>".toList) true
    (fun _ _ => (1, "<generic>".toList))

/-- The statement `if( result != 1 )` that follows the chain of the loop body,
applied to what the exporter called by the chain left: when the exporter did
not return 1 the error "unable to export record value" is set and -1 is
returned, otherwise the loop goes on with what the exporter left. -/
def after_export (exported : Outcome) : Outcome :=
  if exported.result ≠ 1 then
    return_error exported.table_file_stream exported.error LIBERROR_ERROR_DOMAIN_RUNTIME
      LIBERROR_RUNTIME_ERROR_GENERIC error_message.unable_to_export_record_value
  else exported

/-- Every position whose name size, name and column type lookups answer
`column_name_size`, `column_name` and `column_type` is exported by the loop body
with `exporter`, one and the same function of the record and the position:
whatever the record, the position, the stream and the error list are, the loop
body is the call of `exporter` followed by the test of its result. -/
def exported_with
    (known_column_type : List Char → Nat → LIBESEDB_COLUMN_TYPES → EXCHANGE_KNOWN_COLUMN_TYPES)
    (env : Collaborators) (column_name_size : Nat) (column_name : List Char)
    (column_type : LIBESEDB_COLUMN_TYPES)
    (exporter : libesedb_record_t → Int → Option FILE → List liberror_error → Outcome) :
    Prop :=
  ∀ (record : libesedb_record_t) (value_iterator : Int) (table_file_stream : Option FILE)
    (error : List liberror_error),
    record.get_utf8_column_name_size value_iterator = some column_name_size →
    record.get_utf8_column_name value_iterator column_name_size = some column_name →
    record.get_column_type value_iterator = some column_type →
    exchange_export_record_value known_column_type env record value_iterator
        table_file_stream error
      = after_export (exporter record value_iterator table_file_stream error)

/-! ## Lemmas on the output primitives and the exporters -/

theorem fprintf_some (written text : List Char) :
    fprintf (some written) text = some (written ++ text) := rfl

theorem while_fprintf_02x_some (value_data_size : Nat) (value_data : List uint8_t)
    (written : FILE) :
    while_fprintf_02x value_data_size value_data (some written)
      = some (written ++ hex_dump (value_data.take value_data_size)) := by
  induction value_data_size generalizing value_data written with
  | zero => simp [while_fprintf_02x, hex_dump]
  | succ n ih =>
    cases value_data with
    | nil => simp [while_fprintf_02x, hex_dump]
    | cons b rest =>
      have h := ih rest (written ++ format_02x b)
      simp only [hex_dump] at h
      simp [while_fprintf_02x, fprintf_some, h, hex_dump]

theorem while_fprintf_c_some (value_data_size : Nat) (value_data : List uint8_t)
    (written : FILE) :
    while_fprintf_c value_data_size value_data (some written)
      = some (written ++ ((value_data.take value_data_size).map
          (fun byte => Char.ofNat byte.val))) := by
  induction value_data_size generalizing value_data written with
  | zero => simp [while_fprintf_c]
  | succ n ih =>
    cases value_data with
    | nil => simp [while_fprintf_c]
    | cons b rest => simp [while_fprintf_c, fprintf_some, ih, format_c]

/-- A flag bit outside the mask survives `value_flags & ~( mask )`. -/
theorem and_not_ne_zero (value_flags mask i : Nat) (hset : value_flags.testBit i = true)
    (hout : mask.testBit i = false) : and_not value_flags mask ≠ 0 := by
  intro h
  have hbit : (and_not value_flags mask).testBit i = true := by
    simp [and_not, Nat.testBit_xor, Nat.testBit_and, hset, hout]
  rw [h] at hbit
  simp at hbit

/-- No flag bit at all: `value_flags & ~( mask )` is 0. -/
theorem and_not_zero (mask : Nat) : and_not 0 mask = 0 := by
  simp [and_not]

/-- The flags equal to the mask: `value_flags & ~( mask )` is 0. -/
theorem and_not_self (mask : Nat) : and_not mask mask = 0 := by
  simp [and_not]

theorem exchange_export_record_value_32bit_appends (env : Collaborators)
    (record : Option libesedb_record_t) (record_value_entry : Int)
    (byte_order : BYTE_STREAM_ENDIAN) :
    appends (exchange_export_record_value_32bit env record record_value_entry byte_order) := by
  intro written error
  unfold returned appended_text exchange_export_record_value_32bit
  repeat' split
  all_goals simp_all [return_error, liberror_error_set, fprintf_some, while_fprintf_02x_some]

theorem exchange_export_record_value_64bit_appends (env : Collaborators)
    (record : Option libesedb_record_t) (record_value_entry : Int)
    (byte_order : BYTE_STREAM_ENDIAN) :
    appends (exchange_export_record_value_64bit env record record_value_entry byte_order) := by
  intro written error
  unfold returned appended_text exchange_export_record_value_64bit
  repeat' split
  all_goals simp_all [return_error, liberror_error_set, fprintf_some, while_fprintf_02x_some]

theorem exchange_export_record_value_filetime_appends (env : Collaborators)
    (record : Option libesedb_record_t) (record_value_entry : Int)
    (byte_order : BYTE_STREAM_ENDIAN) :
    appends (exchange_export_record_value_filetime env record record_value_entry byte_order) := by
  intro written error
  unfold returned appended_text exchange_export_record_value_filetime
  repeat' split
  all_goals simp_all [return_error, liberror_error_set, fprintf_some, while_fprintf_02x_some]

theorem exchange_export_record_value_guid_appends (env : Collaborators)
    (record : Option libesedb_record_t) (record_value_entry : Int)
    (byte_order : BYTE_STREAM_ENDIAN) :
    appends (exchange_export_record_value_guid env record record_value_entry byte_order) := by
  intro written error
  unfold returned appended_text exchange_export_record_value_guid
  repeat' split
  all_goals simp_all [return_error, liberror_error_set, fprintf_some, while_fprintf_02x_some]

theorem exchange_export_record_value_sid_appends (env : Collaborators)
    (record : Option libesedb_record_t) (record_value_entry : Int) :
    appends (exchange_export_record_value_sid env record record_value_entry) := by
  intro written error
  unfold returned appended_text exchange_export_record_value_sid
  repeat' split
  all_goals simp_all [return_error, liberror_error_set, fprintf_some, while_fprintf_02x_some]

theorem exchange_export_record_value_string_appends
    (record : Option libesedb_record_t) (record_value_entry : Int) :
    appends (exchange_export_record_value_string record record_value_entry) := by
  intro written error
  unfold returned appended_text exchange_export_record_value_string
  repeat' split
  all_goals simp_all [return_error, liberror_error_set, fprintf_some, while_fprintf_c_some]

theorem exchange_export_record_dispatch_appends (env : Collaborators)
    (record : libesedb_record_t) (value_iterator : Int) (byte_order : BYTE_STREAM_ENDIAN)
    (known_column_type : EXCHANGE_KNOWN_COLUMN_TYPES) :
    appends (exchange_export_record_dispatch env record value_iterator byte_order
      known_column_type) := by
  cases known_column_type
  case EXCHANGE_KNOWN_COLUMN_TYPE_UNDEFINED =>
    intro written error
    simp [exchange_export_record_dispatch, returned, appended_text, fprintf_some]
  case EXCHANGE_KNOWN_COLUMN_TYPE_INTEGER_32BIT =>
    exact exchange_export_record_value_32bit_appends env (some record) value_iterator byte_order
  case EXCHANGE_KNOWN_COLUMN_TYPE_INTEGER_64BIT =>
    exact exchange_export_record_value_64bit_appends env (some record) value_iterator byte_order
  case EXCHANGE_KNOWN_COLUMN_TYPE_FILETIME =>
    exact exchange_export_record_value_filetime_appends env (some record) value_iterator
      byte_order
  case EXCHANGE_KNOWN_COLUMN_TYPE_GUID =>
    exact exchange_export_record_value_guid_appends env (some record) value_iterator byte_order
  case EXCHANGE_KNOWN_COLUMN_TYPE_SID =>
    exact exchange_export_record_value_sid_appends env (some record) value_iterator
  case EXCHANGE_KNOWN_COLUMN_TYPE_STRING =>
    exact exchange_export_record_value_string_appends (some record) value_iterator

theorem exchange_export_record_dispatch_success_error (env : Collaborators)
    (record : libesedb_record_t) (value_iterator : Int) (byte_order : BYTE_STREAM_ENDIAN)
    (known_column_type : EXCHANGE_KNOWN_COLUMN_TYPES)
    (h : (exchange_export_record_dispatch env record value_iterator byte_order
      known_column_type (some []) []).result = 1) :
    (exchange_export_record_dispatch env record value_iterator byte_order
      known_column_type (some []) []).error = [] := by
  revert h
  cases known_column_type <;>
    simp only [exchange_export_record_dispatch, exchange_export_record_value_32bit,
      exchange_export_record_value_64bit, exchange_export_record_value_filetime,
      exchange_export_record_value_guid, exchange_export_record_value_sid,
      exchange_export_record_value_string] <;>
    (repeat' split) <;> simp_all [return_error]

theorem exchange_export_record_value_appends
    (known_column_type : List Char → Nat → LIBESEDB_COLUMN_TYPES → EXCHANGE_KNOWN_COLUMN_TYPES)
    (env : Collaborators) (record : libesedb_record_t) (value_iterator : Int) :
    appends (exchange_export_record_value known_column_type env record value_iterator) := by
  intro written error
  unfold returned appended_text
  cases hsize : record.get_utf8_column_name_size value_iterator with
  | none => simp [exchange_export_record_value, hsize, return_error, liberror_error_set]
  | some column_name_size =>
    by_cases hbig : column_name_size > 256
    · simp [exchange_export_record_value, hsize, hbig, return_error, liberror_error_set]
    · cases hname : record.get_utf8_column_name value_iterator column_name_size with
      | none =>
        simp [exchange_export_record_value, hsize, hname, hbig, return_error,
          liberror_error_set]
      | some column_name =>
        cases htype : record.get_column_type value_iterator with
        | none =>
          simp [exchange_export_record_value, hsize, hname, htype, hbig, return_error,
            liberror_error_set]
        | some column_type =>
          have h := exchange_export_record_dispatch_appends env record value_iterator
            BYTE_STREAM_ENDIAN_LITTLE
            (known_column_type column_name column_name_size column_type) written error
          simp only [exchange_export_record_value, hsize, hname, htype, hbig, if_false, h]
          simp only [returned, appended_text]
          by_cases hres : (exchange_export_record_dispatch env record value_iterator
            BYTE_STREAM_ENDIAN_LITTLE
            (known_column_type column_name column_name_size column_type) (some []) []).result = 1
          · simp [hres]
          · have h0 := exchange_export_record_dispatch_appends env record value_iterator
              BYTE_STREAM_ENDIAN_LITTLE
              (known_column_type column_name column_name_size column_type) [] []
            simp only [returned, appended_text, List.nil_append] at h0
            simp [hres, return_error, liberror_error_set]

theorem exchange_export_record_value_success_error
    (known_column_type : List Char → Nat → LIBESEDB_COLUMN_TYPES → EXCHANGE_KNOWN_COLUMN_TYPES)
    (env : Collaborators) (record : libesedb_record_t) (value_iterator : Int)
    (h : exports_successfully known_column_type env record value_iterator) :
    (exchange_export_record_value known_column_type env record value_iterator
      (some []) []).error = [] := by
  unfold exports_successfully returned at h
  revert h
  cases hsize : record.get_utf8_column_name_size value_iterator with
  | none => simp [exchange_export_record_value, hsize, return_error]
  | some column_name_size =>
    by_cases hbig : column_name_size > 256
    · simp [exchange_export_record_value, hsize, hbig, return_error]
    · cases hname : record.get_utf8_column_name value_iterator column_name_size with
      | none => simp [exchange_export_record_value, hsize, hname, hbig, return_error]
      | some column_name =>
        cases htype : record.get_column_type value_iterator with
        | none => simp [exchange_export_record_value, hsize, hname, htype, hbig, return_error]
        | some column_type =>
          by_cases hres : (exchange_export_record_dispatch env record value_iterator
            BYTE_STREAM_ENDIAN_LITTLE
            (known_column_type column_name column_name_size column_type) (some []) []).result = 1
          · intro _
            simp only [exchange_export_record_value, hsize, hname, htype, hbig, if_false, hres,
              ne_eq, not_true_eq_false]
            exact exchange_export_record_dispatch_success_error env record value_iterator _ _ hres
          · simp [exchange_export_record_value, hsize, hname, htype, hbig, hres, return_error]


theorem exchange_export_record_value_success
    (known_column_type : List Char → Nat → LIBESEDB_COLUMN_TYPES → EXCHANGE_KNOWN_COLUMN_TYPES)
    (env : Collaborators) (record : libesedb_record_t) (value_iterator : Int)
    (h : exports_successfully known_column_type env record value_iterator)
    (written : FILE) (error : List liberror_error) :
    exchange_export_record_value known_column_type env record value_iterator (some written) error
      = Outcome.mk 1 (some (written ++ field_text known_column_type env record value_iterator))
          error := by
  rw [exchange_export_record_value_appends known_column_type env record value_iterator
    written error]
  rw [exchange_export_record_value_success_error known_column_type env record value_iterator h]
  unfold exports_successfully at h
  simp [h, field_text]

/-- The loop while every remaining position exports successfully: it returns 1
and appends, position after position, the field text and the separator. -/
theorem exchange_export_record_loop_success
    (known_column_type : List Char → Nat → LIBESEDB_COLUMN_TYPES → EXCHANGE_KNOWN_COLUMN_TYPES)
    (env : Collaborators) (record : libesedb_record_t) (number_of_values : Int)
    (remaining : Nat) :
    ∀ (value_iterator : Int) (written : FILE) (error : List liberror_error),
      (∀ j : Nat, j < remaining →
        exports_successfully known_column_type env record (value_iterator + j)) →
      exchange_export_record_loop known_column_type env record number_of_values remaining
          value_iterator (some written) error
        = Outcome.mk 1
            (some (written ++ ((List.range remaining).map (fun j : Nat =>
              field_text known_column_type env record (value_iterator + j)
                ++ [separator number_of_values (value_iterator + j)])).flatten))
            error := by
  induction remaining with
  | zero => intro value_iterator written error _; simp [exchange_export_record_loop]
  | succ k ih =>
    intro value_iterator written error hall
    have h0 : exports_successfully known_column_type env record value_iterator := by
      simpa using hall 0 (Nat.succ_pos k)
    have hrest : ∀ j : Nat, j < k →
        exports_successfully known_column_type env record (value_iterator + 1 + j) := by
      intro j hj
      have := hall (j + 1) (Nat.succ_lt_succ hj)
      have e : value_iterator + 1 + (j : Int) = value_iterator + ((j + 1 : Nat) : Int) := by
        push_cast; ring
      rw [e]; exact this
    have hfun : (fun j : Nat => field_text known_column_type env record (value_iterator + 1 + j)
          ++ [separator number_of_values (value_iterator + 1 + j)])
        = (fun j : Nat => field_text known_column_type env record (value_iterator + j)
          ++ [separator number_of_values (value_iterator + j)]) ∘ Nat.succ := by
      funext j
      have e : value_iterator + 1 + (j : Int) = value_iterator + ((Nat.succ j : Nat) : Int) := by
        push_cast; ring
      simp only [Function.comp, e]
    simp only [exchange_export_record_loop,
      exchange_export_record_value_success known_column_type env record value_iterator h0]
    by_cases hlast : value_iterator = number_of_values - 1
    · simp only [hlast, ne_eq, not_true_eq_false, if_false, if_true, fprintf_some]
      rw [← hlast, ih (value_iterator + 1) _ error hrest, hfun, List.range_succ_eq_map]
      simp [separator, hlast, List.map_map]
    · simp only [hlast, ne_eq, not_true_eq_false, if_false, fprintf_some]
      rw [ih (value_iterator + 1) _ error hrest, hfun, List.range_succ_eq_map]
      simp [separator, hlast, List.map_map]


theorem zipWith_map_map {α β γ δ : Type} (g : β → γ → δ) (f : α → β) (h : α → γ) (l : List α) :
    List.zipWith g (l.map f) (l.map h) = l.map (fun x => g (f x) (h x)) := by
  induction l with
  | nil => rfl
  | cons a l ih => simp [ih]

/-- The separators of a record of `n + 1` values: `n` tabs, then the newline. -/
theorem map_separator_range (n : Nat) :
    (List.range (n + 1)).map (fun j : Nat => separator ((n + 1 : Nat) : Int) (0 + (j : Int)))
      = List.replicate n '\t' ++ ['\n'] := by
  rw [List.range_succ, List.map_append]
  congr 1
  · rw [List.eq_replicate_iff]
    constructor
    · simp
    · intro c hc
      rw [List.mem_map] at hc
      obtain ⟨j, hj, rfl⟩ := hc
      rw [List.mem_range] at hj
      have : ¬ ((0 : Int) + (j : Int) = ((n + 1 : Nat) : Int) - 1) := by
        push_cast; omega
      simp only [separator, this, if_false]
  · simp [separator]

/-- The record exporter on a record of `N` values that all export
successfully, for any classification block. -/
theorem exchange_export_record_success
    (known_column_type : List Char → Nat → LIBESEDB_COLUMN_TYPES → EXCHANGE_KNOWN_COLUMN_TYPES)
    (env : Collaborators) (record : libesedb_record_t) (N : Nat)
    (hcount : record.get_number_of_values = some (N : Int))
    (hall : ∀ i : Nat, i < N → exports_successfully known_column_type env record (i : Int))
    (written : FILE) (error : List liberror_error) :
    exchange_export_record known_column_type env (some record) (some written) error
      = Outcome.mk 1
          (some (written ++ ((List.range N).map (fun j : Nat =>
            field_text known_column_type env record (0 + (j : Int))
              ++ [separator (N : Int) (0 + (j : Int))])).flatten))
          error := by
  have hall0 : ∀ j : Nat, j < N →
      exports_successfully known_column_type env record (0 + (j : Int)) := by
    intro j hj; simpa using hall j hj
  have h := exchange_export_record_loop_success known_column_type env record (N : Int) N 0
    written error hall0
  simp only [exchange_export_record, hcount, Int.toNat_ofNat]
  simpa using h

theorem exchange_export_record_separators
    (known_column_type : List Char → Nat → LIBESEDB_COLUMN_TYPES → EXCHANGE_KNOWN_COLUMN_TYPES)
    (env : Collaborators) (record : libesedb_record_t) (N : Nat)
    (hcount : record.get_number_of_values = some (N : Int))
    (hall : ∀ i : Nat, i < N → exports_successfully known_column_type env record (i : Int))
    (written : FILE) (error : List liberror_error) :
    (N = 0 → exchange_export_record known_column_type env (some record) (some written) error
      = Outcome.mk 1 (some written) error)
    ∧ (1 ≤ N → exchange_export_record known_column_type env (some record) (some written) error
      = Outcome.mk 1
          (some (written ++ (List.zipWith (fun text separator => text ++ [separator])
            ((List.range N).map (fun i : Nat => field_text known_column_type env record (i : Int)))
            (List.replicate (N - 1) '\t' ++ ['\n'])).flatten))
          error) := by
  have h := exchange_export_record_success known_column_type env record N hcount hall
    written error
  constructor
  · intro h0
    subst h0
    simpa using h
  · intro h1
    obtain ⟨n, rfl⟩ : ∃ n, N = n + 1 := ⟨N - 1, by omega⟩
    rw [h, Nat.add_sub_cancel, ← map_separator_range n, zipWith_map_map]
    simp

theorem exchange_export_record_line
    (known_column_type : List Char → Nat → LIBESEDB_COLUMN_TYPES → EXCHANGE_KNOWN_COLUMN_TYPES)
    (env : Collaborators) (record : libesedb_record_t) (N : Nat) (hN : 1 ≤ N)
    (hcount : record.get_number_of_values = some (N : Int))
    (hall : ∀ i : Nat, i < N → exports_successfully known_column_type env record (i : Int))
    (written : FILE) (error : List liberror_error) :
    exchange_export_record known_column_type env (some record) (some written) error
      = Outcome.mk 1
          (some (written
            ++ ((List.range (N - 1)).map (fun i : Nat =>
                field_text known_column_type env record (i : Int) ++ ['\t'])).flatten
            ++ field_text known_column_type env record ((N - 1 : Nat) : Int) ++ ['\n']))
          error := by
  obtain ⟨n, rfl⟩ : ∃ n, N = n + 1 := ⟨N - 1, by omega⟩
  rw [exchange_export_record_success known_column_type env record (n + 1) hcount hall
    written error]
  have hmap : (List.range n).map (fun j : Nat =>
        field_text known_column_type env record (0 + (j : Int))
          ++ [separator ((n + 1 : Nat) : Int) (0 + (j : Int))])
      = (List.range n).map (fun i : Nat =>
        field_text known_column_type env record (i : Int) ++ ['\t']) := by
    apply List.map_congr_left
    intro j hj
    rw [List.mem_range] at hj
    have : ¬ ((0 : Int) + (j : Int) = ((n + 1 : Nat) : Int) - 1) := by
      push_cast; omega
    simp only [separator, this, if_false]
    simp
  rw [List.range_succ, List.map_append, List.flatten_append, hmap]
  simp [separator]

theorem exchange_export_record_value_32bit_size_mismatch (env : Collaborators)
    (record : libesedb_record_t) (record_value_entry : Int) (byte_order : BYTE_STREAM_ENDIAN)
    (table_file_stream : Option FILE) (error : List liberror_error) (value : libesedb_value)
    (value_data : List uint8_t)
    (hvalue : record.get_value record_value_entry = some value)
    (hz : and_not value.value_flags env.LIBESEDB_VALUE_FLAG_VARIABLE_SIZE = 0)
    (hdata : value.value_data = some value_data)
    (hne : value.value_data_size ≠ 4) :
    (exchange_export_record_value_32bit env (some record) record_value_entry byte_order
        table_file_stream error).result = -1
    ∧ (exchange_export_record_value_32bit env (some record) record_value_entry byte_order
        table_file_stream error).table_file_stream = table_file_stream := by
  unfold exchange_export_record_value_32bit
  repeat' split
  all_goals simp_all [return_error]

theorem exchange_export_record_value_64bit_size_mismatch (env : Collaborators)
    (record : libesedb_record_t) (record_value_entry : Int) (byte_order : BYTE_STREAM_ENDIAN)
    (table_file_stream : Option FILE) (error : List liberror_error) (value : libesedb_value)
    (value_data : List uint8_t)
    (hvalue : record.get_value record_value_entry = some value)
    (hz : and_not value.value_flags env.LIBESEDB_VALUE_FLAG_VARIABLE_SIZE = 0)
    (hdata : value.value_data = some value_data)
    (hne : value.value_data_size ≠ 8) :
    (exchange_export_record_value_64bit env (some record) record_value_entry byte_order
        table_file_stream error).result = -1
    ∧ (exchange_export_record_value_64bit env (some record) record_value_entry byte_order
        table_file_stream error).table_file_stream = table_file_stream := by
  unfold exchange_export_record_value_64bit
  repeat' split
  all_goals simp_all [return_error]

theorem exchange_export_record_value_filetime_size_mismatch (env : Collaborators)
    (record : libesedb_record_t) (record_value_entry : Int) (byte_order : BYTE_STREAM_ENDIAN)
    (table_file_stream : Option FILE) (error : List liberror_error) (value : libesedb_value)
    (value_data : List uint8_t)
    (hvalue : record.get_value record_value_entry = some value)
    (hz : and_not value.value_flags env.LIBESEDB_VALUE_FLAG_VARIABLE_SIZE = 0)
    (hdata : value.value_data = some value_data)
    (hne : value.value_data_size ≠ 8) :
    (exchange_export_record_value_filetime env (some record) record_value_entry byte_order
        table_file_stream error).result = -1
    ∧ (exchange_export_record_value_filetime env (some record) record_value_entry byte_order
        table_file_stream error).table_file_stream = table_file_stream := by
  unfold exchange_export_record_value_filetime
  repeat' split
  all_goals simp_all [return_error]

theorem exchange_export_record_value_guid_size_mismatch (env : Collaborators)
    (record : libesedb_record_t) (record_value_entry : Int) (byte_order : BYTE_STREAM_ENDIAN)
    (table_file_stream : Option FILE) (error : List liberror_error) (value : libesedb_value)
    (value_data : List uint8_t)
    (hvalue : record.get_value record_value_entry = some value)
    (hz : and_not value.value_flags env.LIBESEDB_VALUE_FLAG_VARIABLE_SIZE = 0)
    (hdata : value.value_data = some value_data)
    (hne : value.value_data_size ≠ 16) :
    (exchange_export_record_value_guid env (some record) record_value_entry byte_order
        table_file_stream error).result = -1
    ∧ (exchange_export_record_value_guid env (some record) record_value_entry byte_order
        table_file_stream error).table_file_stream = table_file_stream := by
  unfold exchange_export_record_value_guid
  repeat' split
  all_goals simp_all [return_error]

/-- The comparison of a stored name with a token of `size` characters is 0
exactly when the name has the token as its first `size` characters. -/
theorem libcstring_system_string_compare_eq_zero (string1 string2 : List Char) (size : Nat) :
    libcstring_system_string_compare string1 string2 size = 0
      ↔ string1.take size = string2.take size := by
  unfold libcstring_system_string_compare
  split <;> simp_all

/-- A stored name of size `n + 1` agrees with a token of `n` characters on its
first `n` characters exactly when the name is the token. -/
theorem utf8_column_name_take (name token : List Char)
    (hsize : utf8_column_name_size name = token.length + 1) :
    (utf8_column_name name).take token.length = token.take token.length ↔ name = token := by
  unfold utf8_column_name_size at hsize
  have hlen : name.length = token.length := by omega
  unfold utf8_column_name
  rw [List.take_append_of_le_length (by omega), ← hlen, List.take_length, hlen,
    List.take_length]

theorem folders_known_column_type_of_name (name : List Char)
    (column_type : LIBESEDB_COLUMN_TYPES)
    (htype : column_type = LIBESEDB_COLUMN_TYPE_BINARY_DATA
      ∨ column_type = LIBESEDB_COLUMN_TYPE_LARGE_BINARY_DATA) :
    exchange_export_record_folders_known_column_type (utf8_column_name name)
        (utf8_column_name_size name) column_type
      = if name = [] ∨ 5 < name.length then EXCHANGE_KNOWN_COLUMN_TYPE_UNDEFINED
        else if name.head? = some 'L' then EXCHANGE_KNOWN_COLUMN_TYPE_UNDEFINED
        else if name.head? = some 'S' then EXCHANGE_KNOWN_COLUMN_TYPE_STRING
        else if name.head? = some 'T' then EXCHANGE_KNOWN_COLUMN_TYPE_FILETIME
        else if name.head? = some 'Q' then EXCHANGE_KNOWN_COLUMN_TYPE_INTEGER_64BIT
        else if name = ['N', 'e', '5', '8'] ∨ name = ['N', 'e', '5', '9'] then
          EXCHANGE_KNOWN_COLUMN_TYPE_SID
        else if name = ['N', '3', '8', '8', '0'] then EXCHANGE_KNOWN_COLUMN_TYPE_GUID
        else EXCHANGE_KNOWN_COLUMN_TYPE_UNDEFINED := by
  have hnc : column_type ≠ LIBESEDB_COLUMN_TYPE_CURRENCY := by
    rcases htype with rfl | rfl <;> decide
  rcases name with _ | ⟨a, _ | ⟨b, _ | ⟨c, _ | ⟨d, _ | ⟨e, _ | ⟨f, rest⟩⟩⟩⟩⟩⟩ <;>
    simp [exchange_export_record_folders_known_column_type, utf8_column_name,
      utf8_column_name_size, libcstring_system_string_compare, hnc, htype]
  all_goals (first | done | (split_ifs <;> simp_all <;> tauto))


theorem mailbox_known_column_type_of_name (name : List Char)
    (column_type : LIBESEDB_COLUMN_TYPES)
    (htype : column_type = LIBESEDB_COLUMN_TYPE_BINARY_DATA
      ∨ column_type = LIBESEDB_COLUMN_TYPE_LARGE_BINARY_DATA) :
    exchange_export_record_mailbox_known_column_type (utf8_column_name name)
        (utf8_column_name_size name) column_type
      = if name = [] ∨ 5 < name.length then EXCHANGE_KNOWN_COLUMN_TYPE_UNDEFINED
        else if name.head? = some 'L' then EXCHANGE_KNOWN_COLUMN_TYPE_UNDEFINED
        else if name.head? = some 'S' then EXCHANGE_KNOWN_COLUMN_TYPE_STRING
        else if name.head? = some 'T' then EXCHANGE_KNOWN_COLUMN_TYPE_FILETIME
        else if name.head? = some 'Q' then EXCHANGE_KNOWN_COLUMN_TYPE_INTEGER_64BIT
        else if name = ['N', '6', '6', 'a', '0'] then EXCHANGE_KNOWN_COLUMN_TYPE_SID
        else if name = ['N', '6', '7', '6', 'a'] ∨ name = ['N', '6', '7', '6', 'c'] then
          EXCHANGE_KNOWN_COLUMN_TYPE_GUID
        else EXCHANGE_KNOWN_COLUMN_TYPE_UNDEFINED := by
  have hnc : column_type ≠ LIBESEDB_COLUMN_TYPE_CURRENCY := by
    rcases htype with rfl | rfl <;> decide
  rcases name with _ | ⟨a, _ | ⟨b, _ | ⟨c, _ | ⟨d, _ | ⟨e, _ | ⟨f, rest⟩⟩⟩⟩⟩⟩ <;>
    simp [exchange_export_record_mailbox_known_column_type, utf8_column_name,
      utf8_column_name_size, libcstring_system_string_compare, hnc, htype]
  all_goals (first | done | (split_ifs <;> simp_all <;> tauto))

/-- The loop body on a position whose lookups succeed: it exports successfully
exactly when the exporter dispatched to returns 1, and its field text is what
that exporter appends. -/
theorem exchange_export_record_value_of_lookups
    (known_column_type : List Char → Nat → LIBESEDB_COLUMN_TYPES → EXCHANGE_KNOWN_COLUMN_TYPES)
    (env : Collaborators) (record : libesedb_record_t) (value_iterator : Int)
    (column_name_size : Nat) (column_name : List Char) (column_type : LIBESEDB_COLUMN_TYPES)
    (hsize : record.get_utf8_column_name_size value_iterator = some column_name_size)
    (hfit : column_name_size ≤ 256)
    (hname : record.get_utf8_column_name value_iterator column_name_size = some column_name)
    (htype : record.get_column_type value_iterator = some column_type) :
    (exports_successfully known_column_type env record value_iterator
      ↔ returned (exchange_export_record_dispatch env record value_iterator
          BYTE_STREAM_ENDIAN_LITTLE
          (known_column_type column_name column_name_size column_type)) = 1)
    ∧ field_text known_column_type env record value_iterator
      = appended_text (exchange_export_record_dispatch env record value_iterator
          BYTE_STREAM_ENDIAN_LITTLE
          (known_column_type column_name column_name_size column_type)) := by
  have hbig : ¬ column_name_size > 256 := by omega
  unfold exports_successfully field_text returned appended_text
  by_cases hres : (exchange_export_record_dispatch env record value_iterator
      BYTE_STREAM_ENDIAN_LITTLE
      (known_column_type column_name column_name_size column_type) (some []) []).result = 1
  · simp [exchange_export_record_value, hsize, hname, htype, hbig, hres]
  · simp [exchange_export_record_value, hsize, hname, htype, hbig, hres, return_error]

/-- The first character of a stored name that is not empty is the first
character of the name. -/
theorem utf8_column_name_head (name : List Char) (h : 1 ≤ name.length) :
    (utf8_column_name name)[0]? = name.head? := by
  cases name with
  | nil => simp at h
  | cons c rest => simp [utf8_column_name]

/-! ## The claims -/

/-- C1 (the code breaks the claim): a large binary data column named "Tx" is
classified FileTime by both schemas, the FileTime exporter rejects the large
binary data column type with the unsupported-column-type error, and so both
record exporters fail on a record with such a column. -/
theorem C1_large_binary_filetime_unsupported :
    exchange_export_record_folders_known_column_type (utf8_column_name "Tx".toList)
        (utf8_column_name_size "Tx".toList) LIBESEDB_COLUMN_TYPE_LARGE_BINARY_DATA
      = EXCHANGE_KNOWN_COLUMN_TYPE_FILETIME
    ∧ exchange_export_record_mailbox_known_column_type (utf8_column_name "Tx".toList)
        (utf8_column_name_size "Tx".toList) LIBESEDB_COLUMN_TYPE_LARGE_BINARY_DATA
      = EXCHANGE_KNOWN_COLUMN_TYPE_FILETIME
    ∧ exchange_export_record_value_filetime example_collaborators
        (some (uniform_record 1 "Tx".toList LIBESEDB_COLUMN_TYPE_LARGE_BINARY_DATA
          (libesedb_value.mk (some [0, 0, 0, 0, 0, 0, 0, 0]) 8 0)))
        0 BYTE_STREAM_ENDIAN_LITTLE (some []) []
      = Outcome.mk (-1) (some [])
          [liberror_error.mk LIBERROR_ERROR_DOMAIN_ARGUMENTS
            LIBERROR_ARGUMENT_ERROR_UNSUPPORTED_VALUE error_message.unsupported_column_type]
    ∧ exchange_export_record_folders example_collaborators
        (some (uniform_record 1 "Tx".toList LIBESEDB_COLUMN_TYPE_LARGE_BINARY_DATA
          (libesedb_value.mk (some [0, 0, 0, 0, 0, 0, 0, 0]) 8 0)))
        (some []) []
      = Outcome.mk (-1) (some [])
          [liberror_error.mk LIBERROR_ERROR_DOMAIN_ARGUMENTS
            LIBERROR_ARGUMENT_ERROR_UNSUPPORTED_VALUE error_message.unsupported_column_type,
           liberror_error.mk LIBERROR_ERROR_DOMAIN_RUNTIME
            LIBERROR_RUNTIME_ERROR_GENERIC error_message.unable_to_export_record_value]
    ∧ exchange_export_record_mailbox example_collaborators
        (some (uniform_record 1 "Tx".toList LIBESEDB_COLUMN_TYPE_LARGE_BINARY_DATA
          (libesedb_value.mk (some [0, 0, 0, 0, 0, 0, 0, 0]) 8 0)))
        (some []) []
      = Outcome.mk (-1) (some [])
          [liberror_error.mk LIBERROR_ERROR_DOMAIN_ARGUMENTS
            LIBERROR_ARGUMENT_ERROR_UNSUPPORTED_VALUE error_message.unsupported_column_type,
           liberror_error.mk LIBERROR_ERROR_DOMAIN_RUNTIME
            LIBERROR_RUNTIME_ERROR_GENERIC error_message.unable_to_export_record_value] := by
  decide

/-- C2 (fails as stated): a value whose flags are the variable-size flag and
nothing else is not hex-dumped.  With 8 zero bytes the 64-bit exporter writes
the number "0x0", not the dump "0000000000000000"; with 3 bytes it fails and
writes nothing. -/
theorem C2_variable_size_flag_alone_is_decoded :
    example_collaborators.LIBESEDB_VALUE_FLAG_VARIABLE_SIZE ≠ 0
    ∧ exchange_export_record_value_64bit example_collaborators
        (some (uniform_record 1 "Qx".toList LIBESEDB_COLUMN_TYPE_BINARY_DATA
          (libesedb_value.mk (some [0, 0, 0, 0, 0, 0, 0, 0]) 8
            example_collaborators.LIBESEDB_VALUE_FLAG_VARIABLE_SIZE)))
        0 BYTE_STREAM_ENDIAN_LITTLE (some []) []
      = Outcome.mk 1 (some "0x0".toList) []
    ∧ hex_dump [0, 0, 0, 0, 0, 0, 0, 0] = "0000000000000000".toList
    ∧ exchange_export_record_value_64bit example_collaborators
        (some (uniform_record 1 "Qx".toList LIBESEDB_COLUMN_TYPE_BINARY_DATA
          (libesedb_value.mk (some [1, 2, 3]) 3
            example_collaborators.LIBESEDB_VALUE_FLAG_VARIABLE_SIZE)))
        0 BYTE_STREAM_ENDIAN_LITTLE (some []) []
      = Outcome.mk (-1) (some [])
          [liberror_error.mk LIBERROR_ERROR_DOMAIN_ARGUMENTS
            LIBERROR_ARGUMENT_ERROR_UNSUPPORTED_VALUE
            error_message.unsupported_value_data_size] := by
  decide

/-- C2 (amended): when the value flags have a bit set that is not part of the
variable-size flag, the raw bytes are present (`value_data_size` bytes) and
the byte order is big or little endian, each of the 32-bit, 64-bit, FileTime
and GUID exporters, on a column type it accepts, returns 1 and appends exactly
the lowercase two-digits-per-byte hexadecimal dump of the raw bytes, whatever
their number; no error is set. -/
theorem C2_other_flag_is_hex_dumped (env : Collaborators) (record : libesedb_record_t)
    (record_value_entry : Int) (byte_order : BYTE_STREAM_ENDIAN) (written : FILE)
    (error : List liberror_error) (value : libesedb_value) (value_data : List uint8_t)
    (bit : Nat)
    (hvalue : record.get_value record_value_entry = some value)
    (hdata : value.value_data = some value_data)
    (hsize : value.value_data_size = value_data.length)
    (hbit : value.value_flags.testBit bit = true)
    (hother : env.LIBESEDB_VALUE_FLAG_VARIABLE_SIZE.testBit bit = false)
    (horder : byte_order = BYTE_STREAM_ENDIAN_BIG ∨ byte_order = BYTE_STREAM_ENDIAN_LITTLE) :
    (record.get_column_type record_value_entry = some LIBESEDB_COLUMN_TYPE_BINARY_DATA →
      exchange_export_record_value_32bit env (some record) record_value_entry byte_order
          (some written) error
        = Outcome.mk 1 (some (written ++ hex_dump value_data)) error)
    ∧ (record.get_column_type record_value_entry = some LIBESEDB_COLUMN_TYPE_BINARY_DATA
        ∨ record.get_column_type record_value_entry = some LIBESEDB_COLUMN_TYPE_CURRENCY →
      exchange_export_record_value_64bit env (some record) record_value_entry byte_order
          (some written) error
        = Outcome.mk 1 (some (written ++ hex_dump value_data)) error)
    ∧ (record.get_column_type record_value_entry = some LIBESEDB_COLUMN_TYPE_BINARY_DATA
        ∨ record.get_column_type record_value_entry = some LIBESEDB_COLUMN_TYPE_CURRENCY →
      exchange_export_record_value_filetime env (some record) record_value_entry byte_order
          (some written) error
        = Outcome.mk 1 (some (written ++ hex_dump value_data)) error)
    ∧ (record.get_column_type record_value_entry = some LIBESEDB_COLUMN_TYPE_BINARY_DATA →
      exchange_export_record_value_guid env (some record) record_value_entry byte_order
          (some written) error
        = Outcome.mk 1 (some (written ++ hex_dump value_data)) error) := by
  have hflags := and_not_ne_zero value.value_flags env.LIBESEDB_VALUE_FLAG_VARIABLE_SIZE bit
    hbit hother
  have hdump : while_fprintf_02x value.value_data_size value_data (some written)
      = some (written ++ hex_dump value_data) := by
    rw [while_fprintf_02x_some, hsize, List.take_length]
  refine ⟨?_, ?_, ?_, ?_⟩
  · intro hct
    rcases horder with rfl | rfl <;>
      simp [exchange_export_record_value_32bit, hct, hvalue, hflags, hdata, hdump]
  · intro hct
    rcases hct with hct | hct <;> rcases horder with rfl | rfl <;>
      simp [exchange_export_record_value_64bit, hct, hvalue, hflags, hdata, hdump]
  · intro hct
    rcases hct with hct | hct <;>
      simp [exchange_export_record_value_filetime, hct, hvalue, hflags, hdata, hdump]
  · intro hct
    simp [exchange_export_record_value_guid, hct, hvalue, hflags, hdata, hdump]

/-- C2 (amended), at a concrete input: a binary data value of 3 bytes with flag
bit 1 set (variable-size flag is bit 0) is written as "ab01ff" by the 64-bit
exporter. -/
theorem C2_other_flag_is_hex_dumped_witness :
    exchange_export_record_value_64bit example_collaborators
        (some (uniform_record 1 "Qx".toList LIBESEDB_COLUMN_TYPE_BINARY_DATA
          (libesedb_value.mk (some [0xab, 0x01, 0xff]) 3 2)))
        0 BYTE_STREAM_ENDIAN_LITTLE (some []) []
      = Outcome.mk 1 (some "ab01ff".toList) [] :=
  (C2_other_flag_is_hex_dumped example_collaborators
    (uniform_record 1 "Qx".toList LIBESEDB_COLUMN_TYPE_BINARY_DATA
      (libesedb_value.mk (some [0xab, 0x01, 0xff]) 3 2))
    0 BYTE_STREAM_ENDIAN_LITTLE [] [] (libesedb_value.mk (some [0xab, 0x01, 0xff]) 3 2)
    [0xab, 0x01, 0xff] 1 rfl rfl rfl (by decide) (by decide) (Or.inr rfl)).2.1 (Or.inl rfl)

/-- C3 (fails as stated): a record with no values makes both record exporters
return 1 without writing anything: no empty line, no newline at all. -/
theorem C3_no_values_no_newline :
    exchange_export_record_folders example_collaborators
        (some (uniform_record 0 "Qx".toList LIBESEDB_COLUMN_TYPE_BINARY_DATA
          (libesedb_value.mk (some [0, 0, 0, 0, 0, 0, 0, 0]) 8 0)))
        (some []) []
      = Outcome.mk 1 (some []) []
    ∧ exchange_export_record_mailbox example_collaborators
        (some (uniform_record 0 "Qx".toList LIBESEDB_COLUMN_TYPE_BINARY_DATA
          (libesedb_value.mk (some [0, 0, 0, 0, 0, 0, 0, 0]) 8 0)))
        (some []) []
      = Outcome.mk 1 (some []) [] := by
  decide

/-- C3 (amended): for a record with N values that all export successfully,
each record exporter returns 1 and, when N is at least 1, appends the N field
texts each followed by one separator of its own, the separators being N - 1
tabs and then one newline; when N is 0 it writes nothing. -/
theorem C3_separators_written (env : Collaborators) (record : libesedb_record_t) (N : Nat)
    (hcount : record.get_number_of_values = some (N : Int))
    (written : FILE) (error : List liberror_error) :
    ((∀ i : Nat, i < N → exports_successfully
        exchange_export_record_folders_known_column_type env record (i : Int)) →
      (N = 0 → exchange_export_record_folders env (some record) (some written) error
        = Outcome.mk 1 (some written) error)
      ∧ (1 ≤ N → exchange_export_record_folders env (some record) (some written) error
        = Outcome.mk 1
            (some (written ++ (List.zipWith (fun text separator => text ++ [separator])
              ((List.range N).map (fun i : Nat =>
                field_text exchange_export_record_folders_known_column_type env record (i : Int)))
              (List.replicate (N - 1) '\t' ++ ['\n'])).flatten))
            error))
    ∧ ((∀ i : Nat, i < N → exports_successfully
        exchange_export_record_mailbox_known_column_type env record (i : Int)) →
      (N = 0 → exchange_export_record_mailbox env (some record) (some written) error
        = Outcome.mk 1 (some written) error)
      ∧ (1 ≤ N → exchange_export_record_mailbox env (some record) (some written) error
        = Outcome.mk 1
            (some (written ++ (List.zipWith (fun text separator => text ++ [separator])
              ((List.range N).map (fun i : Nat =>
                field_text exchange_export_record_mailbox_known_column_type env record (i : Int)))
              (List.replicate (N - 1) '\t' ++ ['\n'])).flatten))
            error))
    ∧ (List.replicate (N - 1) '\t' ++ ['\n']).count '\t' = N - 1
    ∧ (List.replicate (N - 1) '\t' ++ ['\n']).count '\n' = 1
    ∧ (1 ≤ N → (List.replicate (N - 1) '\t' ++ ['\n']).length = N) := by
  refine ⟨?_, ?_, ?_, ?_, ?_⟩
  · intro hall
    exact exchange_export_record_separators _ env record N hcount hall written error
  · intro hall
    exact exchange_export_record_separators _ env record N hcount hall written error
  · simp [List.count_replicate]
  · simp [List.count_replicate]
  · intro h; simp; omega

/-- C3 (amended), at a concrete input: three 64-bit columns give two tabs and
one newline. -/
theorem C3_separators_written_witness :
    exchange_export_record_folders example_collaborators
        (some (uniform_record 3 "Qx".toList LIBESEDB_COLUMN_TYPE_BINARY_DATA
          (libesedb_value.mk (some [1, 0, 0, 0, 0, 0, 0, 0]) 8 0)))
        (some []) []
      = Outcome.mk 1 (some "0x1\t0x1\t0x1\n".toList) [] :=
  ((C3_separators_written example_collaborators
    (uniform_record 3 "Qx".toList LIBESEDB_COLUMN_TYPE_BINARY_DATA
      (libesedb_value.mk (some [1, 0, 0, 0, 0, 0, 0, 0]) 8 0))
    3 rfl [] []).1 (fun _ _ => rfl)).2 (by decide)

/-- C4: for a record with N >= 1 values in which, at every position, the name
size lookup, the name lookup (size at most 256) and the type lookup succeed
and the exporter dispatched for the classified kind (the generic exporter for
Undefined) returns 1, both record exporters return 1 and append exactly
text_0 TAB text_1 TAB ... text_(N-1) NEWLINE, text_i being what the exporter
dispatched for position i appends. -/
theorem C4_record_line_format (env : Collaborators) (record : libesedb_record_t) (N : Nat)
    (sizes : Nat → Nat) (names : Nat → List Char) (types : Nat → LIBESEDB_COLUMN_TYPES)
    (hN : 1 ≤ N)
    (hcount : record.get_number_of_values = some (N : Int))
    (hsize : ∀ i : Nat, i < N →
      record.get_utf8_column_name_size (i : Int) = some (sizes i) ∧ sizes i ≤ 256)
    (hname : ∀ i : Nat, i < N →
      record.get_utf8_column_name (i : Int) (sizes i) = some (names i))
    (htype : ∀ i : Nat, i < N → record.get_column_type (i : Int) = some (types i))
    (written : FILE) (error : List liberror_error) :
    ((∀ i : Nat, i < N → returned (exchange_export_record_dispatch env record (i : Int)
        BYTE_STREAM_ENDIAN_LITTLE
        (exchange_export_record_folders_known_column_type (names i) (sizes i) (types i))) = 1) →
      exchange_export_record_folders env (some record) (some written) error
        = Outcome.mk 1
            (some (written
              ++ ((List.range (N - 1)).map (fun i : Nat =>
                  appended_text (exchange_export_record_dispatch env record (i : Int)
                    BYTE_STREAM_ENDIAN_LITTLE
                    (exchange_export_record_folders_known_column_type (names i) (sizes i)
                      (types i))) ++ ['\t'])).flatten
              ++ appended_text (exchange_export_record_dispatch env record ((N - 1 : Nat) : Int)
                    BYTE_STREAM_ENDIAN_LITTLE
                    (exchange_export_record_folders_known_column_type (names (N - 1))
                      (sizes (N - 1)) (types (N - 1))))
              ++ ['\n']))
            error)
    ∧ ((∀ i : Nat, i < N → returned (exchange_export_record_dispatch env record (i : Int)
        BYTE_STREAM_ENDIAN_LITTLE
        (exchange_export_record_mailbox_known_column_type (names i) (sizes i) (types i))) = 1) →
      exchange_export_record_mailbox env (some record) (some written) error
        = Outcome.mk 1
            (some (written
              ++ ((List.range (N - 1)).map (fun i : Nat =>
                  appended_text (exchange_export_record_dispatch env record (i : Int)
                    BYTE_STREAM_ENDIAN_LITTLE
                    (exchange_export_record_mailbox_known_column_type (names i) (sizes i)
                      (types i))) ++ ['\t'])).flatten
              ++ appended_text (exchange_export_record_dispatch env record ((N - 1 : Nat) : Int)
                    BYTE_STREAM_ENDIAN_LITTLE
                    (exchange_export_record_mailbox_known_column_type (names (N - 1))
                      (sizes (N - 1)) (types (N - 1))))
              ++ ['\n']))
            error) := by
  have key : ∀ known_column_type : List Char → Nat → LIBESEDB_COLUMN_TYPES →
      EXCHANGE_KNOWN_COLUMN_TYPES,
      (∀ i : Nat, i < N → returned (exchange_export_record_dispatch env record (i : Int)
        BYTE_STREAM_ENDIAN_LITTLE (known_column_type (names i) (sizes i) (types i))) = 1) →
      exchange_export_record known_column_type env (some record) (some written) error
        = Outcome.mk 1
            (some (written
              ++ ((List.range (N - 1)).map (fun i : Nat =>
                  appended_text (exchange_export_record_dispatch env record (i : Int)
                    BYTE_STREAM_ENDIAN_LITTLE
                    (known_column_type (names i) (sizes i) (types i))) ++ ['\t'])).flatten
              ++ appended_text (exchange_export_record_dispatch env record ((N - 1 : Nat) : Int)
                    BYTE_STREAM_ENDIAN_LITTLE
                    (known_column_type (names (N - 1)) (sizes (N - 1)) (types (N - 1))))
              ++ ['\n']))
            error := by
    intro known_column_type hexp
    have hlook : ∀ i : Nat, i < N →
        (exports_successfully known_column_type env record (i : Int)
          ↔ returned (exchange_export_record_dispatch env record (i : Int)
              BYTE_STREAM_ENDIAN_LITTLE (known_column_type (names i) (sizes i) (types i))) = 1)
        ∧ field_text known_column_type env record (i : Int)
          = appended_text (exchange_export_record_dispatch env record (i : Int)
              BYTE_STREAM_ENDIAN_LITTLE (known_column_type (names i) (sizes i) (types i))) :=
      fun i hi => exchange_export_record_value_of_lookups known_column_type env record (i : Int)
        (sizes i) (names i) (types i) (hsize i hi).1 (hsize i hi).2 (hname i hi) (htype i hi)
    have hall : ∀ i : Nat, i < N → exports_successfully known_column_type env record (i : Int) :=
      fun i hi => (hlook i hi).1.mpr (hexp i hi)
    rw [exchange_export_record_line known_column_type env record N hN hcount hall written error]
    have hmap : (List.range (N - 1)).map (fun i : Nat =>
          field_text known_column_type env record (i : Int) ++ ['\t'])
        = (List.range (N - 1)).map (fun i : Nat =>
          appended_text (exchange_export_record_dispatch env record (i : Int)
            BYTE_STREAM_ENDIAN_LITTLE
            (known_column_type (names i) (sizes i) (types i))) ++ ['\t']) := by
      apply List.map_congr_left
      intro i hi
      rw [List.mem_range] at hi
      rw [(hlook i (by omega)).2]
    rw [hmap, (hlook (N - 1) (by omega)).2]
  exact ⟨key _, key _⟩

/-- C4, at a concrete input: two 64-bit columns give "0x1", tab, "0x1",
newline in the Mailbox schema. -/
theorem C4_record_line_format_witness :
    exchange_export_record_mailbox example_collaborators
        (some (uniform_record 2 "Qx".toList LIBESEDB_COLUMN_TYPE_BINARY_DATA
          (libesedb_value.mk (some [1, 0, 0, 0, 0, 0, 0, 0]) 8 0)))
        (some []) []
      = Outcome.mk 1 (some "0x1\t0x1\n".toList) [] :=
  (C4_record_line_format example_collaborators
    (uniform_record 2 "Qx".toList LIBESEDB_COLUMN_TYPE_BINARY_DATA
      (libesedb_value.mk (some [1, 0, 0, 0, 0, 0, 0, 0]) 8 0))
    2 (fun _ => 3) (fun _ => utf8_column_name "Qx".toList)
    (fun _ => LIBESEDB_COLUMN_TYPE_BINARY_DATA) (by decide) rfl
    (fun _ _ => ⟨rfl, Nat.le_of_ble_eq_true rfl⟩) (fun _ _ => rfl) (fun _ _ => rfl) [] []).2
    (fun _ _ => rfl)

/-- C5: a value with no flag bit set and present raw bytes whose size differs
from the fixed width makes the exporter return -1 with the stream left as it
was: the 64-bit and the FileTime exporter for every size other than 8, the
32-bit exporter for every size other than 4, the GUID exporter for every size
other than 16 (0 included).  When the stream is open, the byte order supported
and the column type accepted, the error set is the unsupported value data
size error. -/
theorem C5_fixed_size_mismatch_fails (env : Collaborators) (record : libesedb_record_t)
    (record_value_entry : Int) (byte_order : BYTE_STREAM_ENDIAN)
    (table_file_stream : Option FILE) (error : List liberror_error) (value : libesedb_value)
    (value_data : List uint8_t)
    (hvalue : record.get_value record_value_entry = some value)
    (hflags : value.value_flags = 0)
    (hdata : value.value_data = some value_data) :
    (value.value_data_size ≠ 8 →
      (exchange_export_record_value_64bit env (some record) record_value_entry byte_order
          table_file_stream error).result = -1
      ∧ (exchange_export_record_value_64bit env (some record) record_value_entry byte_order
          table_file_stream error).table_file_stream = table_file_stream
      ∧ (table_file_stream ≠ none →
          (byte_order = BYTE_STREAM_ENDIAN_BIG ∨ byte_order = BYTE_STREAM_ENDIAN_LITTLE) →
          (record.get_column_type record_value_entry = some LIBESEDB_COLUMN_TYPE_BINARY_DATA
            ∨ record.get_column_type record_value_entry
              = some LIBESEDB_COLUMN_TYPE_CURRENCY) →
          exchange_export_record_value_64bit env (some record) record_value_entry byte_order
              table_file_stream error
            = return_error table_file_stream error LIBERROR_ERROR_DOMAIN_ARGUMENTS
                LIBERROR_ARGUMENT_ERROR_UNSUPPORTED_VALUE
                error_message.unsupported_value_data_size))
    ∧ (value.value_data_size ≠ 8 →
      (exchange_export_record_value_filetime env (some record) record_value_entry byte_order
          table_file_stream error).result = -1
      ∧ (exchange_export_record_value_filetime env (some record) record_value_entry byte_order
          table_file_stream error).table_file_stream = table_file_stream
      ∧ (table_file_stream ≠ none →
          (record.get_column_type record_value_entry = some LIBESEDB_COLUMN_TYPE_BINARY_DATA
            ∨ record.get_column_type record_value_entry
              = some LIBESEDB_COLUMN_TYPE_CURRENCY) →
          exchange_export_record_value_filetime env (some record) record_value_entry byte_order
              table_file_stream error
            = return_error table_file_stream error LIBERROR_ERROR_DOMAIN_ARGUMENTS
                LIBERROR_ARGUMENT_ERROR_UNSUPPORTED_VALUE
                error_message.unsupported_value_data_size))
    ∧ (value.value_data_size ≠ 4 →
      (exchange_export_record_value_32bit env (some record) record_value_entry byte_order
          table_file_stream error).result = -1
      ∧ (exchange_export_record_value_32bit env (some record) record_value_entry byte_order
          table_file_stream error).table_file_stream = table_file_stream
      ∧ (table_file_stream ≠ none →
          (byte_order = BYTE_STREAM_ENDIAN_BIG ∨ byte_order = BYTE_STREAM_ENDIAN_LITTLE) →
          record.get_column_type record_value_entry = some LIBESEDB_COLUMN_TYPE_BINARY_DATA →
          exchange_export_record_value_32bit env (some record) record_value_entry byte_order
              table_file_stream error
            = return_error table_file_stream error LIBERROR_ERROR_DOMAIN_ARGUMENTS
                LIBERROR_ARGUMENT_ERROR_UNSUPPORTED_VALUE
                error_message.unsupported_value_data_size))
    ∧ (value.value_data_size ≠ 16 →
      (exchange_export_record_value_guid env (some record) record_value_entry byte_order
          table_file_stream error).result = -1
      ∧ (exchange_export_record_value_guid env (some record) record_value_entry byte_order
          table_file_stream error).table_file_stream = table_file_stream
      ∧ (table_file_stream ≠ none →
          record.get_column_type record_value_entry = some LIBESEDB_COLUMN_TYPE_BINARY_DATA →
          exchange_export_record_value_guid env (some record) record_value_entry byte_order
              table_file_stream error
            = return_error table_file_stream error LIBERROR_ERROR_DOMAIN_ARGUMENTS
                LIBERROR_ARGUMENT_ERROR_UNSUPPORTED_VALUE
                error_message.unsupported_value_data_size)) := by
  have hz : and_not value.value_flags env.LIBESEDB_VALUE_FLAG_VARIABLE_SIZE = 0 := by
    rw [hflags]; exact and_not_zero _
  refine ⟨?_, ?_, ?_, ?_⟩
  · intro hne
    have h := exchange_export_record_value_64bit_size_mismatch env record record_value_entry
      byte_order table_file_stream error value value_data hvalue hz hdata hne
    refine ⟨h.1, h.2, ?_⟩
    intro hs ho hct
    rcases hct with hct | hct <;> rcases ho with rfl | rfl <;>
      simp [exchange_export_record_value_64bit, hs, hct, hvalue, hz, hdata, hne]
  · intro hne
    have h := exchange_export_record_value_filetime_size_mismatch env record record_value_entry
      byte_order table_file_stream error value value_data hvalue hz hdata hne
    refine ⟨h.1, h.2, ?_⟩
    intro hs hct
    rcases hct with hct | hct <;>
      simp [exchange_export_record_value_filetime, hs, hct, hvalue, hz, hdata, hne]
  · intro hne
    have h := exchange_export_record_value_32bit_size_mismatch env record record_value_entry
      byte_order table_file_stream error value value_data hvalue hz hdata hne
    refine ⟨h.1, h.2, ?_⟩
    intro hs ho hct
    rcases ho with rfl | rfl <;>
      simp [exchange_export_record_value_32bit, hs, hct, hvalue, hz, hdata, hne]
  · intro hne
    have h := exchange_export_record_value_guid_size_mismatch env record record_value_entry
      byte_order table_file_stream error value value_data hvalue hz hdata hne
    refine ⟨h.1, h.2, ?_⟩
    intro hs hct
    simp [exchange_export_record_value_guid, hs, hct, hvalue, hz, hdata, hne]

/-- C5, at a concrete input: a GUID column holding 15 bytes with no flag set
makes the GUID exporter fail with the unsupported value data size error and
write nothing. -/
theorem C5_fixed_size_mismatch_fails_witness :
    exchange_export_record_value_guid example_collaborators
        (some (uniform_record 1 "N3880".toList LIBESEDB_COLUMN_TYPE_BINARY_DATA
          (libesedb_value.mk (some [0, 0, 0, 0, 0, 0, 0, 0, 0, 0, 0, 0, 0, 0, 0]) 15 0)))
        0 BYTE_STREAM_ENDIAN_LITTLE (some []) []
      = return_error (some []) [] LIBERROR_ERROR_DOMAIN_ARGUMENTS
          LIBERROR_ARGUMENT_ERROR_UNSUPPORTED_VALUE error_message.unsupported_value_data_size :=
  ((C5_fixed_size_mismatch_fails example_collaborators
    (uniform_record 1 "N3880".toList LIBESEDB_COLUMN_TYPE_BINARY_DATA
      (libesedb_value.mk (some [0, 0, 0, 0, 0, 0, 0, 0, 0, 0, 0, 0, 0, 0, 0]) 15 0))
    0 BYTE_STREAM_ENDIAN_LITTLE (some []) []
    (libesedb_value.mk (some [0, 0, 0, 0, 0, 0, 0, 0, 0, 0, 0, 0, 0, 0, 0]) 15 0)
    [0, 0, 0, 0, 0, 0, 0, 0, 0, 0, 0, 0, 0, 0, 0] rfl rfl rfl).2.2.2 (by decide)).2.2
    (by decide) rfl

/-- C6: a column name whose length is 0 or greater than 6 is classified
Undefined by both schemas, for every column type.  This holds for the length
the exporters test (the column name size, first part) and also for the number
of characters of a name stored with its end-of-string character (second part). -/
theorem C6_length_gate (column_name : List Char) (column_name_size : Nat)
    (name : List Char) (column_type : LIBESEDB_COLUMN_TYPES) :
    ((column_name_size = 0 ∨ 6 < column_name_size) →
      exchange_export_record_folders_known_column_type column_name column_name_size column_type
        = EXCHANGE_KNOWN_COLUMN_TYPE_UNDEFINED
      ∧ exchange_export_record_mailbox_known_column_type column_name column_name_size column_type
        = EXCHANGE_KNOWN_COLUMN_TYPE_UNDEFINED)
    ∧ ((name.length = 0 ∨ 6 < name.length) →
      exchange_export_record_folders_known_column_type (utf8_column_name name)
          (utf8_column_name_size name) column_type
        = EXCHANGE_KNOWN_COLUMN_TYPE_UNDEFINED
      ∧ exchange_export_record_mailbox_known_column_type (utf8_column_name name)
          (utf8_column_name_size name) column_type
        = EXCHANGE_KNOWN_COLUMN_TYPE_UNDEFINED) := by
  constructor
  · intro h
    have hgate : ¬ (column_name_size > 1 ∧ column_name_size ≤ 6) := by omega
    simp [exchange_export_record_folders_known_column_type,
      exchange_export_record_mailbox_known_column_type, hgate]
  · intro h
    have hgate : ¬ (utf8_column_name_size name > 1 ∧ utf8_column_name_size name ≤ 6) := by
      unfold utf8_column_name_size; omega
    simp [exchange_export_record_folders_known_column_type,
      exchange_export_record_mailbox_known_column_type, hgate]

/-- C6, at a concrete input: the seven-character name "Tabcdef" on a currency
column is Undefined in the Folders schema. -/
theorem C6_length_gate_witness :
    (6 < "Tabcdef".toList.length)
    ∧ exchange_export_record_folders_known_column_type (utf8_column_name "Tabcdef".toList)
        (utf8_column_name_size "Tabcdef".toList) LIBESEDB_COLUMN_TYPE_CURRENCY
      = EXCHANGE_KNOWN_COLUMN_TYPE_UNDEFINED :=
  ⟨by decide, ((C6_length_gate [] 0 "Tabcdef".toList LIBESEDB_COLUMN_TYPE_CURRENCY).2
    (Or.inr (by decide))).1⟩

/-- C7 (fails as stated): the gate is not the length of the name.  "Tabcde"
and "Qabcde" have 6 characters, a length greater than 1 and at most 6, and are
Undefined on a currency column in both schemas (not FileTime and Integer64);
"T" has 1 character, a length outside that range, and is FileTime in both
schemas (not Undefined). -/
theorem C7_length_is_not_the_gate :
    ((1 < "Tabcde".toList.length ∧ "Tabcde".toList.length ≤ 6)
      ∧ "Tabcde".toList.head? = some 'T'
      ∧ exchange_export_record_folders_known_column_type (utf8_column_name "Tabcde".toList)
          (utf8_column_name_size "Tabcde".toList) LIBESEDB_COLUMN_TYPE_CURRENCY
        = EXCHANGE_KNOWN_COLUMN_TYPE_UNDEFINED
      ∧ exchange_export_record_mailbox_known_column_type (utf8_column_name "Tabcde".toList)
          (utf8_column_name_size "Tabcde".toList) LIBESEDB_COLUMN_TYPE_CURRENCY
        = EXCHANGE_KNOWN_COLUMN_TYPE_UNDEFINED)
    ∧ ((1 < "Qabcde".toList.length ∧ "Qabcde".toList.length ≤ 6)
      ∧ "Qabcde".toList.head? = some 'Q'
      ∧ exchange_export_record_folders_known_column_type (utf8_column_name "Qabcde".toList)
          (utf8_column_name_size "Qabcde".toList) LIBESEDB_COLUMN_TYPE_CURRENCY
        = EXCHANGE_KNOWN_COLUMN_TYPE_UNDEFINED
      ∧ exchange_export_record_mailbox_known_column_type (utf8_column_name "Qabcde".toList)
          (utf8_column_name_size "Qabcde".toList) LIBESEDB_COLUMN_TYPE_CURRENCY
        = EXCHANGE_KNOWN_COLUMN_TYPE_UNDEFINED)
    ∧ (¬ (1 < "T".toList.length ∧ "T".toList.length ≤ 6)
      ∧ exchange_export_record_folders_known_column_type (utf8_column_name "T".toList)
          (utf8_column_name_size "T".toList) LIBESEDB_COLUMN_TYPE_CURRENCY
        = EXCHANGE_KNOWN_COLUMN_TYPE_FILETIME
      ∧ exchange_export_record_mailbox_known_column_type (utf8_column_name "T".toList)
          (utf8_column_name_size "T".toList) LIBESEDB_COLUMN_TYPE_CURRENCY
        = EXCHANGE_KNOWN_COLUMN_TYPE_FILETIME) := by
  decide

/-- C7 (amended): for a currency column, in both schemas, a name of 1 to 5
characters stored with its end-of-string character (a column name size, which
counts that character, greater than 1 and at most 6) is classified FileTime if
it begins with 'T', Integer64 if it begins with 'Q' and Undefined otherwise, so
also when it begins with 'S' or is one of the tokens; an empty name and a name
of more than 5 characters are Undefined.  The same holds for every name buffer
in terms of the column name size that the exporter reads and tests. -/
theorem C7_currency_rules (column_name : List Char) (column_name_size : Nat) (name : List Char) :
    ((1 ≤ name.length ∧ name.length ≤ 5) →
      (name.head? = some 'T' →
        exchange_export_record_folders_known_column_type (utf8_column_name name)
            (utf8_column_name_size name) LIBESEDB_COLUMN_TYPE_CURRENCY
          = EXCHANGE_KNOWN_COLUMN_TYPE_FILETIME
        ∧ exchange_export_record_mailbox_known_column_type (utf8_column_name name)
            (utf8_column_name_size name) LIBESEDB_COLUMN_TYPE_CURRENCY
          = EXCHANGE_KNOWN_COLUMN_TYPE_FILETIME)
      ∧ (name.head? = some 'Q' →
        exchange_export_record_folders_known_column_type (utf8_column_name name)
            (utf8_column_name_size name) LIBESEDB_COLUMN_TYPE_CURRENCY
          = EXCHANGE_KNOWN_COLUMN_TYPE_INTEGER_64BIT
        ∧ exchange_export_record_mailbox_known_column_type (utf8_column_name name)
            (utf8_column_name_size name) LIBESEDB_COLUMN_TYPE_CURRENCY
          = EXCHANGE_KNOWN_COLUMN_TYPE_INTEGER_64BIT)
      ∧ (name.head? ≠ some 'T' → name.head? ≠ some 'Q' →
        exchange_export_record_folders_known_column_type (utf8_column_name name)
            (utf8_column_name_size name) LIBESEDB_COLUMN_TYPE_CURRENCY
          = EXCHANGE_KNOWN_COLUMN_TYPE_UNDEFINED
        ∧ exchange_export_record_mailbox_known_column_type (utf8_column_name name)
            (utf8_column_name_size name) LIBESEDB_COLUMN_TYPE_CURRENCY
          = EXCHANGE_KNOWN_COLUMN_TYPE_UNDEFINED))
    ∧ (¬ (1 ≤ name.length ∧ name.length ≤ 5) →
      exchange_export_record_folders_known_column_type (utf8_column_name name)
          (utf8_column_name_size name) LIBESEDB_COLUMN_TYPE_CURRENCY
        = EXCHANGE_KNOWN_COLUMN_TYPE_UNDEFINED
      ∧ exchange_export_record_mailbox_known_column_type (utf8_column_name name)
          (utf8_column_name_size name) LIBESEDB_COLUMN_TYPE_CURRENCY
        = EXCHANGE_KNOWN_COLUMN_TYPE_UNDEFINED)
    ∧ ((1 < column_name_size ∧ column_name_size ≤ 6) →
      (column_name[0]? = some 'T' →
        exchange_export_record_folders_known_column_type column_name column_name_size
            LIBESEDB_COLUMN_TYPE_CURRENCY = EXCHANGE_KNOWN_COLUMN_TYPE_FILETIME
        ∧ exchange_export_record_mailbox_known_column_type column_name column_name_size
            LIBESEDB_COLUMN_TYPE_CURRENCY = EXCHANGE_KNOWN_COLUMN_TYPE_FILETIME)
      ∧ (column_name[0]? = some 'Q' →
        exchange_export_record_folders_known_column_type column_name column_name_size
            LIBESEDB_COLUMN_TYPE_CURRENCY = EXCHANGE_KNOWN_COLUMN_TYPE_INTEGER_64BIT
        ∧ exchange_export_record_mailbox_known_column_type column_name column_name_size
            LIBESEDB_COLUMN_TYPE_CURRENCY = EXCHANGE_KNOWN_COLUMN_TYPE_INTEGER_64BIT)
      ∧ (column_name[0]? ≠ some 'T' → column_name[0]? ≠ some 'Q' →
        exchange_export_record_folders_known_column_type column_name column_name_size
            LIBESEDB_COLUMN_TYPE_CURRENCY = EXCHANGE_KNOWN_COLUMN_TYPE_UNDEFINED
        ∧ exchange_export_record_mailbox_known_column_type column_name column_name_size
            LIBESEDB_COLUMN_TYPE_CURRENCY = EXCHANGE_KNOWN_COLUMN_TYPE_UNDEFINED))
    ∧ (¬ (1 < column_name_size ∧ column_name_size ≤ 6) →
      exchange_export_record_folders_known_column_type column_name column_name_size
          LIBESEDB_COLUMN_TYPE_CURRENCY = EXCHANGE_KNOWN_COLUMN_TYPE_UNDEFINED
      ∧ exchange_export_record_mailbox_known_column_type column_name column_name_size
          LIBESEDB_COLUMN_TYPE_CURRENCY = EXCHANGE_KNOWN_COLUMN_TYPE_UNDEFINED) := by
  have hin : ∀ (column_name : List Char) (column_name_size : Nat),
      (1 < column_name_size ∧ column_name_size ≤ 6) →
      (column_name[0]? = some 'T' →
        exchange_export_record_folders_known_column_type column_name column_name_size
            LIBESEDB_COLUMN_TYPE_CURRENCY = EXCHANGE_KNOWN_COLUMN_TYPE_FILETIME
        ∧ exchange_export_record_mailbox_known_column_type column_name column_name_size
            LIBESEDB_COLUMN_TYPE_CURRENCY = EXCHANGE_KNOWN_COLUMN_TYPE_FILETIME)
      ∧ (column_name[0]? = some 'Q' →
        exchange_export_record_folders_known_column_type column_name column_name_size
            LIBESEDB_COLUMN_TYPE_CURRENCY = EXCHANGE_KNOWN_COLUMN_TYPE_INTEGER_64BIT
        ∧ exchange_export_record_mailbox_known_column_type column_name column_name_size
            LIBESEDB_COLUMN_TYPE_CURRENCY = EXCHANGE_KNOWN_COLUMN_TYPE_INTEGER_64BIT)
      ∧ (column_name[0]? ≠ some 'T' → column_name[0]? ≠ some 'Q' →
        exchange_export_record_folders_known_column_type column_name column_name_size
            LIBESEDB_COLUMN_TYPE_CURRENCY = EXCHANGE_KNOWN_COLUMN_TYPE_UNDEFINED
        ∧ exchange_export_record_mailbox_known_column_type column_name column_name_size
            LIBESEDB_COLUMN_TYPE_CURRENCY = EXCHANGE_KNOWN_COLUMN_TYPE_UNDEFINED) := by
    intro column_name column_name_size hgate
    have hgate2 : column_name_size > 1 ∧ column_name_size ≤ 6 := hgate
    refine ⟨?_, ?_, ?_⟩
    · intro hT
      simp [exchange_export_record_folders_known_column_type,
        exchange_export_record_mailbox_known_column_type, hgate2, hT]
    · intro hQ
      simp [exchange_export_record_folders_known_column_type,
        exchange_export_record_mailbox_known_column_type, hgate2, hQ]
    · intro hT hQ
      simp [exchange_export_record_folders_known_column_type,
        exchange_export_record_mailbox_known_column_type, hgate2, hT, hQ]
  have hout : ∀ (column_name : List Char) (column_name_size : Nat),
      ¬ (1 < column_name_size ∧ column_name_size ≤ 6) →
      exchange_export_record_folders_known_column_type column_name column_name_size
          LIBESEDB_COLUMN_TYPE_CURRENCY = EXCHANGE_KNOWN_COLUMN_TYPE_UNDEFINED
      ∧ exchange_export_record_mailbox_known_column_type column_name column_name_size
          LIBESEDB_COLUMN_TYPE_CURRENCY = EXCHANGE_KNOWN_COLUMN_TYPE_UNDEFINED := by
    intro column_name column_name_size hgate
    have hgate2 : ¬ (column_name_size > 1 ∧ column_name_size ≤ 6) := hgate
    simp [exchange_export_record_folders_known_column_type,
      exchange_export_record_mailbox_known_column_type, hgate2]
  refine ⟨?_, ?_, hin column_name column_name_size, hout column_name column_name_size⟩
  · intro hlen
    have hgate : 1 < utf8_column_name_size name ∧ utf8_column_name_size name ≤ 6 := by
      unfold utf8_column_name_size; omega
    have hhead := utf8_column_name_head name hlen.1
    have h := hin (utf8_column_name name) (utf8_column_name_size name) hgate
    rw [hhead] at h
    exact h
  · intro hlen
    have hgate : ¬ (1 < utf8_column_name_size name ∧ utf8_column_name_size name ≤ 6) := by
      unfold utf8_column_name_size; omega
    exact hout (utf8_column_name name) (utf8_column_name_size name) hgate

/-- C7 (amended), at a concrete input: the name "Ttag" (4 characters) on a
currency column is FileTime in the Folders schema. -/
theorem C7_currency_rules_witness :
    exchange_export_record_folders_known_column_type (utf8_column_name "Ttag".toList)
        (utf8_column_name_size "Ttag".toList) LIBESEDB_COLUMN_TYPE_CURRENCY
      = EXCHANGE_KNOWN_COLUMN_TYPE_FILETIME :=
  (((C7_currency_rules [] 0 "Ttag".toList).1 (by decide)).1 rfl).1

/-- C8 (fails as stated): the gate is not the length of the name.  "Sabcde",
"Tabcde" and "Qabcde" have 6 characters, a length greater than 1 and at most
6, and are Undefined on a binary data column in both schemas (not String,
FileTime and Integer64). -/
theorem C8_six_characters_undefined :
    (1 < "Sabcde".toList.length ∧ "Sabcde".toList.length ≤ 6)
    ∧ "Sabcde".toList.head? = some 'S'
    ∧ exchange_export_record_folders_known_column_type (utf8_column_name "Sabcde".toList)
        (utf8_column_name_size "Sabcde".toList) LIBESEDB_COLUMN_TYPE_BINARY_DATA
      = EXCHANGE_KNOWN_COLUMN_TYPE_UNDEFINED
    ∧ exchange_export_record_mailbox_known_column_type (utf8_column_name "Sabcde".toList)
        (utf8_column_name_size "Sabcde".toList) LIBESEDB_COLUMN_TYPE_BINARY_DATA
      = EXCHANGE_KNOWN_COLUMN_TYPE_UNDEFINED
    ∧ "Tabcde".toList.length = 6
    ∧ exchange_export_record_folders_known_column_type (utf8_column_name "Tabcde".toList)
        (utf8_column_name_size "Tabcde".toList) LIBESEDB_COLUMN_TYPE_BINARY_DATA
      = EXCHANGE_KNOWN_COLUMN_TYPE_UNDEFINED
    ∧ exchange_export_record_mailbox_known_column_type (utf8_column_name "Tabcde".toList)
        (utf8_column_name_size "Tabcde".toList) LIBESEDB_COLUMN_TYPE_BINARY_DATA
      = EXCHANGE_KNOWN_COLUMN_TYPE_UNDEFINED
    ∧ "Qabcde".toList.length = 6
    ∧ exchange_export_record_folders_known_column_type (utf8_column_name "Qabcde".toList)
        (utf8_column_name_size "Qabcde".toList) LIBESEDB_COLUMN_TYPE_LARGE_BINARY_DATA
      = EXCHANGE_KNOWN_COLUMN_TYPE_UNDEFINED
    ∧ exchange_export_record_mailbox_known_column_type (utf8_column_name "Qabcde".toList)
        (utf8_column_name_size "Qabcde".toList) LIBESEDB_COLUMN_TYPE_LARGE_BINARY_DATA
      = EXCHANGE_KNOWN_COLUMN_TYPE_UNDEFINED := by
  decide

/-- C8 (amended): for a binary data or large binary data column, in both
schemas, a name of 1 to 5 characters stored with its end-of-string character
(a column name size, which counts that character, greater than 1 and at most
6) is classified String if it begins with 'S', FileTime if it begins with 'T',
Integer64 if it begins with 'Q' and Undefined if it begins with 'L', whatever
the rest of the name is: the tests on the first character come before the
comparisons with the tokens.  An empty name and a name of more than 5
characters are Undefined whatever the first character is.  The same holds for
every name buffer in terms of the column name size that the exporter reads and
tests. -/
theorem C8_binary_first_character_rules (column_name : List Char) (column_name_size : Nat) (name : List Char)
    (column_type : LIBESEDB_COLUMN_TYPES)
    (htype : column_type = LIBESEDB_COLUMN_TYPE_BINARY_DATA
      ∨ column_type = LIBESEDB_COLUMN_TYPE_LARGE_BINARY_DATA) :
    ((1 ≤ name.length ∧ name.length ≤ 5) →
      (name.head? = some 'S' →
        exchange_export_record_folders_known_column_type (utf8_column_name name)
            (utf8_column_name_size name) column_type = EXCHANGE_KNOWN_COLUMN_TYPE_STRING
        ∧ exchange_export_record_mailbox_known_column_type (utf8_column_name name)
            (utf8_column_name_size name) column_type = EXCHANGE_KNOWN_COLUMN_TYPE_STRING)
      ∧ (name.head? = some 'T' →
        exchange_export_record_folders_known_column_type (utf8_column_name name)
            (utf8_column_name_size name) column_type = EXCHANGE_KNOWN_COLUMN_TYPE_FILETIME
        ∧ exchange_export_record_mailbox_known_column_type (utf8_column_name name)
            (utf8_column_name_size name) column_type = EXCHANGE_KNOWN_COLUMN_TYPE_FILETIME)
      ∧ (name.head? = some 'Q' →
        exchange_export_record_folders_known_column_type (utf8_column_name name)
            (utf8_column_name_size name) column_type
          = EXCHANGE_KNOWN_COLUMN_TYPE_INTEGER_64BIT
        ∧ exchange_export_record_mailbox_known_column_type (utf8_column_name name)
            (utf8_column_name_size name) column_type
          = EXCHANGE_KNOWN_COLUMN_TYPE_INTEGER_64BIT)
      ∧ (name.head? = some 'L' →
        exchange_export_record_folders_known_column_type (utf8_column_name name)
            (utf8_column_name_size name) column_type = EXCHANGE_KNOWN_COLUMN_TYPE_UNDEFINED
        ∧ exchange_export_record_mailbox_known_column_type (utf8_column_name name)
            (utf8_column_name_size name) column_type = EXCHANGE_KNOWN_COLUMN_TYPE_UNDEFINED))
    ∧ (¬ (1 ≤ name.length ∧ name.length ≤ 5) →
      exchange_export_record_folders_known_column_type (utf8_column_name name)
          (utf8_column_name_size name) column_type = EXCHANGE_KNOWN_COLUMN_TYPE_UNDEFINED
      ∧ exchange_export_record_mailbox_known_column_type (utf8_column_name name)
          (utf8_column_name_size name) column_type = EXCHANGE_KNOWN_COLUMN_TYPE_UNDEFINED)
    ∧ ((1 < column_name_size ∧ column_name_size ≤ 6) →
      (column_name[0]? = some 'S' →
        exchange_export_record_folders_known_column_type column_name column_name_size
            column_type = EXCHANGE_KNOWN_COLUMN_TYPE_STRING
        ∧ exchange_export_record_mailbox_known_column_type column_name column_name_size
            column_type = EXCHANGE_KNOWN_COLUMN_TYPE_STRING)
      ∧ (column_name[0]? = some 'T' →
        exchange_export_record_folders_known_column_type column_name column_name_size
            column_type = EXCHANGE_KNOWN_COLUMN_TYPE_FILETIME
        ∧ exchange_export_record_mailbox_known_column_type column_name column_name_size
            column_type = EXCHANGE_KNOWN_COLUMN_TYPE_FILETIME)
      ∧ (column_name[0]? = some 'Q' →
        exchange_export_record_folders_known_column_type column_name column_name_size
            column_type = EXCHANGE_KNOWN_COLUMN_TYPE_INTEGER_64BIT
        ∧ exchange_export_record_mailbox_known_column_type column_name column_name_size
            column_type = EXCHANGE_KNOWN_COLUMN_TYPE_INTEGER_64BIT)
      ∧ (column_name[0]? = some 'L' →
        exchange_export_record_folders_known_column_type column_name column_name_size
            column_type = EXCHANGE_KNOWN_COLUMN_TYPE_UNDEFINED
        ∧ exchange_export_record_mailbox_known_column_type column_name column_name_size
            column_type = EXCHANGE_KNOWN_COLUMN_TYPE_UNDEFINED))
    ∧ (¬ (1 < column_name_size ∧ column_name_size ≤ 6) →
      exchange_export_record_folders_known_column_type column_name column_name_size
          column_type = EXCHANGE_KNOWN_COLUMN_TYPE_UNDEFINED
      ∧ exchange_export_record_mailbox_known_column_type column_name column_name_size
          column_type = EXCHANGE_KNOWN_COLUMN_TYPE_UNDEFINED) := by
  have hin : ∀ (column_name : List Char) (column_name_size : Nat),
      (1 < column_name_size ∧ column_name_size ≤ 6) →
      (column_name[0]? = some 'S' →
        exchange_export_record_folders_known_column_type column_name column_name_size
            column_type = EXCHANGE_KNOWN_COLUMN_TYPE_STRING
        ∧ exchange_export_record_mailbox_known_column_type column_name column_name_size
            column_type = EXCHANGE_KNOWN_COLUMN_TYPE_STRING)
      ∧ (column_name[0]? = some 'T' →
        exchange_export_record_folders_known_column_type column_name column_name_size
            column_type = EXCHANGE_KNOWN_COLUMN_TYPE_FILETIME
        ∧ exchange_export_record_mailbox_known_column_type column_name column_name_size
            column_type = EXCHANGE_KNOWN_COLUMN_TYPE_FILETIME)
      ∧ (column_name[0]? = some 'Q' →
        exchange_export_record_folders_known_column_type column_name column_name_size
            column_type = EXCHANGE_KNOWN_COLUMN_TYPE_INTEGER_64BIT
        ∧ exchange_export_record_mailbox_known_column_type column_name column_name_size
            column_type = EXCHANGE_KNOWN_COLUMN_TYPE_INTEGER_64BIT)
      ∧ (column_name[0]? = some 'L' →
        exchange_export_record_folders_known_column_type column_name column_name_size
            column_type = EXCHANGE_KNOWN_COLUMN_TYPE_UNDEFINED
        ∧ exchange_export_record_mailbox_known_column_type column_name column_name_size
            column_type = EXCHANGE_KNOWN_COLUMN_TYPE_UNDEFINED) := by
    intro column_name column_name_size hsize
    have hgate : column_name_size > 1 ∧ column_name_size ≤ 6 := hsize
    refine ⟨?_, ?_, ?_, ?_⟩ <;> intro hc <;> rcases htype with rfl | rfl <;>
      simp [exchange_export_record_folders_known_column_type,
        exchange_export_record_mailbox_known_column_type, hgate, hc]
  have hout : ∀ (column_name : List Char) (column_name_size : Nat),
      ¬ (1 < column_name_size ∧ column_name_size ≤ 6) →
      exchange_export_record_folders_known_column_type column_name column_name_size
          column_type = EXCHANGE_KNOWN_COLUMN_TYPE_UNDEFINED
      ∧ exchange_export_record_mailbox_known_column_type column_name column_name_size
          column_type = EXCHANGE_KNOWN_COLUMN_TYPE_UNDEFINED := by
    intro column_name column_name_size hgate
    have hgate2 : ¬ (column_name_size > 1 ∧ column_name_size ≤ 6) := hgate
    simp [exchange_export_record_folders_known_column_type,
      exchange_export_record_mailbox_known_column_type, hgate2]
  refine ⟨?_, ?_, hin column_name column_name_size, hout column_name column_name_size⟩
  · intro hlen
    have hgate : 1 < utf8_column_name_size name ∧ utf8_column_name_size name ≤ 6 := by
      unfold utf8_column_name_size; omega
    have hhead := utf8_column_name_head name hlen.1
    have h := hin (utf8_column_name name) (utf8_column_name_size name) hgate
    rw [hhead] at h
    exact h
  · intro hlen
    have hgate : ¬ (1 < utf8_column_name_size name ∧ utf8_column_name_size name ≤ 6) := by
      unfold utf8_column_name_size; omega
    exact hout (utf8_column_name name) (utf8_column_name_size name) hgate

/-- C8 (amended), at a concrete input: the name "Sabc" (4 characters) on a
large binary data column is String in the Mailbox schema. -/
theorem C8_binary_first_character_rules_witness :
    exchange_export_record_mailbox_known_column_type (utf8_column_name "Sabc".toList)
        (utf8_column_name_size "Sabc".toList) LIBESEDB_COLUMN_TYPE_LARGE_BINARY_DATA
      = EXCHANGE_KNOWN_COLUMN_TYPE_STRING :=
  (((C8_binary_first_character_rules [] 0 "Sabc".toList LIBESEDB_COLUMN_TYPE_LARGE_BINARY_DATA (Or.inr rfl)).1
    (by decide)).1 rfl).2

/-- C9: in the Folders schema, for a binary data or large binary data column
whose name is stored with its end-of-string character, the name is classified
SecurityIdentifier exactly when it is "Ne58" or "Ne59" and GUID exactly when it
is "N3880"; a name that does not begin with 'S', 'T' or 'Q' and is none of the
three tokens is Undefined.  The whole name is matched: "Ne58x", "N388" and
"N38801" are Undefined. -/
theorem C9_folders_tokens_exact (name : List Char) (column_type : LIBESEDB_COLUMN_TYPES)
    (htype : column_type = LIBESEDB_COLUMN_TYPE_BINARY_DATA
      ∨ column_type = LIBESEDB_COLUMN_TYPE_LARGE_BINARY_DATA) :
    (exchange_export_record_folders_known_column_type (utf8_column_name name)
        (utf8_column_name_size name) column_type = EXCHANGE_KNOWN_COLUMN_TYPE_SID
      ↔ name = "Ne58".toList ∨ name = "Ne59".toList)
    ∧ (exchange_export_record_folders_known_column_type (utf8_column_name name)
        (utf8_column_name_size name) column_type = EXCHANGE_KNOWN_COLUMN_TYPE_GUID
      ↔ name = "N3880".toList)
    ∧ (name.head? ≠ some 'S' → name.head? ≠ some 'T' → name.head? ≠ some 'Q' →
        name ≠ "Ne58".toList → name ≠ "Ne59".toList → name ≠ "N3880".toList →
        exchange_export_record_folders_known_column_type (utf8_column_name name)
          (utf8_column_name_size name) column_type = EXCHANGE_KNOWN_COLUMN_TYPE_UNDEFINED)
    ∧ exchange_export_record_folders_known_column_type (utf8_column_name "Ne58x".toList)
        (utf8_column_name_size "Ne58x".toList) column_type
      = EXCHANGE_KNOWN_COLUMN_TYPE_UNDEFINED
    ∧ exchange_export_record_folders_known_column_type (utf8_column_name "N388".toList)
        (utf8_column_name_size "N388".toList) column_type
      = EXCHANGE_KNOWN_COLUMN_TYPE_UNDEFINED
    ∧ exchange_export_record_folders_known_column_type (utf8_column_name "N38801".toList)
        (utf8_column_name_size "N38801".toList) column_type
      = EXCHANGE_KNOWN_COLUMN_TYPE_UNDEFINED := by
  have e1 : "Ne58".toList = ['N', 'e', '5', '8'] := rfl
  have e2 : "Ne59".toList = ['N', 'e', '5', '9'] := rfl
  have e3 : "N3880".toList = ['N', '3', '8', '8', '0'] := rfl
  have e4 : "Ne58x".toList = ['N', 'e', '5', '8', 'x'] := rfl
  have e5 : "N388".toList = ['N', '3', '8', '8'] := rfl
  have e6 : "N38801".toList = ['N', '3', '8', '8', '0', '1'] := rfl
  rw [e1, e2, e3, e4, e5, e6]
  refine ⟨?_, ?_, ?_, ?_, ?_, ?_⟩
  · rw [folders_known_column_type_of_name name column_type htype]
    constructor
    · intro h
      split_ifs at h <;> simp_all
    · intro h
      rcases h with rfl | rfl <;> decide
  · rw [folders_known_column_type_of_name name column_type htype]
    constructor
    · intro h
      split_ifs at h <;> simp_all
    · intro h
      subst h
      decide
  · intro hS hT hQ h1 h2 h3
    rw [folders_known_column_type_of_name name column_type htype]
    split_ifs <;> simp_all
  · rw [folders_known_column_type_of_name _ column_type htype]; decide
  · rw [folders_known_column_type_of_name _ column_type htype]; decide
  · rw [folders_known_column_type_of_name _ column_type htype]; decide

/-- C9, at a concrete input: "Ne59" on a binary data column is
SecurityIdentifier in the Folders schema. -/
theorem C9_folders_tokens_exact_witness :
    exchange_export_record_folders_known_column_type (utf8_column_name "Ne59".toList)
        (utf8_column_name_size "Ne59".toList) LIBESEDB_COLUMN_TYPE_BINARY_DATA
      = EXCHANGE_KNOWN_COLUMN_TYPE_SID :=
  (C9_folders_tokens_exact "Ne59".toList LIBESEDB_COLUMN_TYPE_BINARY_DATA (Or.inl rfl)).1.mpr
    (Or.inr rfl)

/-- C10: in the Mailbox schema, for a binary data or large binary data column
whose name is stored with its end-of-string character, the name is classified
SecurityIdentifier exactly when it is "N66a0" and GUID exactly when it is
"N676a" or "N676c"; a name that does not begin with 'S', 'T' or 'Q' and is none
of the three tokens is Undefined, in particular the Folders tokens "Ne58",
"Ne59" and "N3880".  The whole name is matched: "N66a" and "N66a0x" are
Undefined. -/
theorem C10_mailbox_tokens_exact (name : List Char) (column_type : LIBESEDB_COLUMN_TYPES)
    (htype : column_type = LIBESEDB_COLUMN_TYPE_BINARY_DATA
      ∨ column_type = LIBESEDB_COLUMN_TYPE_LARGE_BINARY_DATA) :
    (exchange_export_record_mailbox_known_column_type (utf8_column_name name)
        (utf8_column_name_size name) column_type = EXCHANGE_KNOWN_COLUMN_TYPE_SID
      ↔ name = "N66a0".toList)
    ∧ (exchange_export_record_mailbox_known_column_type (utf8_column_name name)
        (utf8_column_name_size name) column_type = EXCHANGE_KNOWN_COLUMN_TYPE_GUID
      ↔ name = "N676a".toList ∨ name = "N676c".toList)
    ∧ (name.head? ≠ some 'S' → name.head? ≠ some 'T' → name.head? ≠ some 'Q' →
        name ≠ "N66a0".toList → name ≠ "N676a".toList → name ≠ "N676c".toList →
        exchange_export_record_mailbox_known_column_type (utf8_column_name name)
          (utf8_column_name_size name) column_type = EXCHANGE_KNOWN_COLUMN_TYPE_UNDEFINED)
    ∧ exchange_export_record_mailbox_known_column_type (utf8_column_name "Ne58".toList)
        (utf8_column_name_size "Ne58".toList) column_type
      = EXCHANGE_KNOWN_COLUMN_TYPE_UNDEFINED
    ∧ exchange_export_record_mailbox_known_column_type (utf8_column_name "Ne59".toList)
        (utf8_column_name_size "Ne59".toList) column_type
      = EXCHANGE_KNOWN_COLUMN_TYPE_UNDEFINED
    ∧ exchange_export_record_mailbox_known_column_type (utf8_column_name "N3880".toList)
        (utf8_column_name_size "N3880".toList) column_type
      = EXCHANGE_KNOWN_COLUMN_TYPE_UNDEFINED
    ∧ exchange_export_record_mailbox_known_column_type (utf8_column_name "N66a".toList)
        (utf8_column_name_size "N66a".toList) column_type
      = EXCHANGE_KNOWN_COLUMN_TYPE_UNDEFINED
    ∧ exchange_export_record_mailbox_known_column_type (utf8_column_name "N66a0x".toList)
        (utf8_column_name_size "N66a0x".toList) column_type
      = EXCHANGE_KNOWN_COLUMN_TYPE_UNDEFINED := by
  have e1 : "N66a0".toList = ['N', '6', '6', 'a', '0'] := rfl
  have e2 : "N676a".toList = ['N', '6', '7', '6', 'a'] := rfl
  have e3 : "N676c".toList = ['N', '6', '7', '6', 'c'] := rfl
  have e4 : "Ne58".toList = ['N', 'e', '5', '8'] := rfl
  have e5 : "Ne59".toList = ['N', 'e', '5', '9'] := rfl
  have e6 : "N3880".toList = ['N', '3', '8', '8', '0'] := rfl
  have e7 : "N66a".toList = ['N', '6', '6', 'a'] := rfl
  have e8 : "N66a0x".toList = ['N', '6', '6', 'a', '0', 'x'] := rfl
  rw [e1, e2, e3, e4, e5, e6, e7, e8]
  refine ⟨?_, ?_, ?_, ?_, ?_, ?_, ?_, ?_⟩
  · rw [mailbox_known_column_type_of_name name column_type htype]
    constructor
    · intro h
      split_ifs at h <;> simp_all
    · intro h
      subst h
      decide
  · rw [mailbox_known_column_type_of_name name column_type htype]
    constructor
    · intro h
      split_ifs at h <;> simp_all
    · intro h
      rcases h with rfl | rfl <;> decide
  · intro hS hT hQ h1 h2 h3
    rw [mailbox_known_column_type_of_name name column_type htype]
    split_ifs <;> simp_all
  · rw [mailbox_known_column_type_of_name _ column_type htype]; decide
  · rw [mailbox_known_column_type_of_name _ column_type htype]; decide
  · rw [mailbox_known_column_type_of_name _ column_type htype]; decide
  · rw [mailbox_known_column_type_of_name _ column_type htype]; decide
  · rw [mailbox_known_column_type_of_name _ column_type htype]; decide

/-- C10, at a concrete input: "N676c" on a binary data column is GUID in the
Mailbox schema. -/
theorem C10_mailbox_tokens_exact_witness :
    exchange_export_record_mailbox_known_column_type (utf8_column_name "N676c".toList)
        (utf8_column_name_size "N676c".toList) LIBESEDB_COLUMN_TYPE_BINARY_DATA
      = EXCHANGE_KNOWN_COLUMN_TYPE_GUID :=
  (C10_mailbox_tokens_exact "N676c".toList LIBESEDB_COLUMN_TYPE_BINARY_DATA
    (Or.inl rfl)).2.1.mpr (Or.inr rfl)

/-! ## Failure of a position, atomicity of the typed exporters, digits -/

theorem exchange_export_record_value_32bit_atomic (env : Collaborators)
    (record : Option libesedb_record_t) (record_value_entry : Int)
    (byte_order : BYTE_STREAM_ENDIAN) (table_file_stream : Option FILE)
    (error : List liberror_error) :
    (exchange_export_record_value_32bit env record record_value_entry byte_order
        table_file_stream error).result = 1
    ∨ ((exchange_export_record_value_32bit env record record_value_entry byte_order
        table_file_stream error).result = -1
      ∧ (exchange_export_record_value_32bit env record record_value_entry byte_order
        table_file_stream error).table_file_stream = table_file_stream) := by
  unfold exchange_export_record_value_32bit
  repeat' split
  all_goals simp_all [return_error]

theorem exchange_export_record_value_64bit_atomic (env : Collaborators)
    (record : Option libesedb_record_t) (record_value_entry : Int)
    (byte_order : BYTE_STREAM_ENDIAN) (table_file_stream : Option FILE)
    (error : List liberror_error) :
    (exchange_export_record_value_64bit env record record_value_entry byte_order
        table_file_stream error).result = 1
    ∨ ((exchange_export_record_value_64bit env record record_value_entry byte_order
        table_file_stream error).result = -1
      ∧ (exchange_export_record_value_64bit env record record_value_entry byte_order
        table_file_stream error).table_file_stream = table_file_stream) := by
  unfold exchange_export_record_value_64bit
  repeat' split
  all_goals simp_all [return_error]

theorem exchange_export_record_value_filetime_atomic (env : Collaborators)
    (record : Option libesedb_record_t) (record_value_entry : Int)
    (byte_order : BYTE_STREAM_ENDIAN) (table_file_stream : Option FILE)
    (error : List liberror_error) :
    (exchange_export_record_value_filetime env record record_value_entry byte_order
        table_file_stream error).result = 1
    ∨ ((exchange_export_record_value_filetime env record record_value_entry byte_order
        table_file_stream error).result = -1
      ∧ (exchange_export_record_value_filetime env record record_value_entry byte_order
        table_file_stream error).table_file_stream = table_file_stream) := by
  unfold exchange_export_record_value_filetime
  repeat' split
  all_goals simp_all [return_error]

theorem exchange_export_record_value_guid_atomic (env : Collaborators)
    (record : Option libesedb_record_t) (record_value_entry : Int)
    (byte_order : BYTE_STREAM_ENDIAN) (table_file_stream : Option FILE)
    (error : List liberror_error) :
    (exchange_export_record_value_guid env record record_value_entry byte_order
        table_file_stream error).result = 1
    ∨ ((exchange_export_record_value_guid env record record_value_entry byte_order
        table_file_stream error).result = -1
      ∧ (exchange_export_record_value_guid env record record_value_entry byte_order
        table_file_stream error).table_file_stream = table_file_stream) := by
  unfold exchange_export_record_value_guid
  repeat' split
  all_goals simp_all [return_error]

theorem exchange_export_record_value_sid_atomic (env : Collaborators)
    (record : Option libesedb_record_t) (record_value_entry : Int)
    (table_file_stream : Option FILE) (error : List liberror_error) :
    (exchange_export_record_value_sid env record record_value_entry
        table_file_stream error).result = 1
    ∨ ((exchange_export_record_value_sid env record record_value_entry
        table_file_stream error).result = -1
      ∧ (exchange_export_record_value_sid env record record_value_entry
        table_file_stream error).table_file_stream = table_file_stream) := by
  unfold exchange_export_record_value_sid
  repeat' split
  all_goals simp_all [return_error]

theorem exchange_export_record_value_string_atomic
    (record : Option libesedb_record_t) (record_value_entry : Int)
    (table_file_stream : Option FILE) (error : List liberror_error) :
    (exchange_export_record_value_string record record_value_entry
        table_file_stream error).result = 1
    ∨ ((exchange_export_record_value_string record record_value_entry
        table_file_stream error).result = -1
      ∧ (exchange_export_record_value_string record record_value_entry
        table_file_stream error).table_file_stream = table_file_stream) := by
  unfold exchange_export_record_value_string
  repeat' split
  all_goals simp_all [return_error]

/-- A typed exporter that the loop body dispatches to either returns 1 or
returns -1 and leaves the stream as it was. -/
theorem exchange_export_record_dispatch_atomic (env : Collaborators)
    (record : libesedb_record_t) (value_iterator : Int) (byte_order : BYTE_STREAM_ENDIAN)
    (known_column_type : EXCHANGE_KNOWN_COLUMN_TYPES)
    (hknown : known_column_type ≠ EXCHANGE_KNOWN_COLUMN_TYPE_UNDEFINED)
    (table_file_stream : Option FILE) (error : List liberror_error) :
    (exchange_export_record_dispatch env record value_iterator byte_order known_column_type
        table_file_stream error).result = 1
    ∨ ((exchange_export_record_dispatch env record value_iterator byte_order known_column_type
        table_file_stream error).result = -1
      ∧ (exchange_export_record_dispatch env record value_iterator byte_order known_column_type
        table_file_stream error).table_file_stream = table_file_stream) := by
  cases known_column_type
  case EXCHANGE_KNOWN_COLUMN_TYPE_UNDEFINED => exact absurd rfl hknown
  case EXCHANGE_KNOWN_COLUMN_TYPE_INTEGER_32BIT =>
    exact exchange_export_record_value_32bit_atomic env (some record) value_iterator byte_order
      table_file_stream error
  case EXCHANGE_KNOWN_COLUMN_TYPE_INTEGER_64BIT =>
    exact exchange_export_record_value_64bit_atomic env (some record) value_iterator byte_order
      table_file_stream error
  case EXCHANGE_KNOWN_COLUMN_TYPE_FILETIME =>
    exact exchange_export_record_value_filetime_atomic env (some record) value_iterator
      byte_order table_file_stream error
  case EXCHANGE_KNOWN_COLUMN_TYPE_GUID =>
    exact exchange_export_record_value_guid_atomic env (some record) value_iterator byte_order
      table_file_stream error
  case EXCHANGE_KNOWN_COLUMN_TYPE_SID =>
    exact exchange_export_record_value_sid_atomic env (some record) value_iterator
      table_file_stream error
  case EXCHANGE_KNOWN_COLUMN_TYPE_STRING =>
    exact exchange_export_record_value_string_atomic (some record) value_iterator
      table_file_stream error

/-- The loop body returns 1 or -1. -/
theorem exchange_export_record_value_result
    (known_column_type : List Char → Nat → LIBESEDB_COLUMN_TYPES → EXCHANGE_KNOWN_COLUMN_TYPES)
    (env : Collaborators) (record : libesedb_record_t) (value_iterator : Int)
    (table_file_stream : Option FILE) (error : List liberror_error) :
    (exchange_export_record_value known_column_type env record value_iterator
        table_file_stream error).result = 1
    ∨ (exchange_export_record_value known_column_type env record value_iterator
        table_file_stream error).result = -1 := by
  unfold exchange_export_record_value
  repeat' split
  all_goals first
    | (simp_all [return_error]; done)
    | (simp only [ne_eq, ite_not]; split_ifs with h
       · exact Or.inl h
       · exact Or.inr rfl)

/-- A position that fails in a lookup, on the name size or in a typed exporter
does not export successfully and has an empty field text. -/
theorem fails_in_lookup_or_typed_exporter_text
    (known_column_type : List Char → Nat → LIBESEDB_COLUMN_TYPES → EXCHANGE_KNOWN_COLUMN_TYPES)
    (env : Collaborators) (record : libesedb_record_t) (value_iterator : Int)
    (hfail : fails_in_lookup_or_typed_exporter known_column_type env record value_iterator) :
    ¬ exports_successfully known_column_type env record value_iterator
    ∧ field_text known_column_type env record value_iterator = [] := by
  unfold exports_successfully field_text returned appended_text
  rcases hfail with hsize | ⟨column_name_size, hsize, hrest⟩
  · simp [exchange_export_record_value, hsize, return_error]
  · rcases hrest with hbig | hname | ⟨column_name, hname, hrest⟩
    · have hbig' : column_name_size > 256 := hbig
      simp [exchange_export_record_value, hsize, hbig', return_error]
    · by_cases hbig : column_name_size > 256
      · simp [exchange_export_record_value, hsize, hbig, return_error]
      · simp [exchange_export_record_value, hsize, hbig, hname, return_error]
    · by_cases hbig : column_name_size > 256
      · simp [exchange_export_record_value, hsize, hbig, return_error]
      · rcases hrest with htype | ⟨column_type, htype, hknown, hres⟩
        · simp [exchange_export_record_value, hsize, hbig, hname, htype, return_error]
        · unfold returned at hres
          have hatomic := exchange_export_record_dispatch_atomic env record value_iterator
            BYTE_STREAM_ENDIAN_LITTLE
            (known_column_type column_name column_name_size column_type) hknown (some []) []
          rcases hatomic with h1 | ⟨_, hstream⟩
          · exact absurd h1 hres
          · simp [exchange_export_record_value, hsize, hbig, hname, htype, hres, return_error,
              hstream]

/-- The loop when the positions before offset `k` export successfully and the
position at offset `k` does not: it returns -1 there, having appended the
earlier field texts with their separators and whatever the failing position
wrote. -/
theorem exchange_export_record_loop_failure
    (known_column_type : List Char → Nat → LIBESEDB_COLUMN_TYPES → EXCHANGE_KNOWN_COLUMN_TYPES)
    (env : Collaborators) (record : libesedb_record_t) (number_of_values : Int) (k : Nat) :
    ∀ (remaining : Nat) (value_iterator : Int) (written : FILE) (error : List liberror_error),
      k < remaining →
      (∀ j : Nat, j < k →
        exports_successfully known_column_type env record (value_iterator + j)) →
      ¬ exports_successfully known_column_type env record (value_iterator + k) →
      exchange_export_record_loop known_column_type env record number_of_values remaining
          value_iterator (some written) error
        = Outcome.mk (-1)
            (some (written ++ ((List.range k).map (fun j : Nat =>
              field_text known_column_type env record (value_iterator + j)
                ++ [separator number_of_values (value_iterator + j)])).flatten
              ++ field_text known_column_type env record (value_iterator + k)))
            (error ++ (exchange_export_record_value known_column_type env record
              (value_iterator + k) (some []) []).error) := by
  induction k with
  | zero =>
    intro remaining value_iterator written error hrem _ hfail
    obtain ⟨r, rfl⟩ : ∃ r, remaining = r + 1 := ⟨remaining - 1, by omega⟩
    simp only [Nat.cast_zero, add_zero] at hfail ⊢
    have happ := exchange_export_record_value_appends known_column_type env record
      value_iterator written error
    have hres := exchange_export_record_value_result known_column_type env record
      value_iterator (some []) []
    have hne : returned (exchange_export_record_value known_column_type env record
        value_iterator) ≠ 1 := hfail
    have hminus : returned (exchange_export_record_value known_column_type env record
        value_iterator) = -1 := by
      rcases hres with h | h
      · exact absurd h hne
      · exact h
    simp only [exchange_export_record_loop, happ, hminus]
    simp [field_text]
  | succ k ih =>
    intro remaining value_iterator written error hrem hall hfail
    obtain ⟨r, rfl⟩ : ∃ r, remaining = r + 1 := ⟨remaining - 1, by omega⟩
    have h0 : exports_successfully known_column_type env record value_iterator := by
      simpa using hall 0 (Nat.succ_pos k)
    have hrest : ∀ j : Nat, j < k →
        exports_successfully known_column_type env record (value_iterator + 1 + j) := by
      intro j hj
      have := hall (j + 1) (Nat.succ_lt_succ hj)
      have e : value_iterator + 1 + (j : Int) = value_iterator + ((j + 1 : Nat) : Int) := by
        push_cast; ring
      rw [e]; exact this
    have ek : value_iterator + 1 + (k : Int) = value_iterator + ((k + 1 : Nat) : Int) := by
      push_cast; ring
    have hfail' : ¬ exports_successfully known_column_type env record
        (value_iterator + 1 + k) := by
      rw [ek]; exact hfail
    have hfun : (fun j : Nat => field_text known_column_type env record (value_iterator + 1 + j)
          ++ [separator number_of_values (value_iterator + 1 + j)])
        = (fun j : Nat => field_text known_column_type env record (value_iterator + j)
          ++ [separator number_of_values (value_iterator + j)]) ∘ Nat.succ := by
      funext j
      have e : value_iterator + 1 + (j : Int) = value_iterator + ((Nat.succ j : Nat) : Int) := by
        push_cast; ring
      simp only [Function.comp, e]
    simp only [exchange_export_record_loop,
      exchange_export_record_value_success known_column_type env record value_iterator h0]
    by_cases hlast : value_iterator = number_of_values - 1
    · simp only [hlast, ne_eq, not_true_eq_false, if_false, if_true, fprintf_some]
      rw [← hlast, ih r (value_iterator + 1) _ error (by omega) hrest hfail', hfun,
        List.range_succ_eq_map, ek]
      simp [separator, hlast, List.map_map]
    · simp only [hlast, ne_eq, not_true_eq_false, if_false, fprintf_some]
      rw [ih r (value_iterator + 1) _ error (by omega) hrest hfail', hfun,
        List.range_succ_eq_map, ek]
      simp [separator, hlast, List.map_map]

/-- The exporter the loop body dispatches to sees a record only through the
column type, the value and the generic exporter of its entry. -/
theorem exchange_export_record_dispatch_congr (env : Collaborators)
    (record record' : libesedb_record_t) (value_iterator : Int)
    (byte_order : BYTE_STREAM_ENDIAN) (known_column_type : EXCHANGE_KNOWN_COLUMN_TYPES)
    (htype : record.get_column_type value_iterator = record'.get_column_type value_iterator)
    (hvalue : record.get_value value_iterator = record'.get_value value_iterator)
    (hgeneric : env.export_handle_export_record_value record value_iterator
      = env.export_handle_export_record_value record' value_iterator)
    (table_file_stream : Option FILE) (error : List liberror_error) :
    exchange_export_record_dispatch env record value_iterator byte_order known_column_type
        table_file_stream error
      = exchange_export_record_dispatch env record' value_iterator byte_order known_column_type
        table_file_stream error := by
  cases known_column_type <;>
    simp only [exchange_export_record_dispatch, exchange_export_record_value_32bit,
      exchange_export_record_value_64bit, exchange_export_record_value_filetime,
      exchange_export_record_value_guid, exchange_export_record_value_sid,
      exchange_export_record_value_string, htype, hvalue, hgeneric]

/-- The loop body sees a record only through the answers for its entry. -/
theorem exchange_export_record_value_congr
    (known_column_type : List Char → Nat → LIBESEDB_COLUMN_TYPES → EXCHANGE_KNOWN_COLUMN_TYPES)
    (env : Collaborators) (record record' : libesedb_record_t) (value_iterator : Int)
    (hsame : same_entry env record record' value_iterator)
    (table_file_stream : Option FILE) (error : List liberror_error) :
    exchange_export_record_value known_column_type env record value_iterator
        table_file_stream error
      = exchange_export_record_value known_column_type env record' value_iterator
        table_file_stream error := by
  obtain ⟨hsize, hname, htype, hvalue, hgeneric⟩ := hsame
  have hdispatch := fun byte_order known table_file_stream error =>
    exchange_export_record_dispatch_congr env record record' value_iterator byte_order known
      htype hvalue hgeneric table_file_stream error
  simp only [exchange_export_record_value, hsize, hname, htype, hdispatch]

/-- The record exporter when the positions before `k` export successfully and
position `k` does not, for any classification block. -/
theorem exchange_export_record_failure
    (known_column_type : List Char → Nat → LIBESEDB_COLUMN_TYPES → EXCHANGE_KNOWN_COLUMN_TYPES)
    (env : Collaborators) (record : libesedb_record_t) (N k : Nat)
    (hcount : record.get_number_of_values = some (N : Int)) (hk : k < N)
    (hbefore : ∀ i : Nat, i < k → exports_successfully known_column_type env record (i : Int))
    (hfail : ¬ exports_successfully known_column_type env record (k : Int))
    (written : FILE) (error : List liberror_error) :
    exchange_export_record known_column_type env (some record) (some written) error
      = Outcome.mk (-1)
          (some (written ++ ((List.range k).map (fun i : Nat =>
            field_text known_column_type env record (i : Int) ++ ['\t'])).flatten
            ++ field_text known_column_type env record (k : Int)))
          (error ++ (exchange_export_record_value known_column_type env record (k : Int)
            (some []) []).error) := by
  have hbefore0 : ∀ j : Nat, j < k →
      exports_successfully known_column_type env record (0 + (j : Int)) := by
    intro j hj; simpa using hbefore j hj
  have hfail0 : ¬ exports_successfully known_column_type env record (0 + (k : Int)) := by
    simpa using hfail
  have h := exchange_export_record_loop_failure known_column_type env record (N : Int) k N 0
    written error hk hbefore0 hfail0
  have hmap : (List.range k).map (fun j : Nat =>
        field_text known_column_type env record (0 + (j : Int))
          ++ [separator (N : Int) (0 + (j : Int))])
      = (List.range k).map (fun i : Nat =>
        field_text known_column_type env record (i : Int) ++ ['\t']) := by
    apply List.map_congr_left
    intro j hj
    rw [List.mem_range] at hj
    have : ¬ ((0 : Int) + (j : Int) = (N : Int) - 1) := by omega
    simp only [separator, this, if_false]
    simp
  rw [hmap] at h
  simp only [exchange_export_record, hcount, Int.toNat_ofNat]
  simpa using h

/-- The record exporter when position `k` fails in a lookup, on the name size
or in a typed exporter after the positions before it exported successfully,
for any classification block: it returns -1, the stream holds the earlier
fields each followed by a tab and nothing else, and a record that answers
alike at the positions up to `k` gives the same outcome. -/
theorem exchange_export_record_aborts
    (known_column_type : List Char → Nat → LIBESEDB_COLUMN_TYPES → EXCHANGE_KNOWN_COLUMN_TYPES)
    (env : Collaborators) (record : libesedb_record_t) (N k : Nat)
    (hcount : record.get_number_of_values = some (N : Int)) (hk : k < N)
    (hbefore : ∀ i : Nat, i < k → exports_successfully known_column_type env record (i : Int))
    (hfail : fails_in_lookup_or_typed_exporter known_column_type env record (k : Int))
    (written : FILE) (error : List liberror_error) :
    (exchange_export_record known_column_type env (some record) (some written) error).result
      = -1
    ∧ (exchange_export_record known_column_type env (some record) (some written)
        error).table_file_stream
      = some (written ++ ((List.range k).map (fun i : Nat =>
          field_text known_column_type env record (i : Int) ++ ['\t'])).flatten)
    ∧ ∀ record' : libesedb_record_t,
        record'.get_number_of_values = some (N : Int) →
        (∀ i : Nat, i ≤ k → same_entry env record record' (i : Int)) →
        exchange_export_record known_column_type env (some record') (some written) error
          = exchange_export_record known_column_type env (some record) (some written) error := by
  have htext := fails_in_lookup_or_typed_exporter_text known_column_type env record (k : Int)
    hfail
  have h := exchange_export_record_failure known_column_type env record N k hcount hk hbefore
    htext.1 written error
  refine ⟨?_, ?_, ?_⟩
  · rw [h]
  · rw [h, htext.2]; simp
  · intro record' hcount' hsame
    have hbody : ∀ i : Nat, i ≤ k →
        exchange_export_record_value known_column_type env record' (i : Int)
          = exchange_export_record_value known_column_type env record (i : Int) := by
      intro i hi
      funext table_file_stream error
      exact (exchange_export_record_value_congr known_column_type env record record' (i : Int)
        (hsame i hi) table_file_stream error).symm
    have hbefore' : ∀ i : Nat, i < k →
        exports_successfully known_column_type env record' (i : Int) := by
      intro i hi
      have := hbefore i hi
      unfold exports_successfully at this ⊢
      rw [hbody i (by omega)]; exact this
    have hfail' : ¬ exports_successfully known_column_type env record' (k : Int) := by
      have := htext.1
      unfold exports_successfully at this ⊢
      rw [hbody k (le_refl k)]; exact this
    rw [h, exchange_export_record_failure known_column_type env record' N k hcount' hk hbefore'
      hfail' written error]
    have hmap : (List.range k).map (fun i : Nat =>
          field_text known_column_type env record' (i : Int) ++ ['\t'])
        = (List.range k).map (fun i : Nat =>
          field_text known_column_type env record (i : Int) ++ ['\t']) := by
      apply List.map_congr_left
      intro i hi
      rw [List.mem_range] at hi
      unfold field_text
      rw [hbody i (by omega)]
    unfold field_text at hmap ⊢
    rw [hmap, hbody k (le_refl k)]

theorem digit_value_digitChar (d : Nat) (hd : d < 16) : digit_value (Nat.digitChar d) = d := by
  interval_cases d <;> decide

theorem digitChar_mem (d : Nat) (hd : d < 16) :
    Nat.digitChar d ∈ "0123456789abcdef".toList := by
  interval_cases d <;> decide

theorem digitChar_ne_zero (d : Nat) (hd : d < 16) (hpos : d ≠ 0) : Nat.digitChar d ≠ '0' := by
  interval_cases d <;> first | exact absurd rfl hpos | decide

theorem toDigitsCore_append (base : Nat) (hbase : 2 ≤ base) (n : Nat) :
    ∀ (fuel : Nat) (ds : List Char), n < fuel →
      Nat.toDigitsCore base fuel n ds = Nat.toDigitsCore base (n + 1) n [] ++ ds := by
  induction n using Nat.strong_induction_on with
  | _ n ih =>
    intro fuel ds hfuel
    obtain ⟨f, rfl⟩ : ∃ f, fuel = f + 1 := ⟨fuel - 1, by omega⟩
    by_cases hq : n / base = 0
    · simp [Nat.toDigitsCore, hq]
    · have hlt : n / base < n := by
        have hpos : 0 < n := by
          rcases Nat.eq_zero_or_pos n with h | h
          · subst h; simp at hq
          · exact h
        exact Nat.div_lt_self hpos (by omega)
      have h1 := ih (n / base) hlt f (Nat.digitChar (n % base) :: ds) (by omega)
      have h2 := ih (n / base) hlt n [Nat.digitChar (n % base)] hlt
      simp only [Nat.toDigitsCore, hq, if_false]
      rw [h1, h2]
      simp

/-- The digits of a number: those of the quotient, then the last digit. -/
theorem toDigits_step (base : Nat) (hbase : 2 ≤ base) (n : Nat) :
    Nat.toDigits base n
      = if n / base = 0 then [Nat.digitChar (n % base)]
        else Nat.toDigits base (n / base) ++ [Nat.digitChar (n % base)] := by
  unfold Nat.toDigits
  by_cases hq : n / base = 0
  · simp [Nat.toDigitsCore, hq]
  · have hlt : n / base < n := by
      have hpos : 0 < n := by
        rcases Nat.eq_zero_or_pos n with h | h
        · subst h; simp at hq
        · exact h
      exact Nat.div_lt_self hpos (by omega)
    simp only [Nat.toDigitsCore, hq, if_false]
    exact toDigitsCore_append base hbase (n / base) n [Nat.digitChar (n % base)] hlt

/-- What `Nat.toDigits` writes in a base from 2 to 16: digits from
"0123456789abcdef" that denote the number, with no leading zero (the single
digit "0" for zero). -/
theorem toDigits_spec (base : Nat) (hbase : 2 ≤ base) (hbase16 : base ≤ 16) (n : Nat) :
    digits_value base (Nat.toDigits base n) = n
    ∧ (∀ c ∈ Nat.toDigits base n, c ∈ "0123456789abcdef".toList)
    ∧ (n ≠ 0 → (Nat.toDigits base n).head? ≠ some '0')
    ∧ (n = 0 → Nat.toDigits base n = ['0'])
    ∧ Nat.toDigits base n ≠ [] := by
  induction n using Nat.strong_induction_on with
  | _ n ih =>
    have hmod : n % base < 16 := by
      have := Nat.mod_lt n (show 0 < base by omega)
      omega
    rw [toDigits_step base hbase n]
    by_cases hq : n / base = 0
    · have hn : n % base = n := by
        have := Nat.div_add_mod n base
        rw [hq] at this
        simpa using this
      have hn16 : n < 16 := by omega
      simp only [hq, if_true, hn]
      refine ⟨?_, ?_, ?_, ?_, ?_⟩
      · simp [digits_value, digit_value_digitChar n hn16]
      · intro c hc
        simp only [List.mem_singleton] at hc
        rw [hc]
        exact digitChar_mem n hn16
      · intro hne
        simp only [List.head?_cons, ne_eq, Option.some.injEq]
        exact digitChar_ne_zero n hn16 hne
      · intro h0
        subst h0
        rfl
      · simp
    · have hlt : n / base < n := by
        have hpos : 0 < n := by
          rcases Nat.eq_zero_or_pos n with h | h
          · subst h; simp at hq
          · exact h
        exact Nat.div_lt_self hpos (by omega)
      obtain ⟨hval, hmem, hhead, _, hne⟩ := ih (n / base) hlt
      simp only [hq, if_false]
      refine ⟨?_, ?_, ?_, ?_, ?_⟩
      · have : digits_value base (Nat.toDigits base (n / base) ++ [Nat.digitChar (n % base)])
            = digits_value base (Nat.toDigits base (n / base)) * base
              + digit_value (Nat.digitChar (n % base)) := by
          simp [digits_value, List.foldl_append]
        rw [this, hval, digit_value_digitChar _ hmod]
        have := Nat.div_add_mod n base
        rw [Nat.mul_comm] at this
        exact this
      · intro c hc
        rw [List.mem_append] at hc
        rcases hc with hc | hc
        · exact hmem c hc
        · simp only [List.mem_singleton] at hc
          rw [hc]
          exact digitChar_mem _ hmod
      · intro _
        have h := hhead hq
        cases hds : Nat.toDigits base (n / base) with
        | nil => exact absurd hds hne
        | cons d ds =>
          rw [hds] at h
          simpa using h
      · intro h0
        subst h0
        simp at hq
      · simp

/-- The unsupported column type error as `return_error` sets it. -/
theorem return_error_eq_iff (table_file_stream : Option FILE) (error : List liberror_error)
    (domain domain' : LIBERROR_ERROR_DOMAIN) (code code' : LIBERROR_ERROR_CODE)
    (message message' : error_message) :
    return_error table_file_stream error domain code message
      = return_error table_file_stream error domain' code' message'
      ↔ domain = domain' ∧ code = code' ∧ message = message' := by
  simp [return_error, liberror_error_set]

/-- The character written for a byte has the value of the byte. -/
theorem toNat_ofNat_byte (byte : uint8_t) : (Char.ofNat byte.val).toNat = byte.val := by
  have hvalid : Nat.isValidChar byte.val := Or.inl (by have := byte.isLt; omega)
  unfold Char.ofNat
  rw [dif_pos hvalid]
  rfl

theorem append_singleton_ne (l l' : List liberror_error) (a b : liberror_error) (h : a ≠ b) :
    l ++ [a] ≠ l' ++ [b] := by
  intro heq
  have := congrArg List.getLast? heq
  simp at this
  exact h this

theorem ite_ne_of {α : Type} {c : Prop} [Decidable c] {a b x : α} (ha : a ≠ x) (hb : b ≠ x) :
    (if c then a else b) ≠ x := by
  split <;> assumption

/-- The Folders classification block never yields Integer32. -/
theorem folders_known_column_type_ne_integer_32bit (column_name : List Char)
    (column_name_size : Nat) (column_type : LIBESEDB_COLUMN_TYPES) :
    exchange_export_record_folders_known_column_type column_name column_name_size column_type
      ≠ EXCHANGE_KNOWN_COLUMN_TYPE_INTEGER_32BIT := by
  unfold exchange_export_record_folders_known_column_type
  repeat' apply ite_ne_of
  all_goals exact fun h => EXCHANGE_KNOWN_COLUMN_TYPES.noConfusion h

/-- The Mailbox classification block never yields Integer32. -/
theorem mailbox_known_column_type_ne_integer_32bit (column_name : List Char)
    (column_name_size : Nat) (column_type : LIBESEDB_COLUMN_TYPES) :
    exchange_export_record_mailbox_known_column_type column_name column_name_size column_type
      ≠ EXCHANGE_KNOWN_COLUMN_TYPE_INTEGER_32BIT := by
  unfold exchange_export_record_mailbox_known_column_type
  repeat' apply ite_ne_of
  all_goals exact fun h => EXCHANGE_KNOWN_COLUMN_TYPES.noConfusion h

/-- The loop body on a binary data column classified GUID whose value has no
flag set and present data: 16 bytes are written as the GUID codec renders
them, when the codec succeeds; any other size fails with the value data size
error, whatever the codec does. -/
theorem exchange_export_record_value_guid_column
    (known_column_type : List Char → Nat → LIBESEDB_COLUMN_TYPES → EXCHANGE_KNOWN_COLUMN_TYPES)
    (env : Collaborators) (record : libesedb_record_t) (value_iterator : Int)
    (column_name_size : Nat) (column_name : List Char) (value : libesedb_value)
    (value_data : List uint8_t) (guid_string : List Char)
    (written : FILE) (error : List liberror_error)
    (hsize : record.get_utf8_column_name_size value_iterator = some column_name_size)
    (hfit : column_name_size ≤ 256)
    (hname : record.get_utf8_column_name value_iterator column_name_size = some column_name)
    (htype : record.get_column_type value_iterator = some LIBESEDB_COLUMN_TYPE_BINARY_DATA)
    (hknown : known_column_type column_name column_name_size LIBESEDB_COLUMN_TYPE_BINARY_DATA
      = EXCHANGE_KNOWN_COLUMN_TYPE_GUID)
    (hvalue : record.get_value value_iterator = some value)
    (hflags : value.value_flags = 0)
    (hdata : value.value_data = some value_data) :
    (value.value_data_size = 16 →
      env.libfguid_identifier_initialize_result = true →
      env.libfguid_identifier_copy_from_byte_stream value_data 16
        BYTE_STREAM_ENDIAN_LITTLE = true →
      env.libfguid_identifier_copy_to_utf8_string value_data BYTE_STREAM_ENDIAN_LITTLE
        = some guid_string →
      env.libfguid_identifier_free = true →
      exchange_export_record_value known_column_type env record value_iterator (some written)
          error
        = Outcome.mk 1 (some (written ++ guid_string)) error)
    ∧ (value.value_data_size ≠ 16 →
      exchange_export_record_value known_column_type env record value_iterator (some written)
          error
        = Outcome.mk (-1) (some written)
            (error ++ [liberror_error.mk LIBERROR_ERROR_DOMAIN_ARGUMENTS
                LIBERROR_ARGUMENT_ERROR_UNSUPPORTED_VALUE
                error_message.unsupported_value_data_size,
              liberror_error.mk LIBERROR_ERROR_DOMAIN_RUNTIME
                LIBERROR_RUNTIME_ERROR_GENERIC error_message.unable_to_export_record_value])) := by
  have hbig : ¬ column_name_size > 256 := by omega
  have hz : and_not value.value_flags env.LIBESEDB_VALUE_FLAG_VARIABLE_SIZE = 0 := by
    rw [hflags]; exact and_not_zero _
  constructor
  · intro h16 hinit hcopy hstring hfree
    have hcopy' : env.libfguid_identifier_copy_from_byte_stream value_data
        value.value_data_size BYTE_STREAM_ENDIAN_LITTLE = true := by
      rw [h16]; exact hcopy
    simp [exchange_export_record_value, hsize, hbig, hname, htype, hknown,
      exchange_export_record_dispatch, exchange_export_record_value_guid, hvalue, hz, hdata,
      h16, hinit, hcopy, hcopy', hstring, hfree, fprintf_some]
  · intro hne
    simp [exchange_export_record_value, hsize, hbig, hname, htype, hknown,
      exchange_export_record_dispatch, exchange_export_record_value_guid, hvalue, hz, hdata,
      hne, return_error, liberror_error_set]

/-- The GUID scenario for any classification block that classifies the column
GUID. -/
theorem guid_scenario
    (known_column_type : List Char → Nat → LIBESEDB_COLUMN_TYPES → EXCHANGE_KNOWN_COLUMN_TYPES)
    (env : Collaborators) (record : libesedb_record_t) (N k : Nat) (name : List Char)
    (value : libesedb_value) (written : FILE) (error : List liberror_error)
    (hknown : known_column_type (utf8_column_name name) (utf8_column_name_size name)
      LIBESEDB_COLUMN_TYPE_BINARY_DATA = EXCHANGE_KNOWN_COLUMN_TYPE_GUID)
    (hfit : utf8_column_name_size name ≤ 256)
    (hsize : record.get_utf8_column_name_size (k : Int) = some (utf8_column_name_size name))
    (hname : record.get_utf8_column_name (k : Int) (utf8_column_name_size name)
      = some (utf8_column_name name))
    (htype : record.get_column_type (k : Int) = some LIBESEDB_COLUMN_TYPE_BINARY_DATA)
    (hvalue : record.get_value (k : Int) = some value)
    (hflags : value.value_flags = 0) :
    (value.value_data = some (List.replicate 16 0) → value.value_data_size = 16 →
      env.libfguid_identifier_initialize_result = true →
      env.libfguid_identifier_copy_from_byte_stream (List.replicate 16 0) 16
        BYTE_STREAM_ENDIAN_LITTLE = true →
      env.libfguid_identifier_copy_to_utf8_string (List.replicate 16 0)
          BYTE_STREAM_ENDIAN_LITTLE
        = some (libfguid_identifier_canonical_string (List.replicate 16 0)
            BYTE_STREAM_ENDIAN_LITTLE) →
      env.libfguid_identifier_free = true →
      exchange_export_record_value known_column_type env record (k : Int) (some written) error
        = Outcome.mk 1 (some (written ++ "00000000-0000-0000-0000-000000000000".toList)) error)
    ∧ (∀ value_data : List uint8_t, value.value_data = some value_data →
      value.value_data_size = 15 →
      exchange_export_record_value known_column_type env record (k : Int) (some written) error
        = Outcome.mk (-1) (some written)
            (error ++ [liberror_error.mk LIBERROR_ERROR_DOMAIN_ARGUMENTS
                LIBERROR_ARGUMENT_ERROR_UNSUPPORTED_VALUE
                error_message.unsupported_value_data_size,
              liberror_error.mk LIBERROR_ERROR_DOMAIN_RUNTIME
                LIBERROR_RUNTIME_ERROR_GENERIC error_message.unable_to_export_record_value])
      ∧ (record.get_number_of_values = some (N : Int) → k < N →
          (∀ i : Nat, i < k → exports_successfully known_column_type env record (i : Int)) →
          (exchange_export_record known_column_type env (some record) (some written)
            error).result = -1
          ∧ (exchange_export_record known_column_type env (some record) (some written)
              error).error
            = error ++ [liberror_error.mk LIBERROR_ERROR_DOMAIN_ARGUMENTS
                LIBERROR_ARGUMENT_ERROR_UNSUPPORTED_VALUE
                error_message.unsupported_value_data_size,
              liberror_error.mk LIBERROR_ERROR_DOMAIN_RUNTIME
                LIBERROR_RUNTIME_ERROR_GENERIC error_message.unable_to_export_record_value])) := by
  constructor
  · intro hdata h16 hinit hcopy hstring hfree
    rw [(exchange_export_record_value_guid_column known_column_type env record (k : Int)
      (utf8_column_name_size name) (utf8_column_name name) value (List.replicate 16 0)
      (libfguid_identifier_canonical_string (List.replicate 16 0) BYTE_STREAM_ENDIAN_LITTLE)
      written error hsize hfit hname htype hknown hvalue hflags hdata).1 h16 hinit hcopy hstring
      hfree]
    rfl
  · intro value_data hdata h15
    have hne : value.value_data_size ≠ 16 := by omega
    have hcolumn := fun written error =>
      (exchange_export_record_value_guid_column known_column_type env record (k : Int)
        (utf8_column_name_size name) (utf8_column_name name) value value_data []
        written error hsize hfit hname htype hknown hvalue hflags hdata).2 hne
    refine ⟨hcolumn written error, ?_⟩
    intro hcount hk hbefore
    have hempty := hcolumn [] []
    have hfail : ¬ exports_successfully known_column_type env record (k : Int) := by
      unfold exports_successfully returned
      rw [hempty]
      decide
    rw [exchange_export_record_failure known_column_type env record N k hcount hk hbefore hfail
      written error, hempty]
    simp

/-- The little-endian copy of 8 bytes is the sum of the bytes weighted by powers
of 256, least significant byte first. -/
theorem byte_stream_copy_to_uint64_little_endian_eq (b0 b1 b2 b3 b4 b5 b6 b7 : uint8_t) :
    byte_stream_copy_to_uint64_little_endian [b0, b1, b2, b3, b4, b5, b6, b7]
      = b0.val + b1.val * 256 + b2.val * 256 ^ 2 + b3.val * 256 ^ 3 + b4.val * 256 ^ 4
        + b5.val * 256 ^ 5 + b6.val * 256 ^ 6 + b7.val * 256 ^ 7 := by
  simp [byte_stream_copy_to_uint64_little_endian, List.range, List.range.loop]
  omega

/-- The big-endian copy of 8 bytes is the sum of the bytes weighted by powers of
256, most significant byte first. -/
theorem byte_stream_copy_to_uint64_big_endian_eq (b0 b1 b2 b3 b4 b5 b6 b7 : uint8_t) :
    byte_stream_copy_to_uint64_big_endian [b0, b1, b2, b3, b4, b5, b6, b7]
      = b0.val * 256 ^ 7 + b1.val * 256 ^ 6 + b2.val * 256 ^ 5 + b3.val * 256 ^ 4
        + b4.val * 256 ^ 3 + b5.val * 256 ^ 2 + b6.val * 256 + b7.val := by
  simp [byte_stream_copy_to_uint64_big_endian, List.range, List.range.loop]
  omega

/-- A number made of 8 bytes fits 64 bits. -/
theorem uint64_of_bytes_lt (b0 b1 b2 b3 b4 b5 b6 b7 : uint8_t) :
    b0.val + b1.val * 256 + b2.val * 256 ^ 2 + b3.val * 256 ^ 3 + b4.val * 256 ^ 4
        + b5.val * 256 ^ 5 + b6.val * 256 ^ 6 + b7.val * 256 ^ 7 < 2 ^ 64 := by
  have h0 := b0.isLt
  have h1 := b1.isLt
  have h2 := b2.isLt
  have h3 := b3.isLt
  have h4 := b4.isLt
  have h5 := b5.isLt
  have h6 := b6.isLt
  have h7 := b7.isLt
  norm_num
  omega

/-- The 64-bit exporter on 8 present bytes with no flag set, in a column of an
accepted type. -/
theorem exchange_export_record_value_64bit_number (env : Collaborators)
    (record : libesedb_record_t) (record_value_entry : Int) (written : FILE)
    (error : List liberror_error) (column_type : LIBESEDB_COLUMN_TYPES) (value : libesedb_value)
    (b0 b1 b2 b3 b4 b5 b6 b7 : uint8_t)
    (htype : record.get_column_type record_value_entry = some column_type)
    (haccepted : column_type = LIBESEDB_COLUMN_TYPE_BINARY_DATA
      ∨ column_type = LIBESEDB_COLUMN_TYPE_CURRENCY)
    (hvalue : record.get_value record_value_entry = some value)
    (hflags : value.value_flags = 0)
    (hdata : value.value_data = some [b0, b1, b2, b3, b4, b5, b6, b7])
    (hsize : value.value_data_size = 8) :
    exchange_export_record_value_64bit env (some record) record_value_entry
        BYTE_STREAM_ENDIAN_LITTLE (some written) error
      = Outcome.mk 1
          (some (written ++ "0x".toList ++ Nat.toDigits 16
            (b0.val + b1.val * 256 + b2.val * 256 ^ 2 + b3.val * 256 ^ 3 + b4.val * 256 ^ 4
              + b5.val * 256 ^ 5 + b6.val * 256 ^ 6 + b7.val * 256 ^ 7)))
          error
    ∧ exchange_export_record_value_64bit env (some record) record_value_entry
        BYTE_STREAM_ENDIAN_BIG (some written) error
      = Outcome.mk 1
          (some (written ++ "0x".toList ++ Nat.toDigits 16
            (b0.val * 256 ^ 7 + b1.val * 256 ^ 6 + b2.val * 256 ^ 5 + b3.val * 256 ^ 4
              + b4.val * 256 ^ 3 + b5.val * 256 ^ 2 + b6.val * 256 + b7.val)))
          error := by
  have hz : and_not value.value_flags env.LIBESEDB_VALUE_FLAG_VARIABLE_SIZE = 0 := by
    rw [hflags]; exact and_not_zero _
  have hx : "0x".toList = ['0', 'x'] := rfl
  have hle := byte_stream_copy_to_uint64_little_endian_eq b0 b1 b2 b3 b4 b5 b6 b7
  have hbe := byte_stream_copy_to_uint64_big_endian_eq b0 b1 b2 b3 b4 b5 b6 b7
  have hlt := uint64_of_bytes_lt b0 b1 b2 b3 b4 b5 b6 b7
  have hrev := uint64_of_bytes_lt b7 b6 b5 b4 b3 b2 b1 b0
  have hbe_lt : b0.val * 256 ^ 7 + b1.val * 256 ^ 6 + b2.val * 256 ^ 5 + b3.val * 256 ^ 4
      + b4.val * 256 ^ 3 + b5.val * 256 ^ 2 + b6.val * 256 + b7.val < 2 ^ 64 := by
    have e : b0.val * 256 ^ 7 + b1.val * 256 ^ 6 + b2.val * 256 ^ 5 + b3.val * 256 ^ 4
        + b4.val * 256 ^ 3 + b5.val * 256 ^ 2 + b6.val * 256 + b7.val
        = b7.val + b6.val * 256 + b5.val * 256 ^ 2 + b4.val * 256 ^ 3 + b3.val * 256 ^ 4
          + b2.val * 256 ^ 5 + b1.val * 256 ^ 6 + b0.val * 256 ^ 7 := by ring
    rw [e]; exact hrev
  have hfle : format_0x_PRIx64
      (byte_stream_copy_to_uint64_little_endian [b0, b1, b2, b3, b4, b5, b6, b7])
      = "0x".toList ++ Nat.toDigits 16
        (b0.val + b1.val * 256 + b2.val * 256 ^ 2 + b3.val * 256 ^ 3 + b4.val * 256 ^ 4
          + b5.val * 256 ^ 5 + b6.val * 256 ^ 6 + b7.val * 256 ^ 7) := by
    unfold format_0x_PRIx64
    rw [hle, Nat.mod_eq_of_lt hlt, hx]
  have hfbe : format_0x_PRIx64
      (byte_stream_copy_to_uint64_big_endian [b0, b1, b2, b3, b4, b5, b6, b7])
      = "0x".toList ++ Nat.toDigits 16
        (b0.val * 256 ^ 7 + b1.val * 256 ^ 6 + b2.val * 256 ^ 5 + b3.val * 256 ^ 4
          + b4.val * 256 ^ 3 + b5.val * 256 ^ 2 + b6.val * 256 + b7.val) := by
    unfold format_0x_PRIx64
    rw [hbe, Nat.mod_eq_of_lt hbe_lt, hx]
  constructor
  · rcases haccepted with rfl | rfl <;>
      simp only [exchange_export_record_value_64bit, htype, hvalue, hz, hdata, hsize,
        fprintf_some] <;> simp [hfle, hx]
  · rcases haccepted with rfl | rfl <;>
      simp only [exchange_export_record_value_64bit, htype, hvalue, hz, hdata, hsize,
        fprintf_some] <;> simp [hfbe, hx]

/-! ## The claims C11 to C20 -/

/-- C11: a column type other than currency, binary data and large binary data
is classified Undefined by both schemas, whatever the name and the name size;
and a position whose lookups succeed and whose kind is Undefined (under the
classification block of either schema, `known_column_type`) is exported by the
generic exporter alone: the loop body returns 1 exactly when the generic
exporter does, and the field text is exactly the text the generic exporter
writes, whatever the value is. -/
theorem C11_undefined_uses_generic_exporter (env : Collaborators) (record : libesedb_record_t)
    (value_iterator : Int) (column_name_size : Nat) (column_name : List Char)
    (column_type : LIBESEDB_COLUMN_TYPES) (written : FILE) (error : List liberror_error) :
    (column_type ≠ LIBESEDB_COLUMN_TYPE_CURRENCY →
      column_type ≠ LIBESEDB_COLUMN_TYPE_BINARY_DATA →
      column_type ≠ LIBESEDB_COLUMN_TYPE_LARGE_BINARY_DATA →
      exchange_export_record_folders_known_column_type column_name column_name_size column_type
        = EXCHANGE_KNOWN_COLUMN_TYPE_UNDEFINED
      ∧ exchange_export_record_mailbox_known_column_type column_name column_name_size column_type
        = EXCHANGE_KNOWN_COLUMN_TYPE_UNDEFINED)
    ∧ (∀ known_column_type : List Char → Nat → LIBESEDB_COLUMN_TYPES →
          EXCHANGE_KNOWN_COLUMN_TYPES,
        record.get_utf8_column_name_size value_iterator = some column_name_size →
        column_name_size ≤ 256 →
        record.get_utf8_column_name value_iterator column_name_size = some column_name →
        record.get_column_type value_iterator = some column_type →
        known_column_type column_name column_name_size column_type
          = EXCHANGE_KNOWN_COLUMN_TYPE_UNDEFINED →
        exchange_export_record_value known_column_type env record value_iterator
            (some written) error
          = (if (env.export_handle_export_record_value record value_iterator).1 = 1 then
              Outcome.mk 1
                (some (written ++ (env.export_handle_export_record_value record value_iterator).2))
                error
            else
              Outcome.mk (-1)
                (some (written ++ (env.export_handle_export_record_value record value_iterator).2))
                (error ++ [liberror_error.mk LIBERROR_ERROR_DOMAIN_RUNTIME
                  LIBERROR_RUNTIME_ERROR_GENERIC error_message.unable_to_export_record_value]))
        ∧ field_text known_column_type env record value_iterator
          = (env.export_handle_export_record_value record value_iterator).2) := by
  constructor
  · intro h1 h2 h3
    simp [exchange_export_record_folders_known_column_type,
      exchange_export_record_mailbox_known_column_type, h1, h2, h3]
  · intro known_column_type hsize hfit hname htype hkind
    have hbig : ¬ column_name_size > 256 := by omega
    constructor
    · by_cases hres : (env.export_handle_export_record_value record value_iterator).1 = 1
      · simp [exchange_export_record_value, hsize, hname, htype, hbig, hkind,
          exchange_export_record_dispatch, hres, fprintf_some]
      · simp [exchange_export_record_value, hsize, hname, htype, hbig, hkind,
          exchange_export_record_dispatch, hres, fprintf_some, return_error,
          liberror_error_set]
    · unfold field_text appended_text
      by_cases hres : (env.export_handle_export_record_value record value_iterator).1 = 1
      · simp [exchange_export_record_value, hsize, hname, htype, hbig, hkind,
          exchange_export_record_dispatch, hres, fprintf_some]
      · simp [exchange_export_record_value, hsize, hname, htype, hbig, hkind,
          exchange_export_record_dispatch, hres, fprintf_some, return_error]

/-- C11, at a concrete input: a column of another type is Undefined and its
field text is what the generic exporter writes. -/
theorem C11_undefined_uses_generic_exporter_witness :
    exchange_export_record_folders_known_column_type (utf8_column_name "Tx".toList)
        (utf8_column_name_size "Tx".toList) (LIBESEDB_COLUMN_TYPE_OTHER 4)
      = EXCHANGE_KNOWN_COLUMN_TYPE_UNDEFINED
    ∧ field_text exchange_export_record_folders_known_column_type example_collaborators
        (uniform_record 1 "Tx".toList (LIBESEDB_COLUMN_TYPE_OTHER 4)
          (libesedb_value.mk (some [1, 0, 0, 0]) 4 0)) 0
      = "<generic>".toList :=
  ⟨((C11_undefined_uses_generic_exporter example_collaborators
      (uniform_record 1 "Tx".toList (LIBESEDB_COLUMN_TYPE_OTHER 4)
        (libesedb_value.mk (some [1, 0, 0, 0]) 4 0))
      0 (utf8_column_name_size "Tx".toList) (utf8_column_name "Tx".toList)
      (LIBESEDB_COLUMN_TYPE_OTHER 4) [] []).1
      (by decide) (by decide) (by decide)).1,
   ((C11_undefined_uses_generic_exporter example_collaborators
      (uniform_record 1 "Tx".toList (LIBESEDB_COLUMN_TYPE_OTHER 4)
        (libesedb_value.mk (some [1, 0, 0, 0]) 4 0))
      0 (utf8_column_name_size "Tx".toList) (utf8_column_name "Tx".toList)
      (LIBESEDB_COLUMN_TYPE_OTHER 4) [] []).2
      exchange_export_record_folders_known_column_type rfl (by decide) rfl rfl (by decide)).2⟩

/-- C12: on a record, an open stream and a supported byte order, with the
column type lookup answering `column_type`, each exporter returns -1 with the
unsupported column type error and the stream untouched exactly when
`column_type` is outside its accepted set: binary data for the 32-bit, GUID
and SID exporters, binary data or currency for the 64-bit and FileTime
exporters, binary data or large binary data for the string exporter.  The
value of the entry plays no part (the statement holds for every record with
that column type, also when the value lookup fails or the data is NULL). -/
theorem C12_unsupported_column_type (env : Collaborators) (record : libesedb_record_t)
    (record_value_entry : Int) (byte_order : BYTE_STREAM_ENDIAN) (written : FILE)
    (error : List liberror_error) (column_type : LIBESEDB_COLUMN_TYPES)
    (horder : byte_order = BYTE_STREAM_ENDIAN_BIG ∨ byte_order = BYTE_STREAM_ENDIAN_LITTLE)
    (htype : record.get_column_type record_value_entry = some column_type) :
    (exchange_export_record_value_32bit env (some record) record_value_entry byte_order
        (some written) error
      = return_error (some written) error LIBERROR_ERROR_DOMAIN_ARGUMENTS
          LIBERROR_ARGUMENT_ERROR_UNSUPPORTED_VALUE error_message.unsupported_column_type
      ↔ column_type ≠ LIBESEDB_COLUMN_TYPE_BINARY_DATA)
    ∧ (exchange_export_record_value_64bit env (some record) record_value_entry byte_order
        (some written) error
      = return_error (some written) error LIBERROR_ERROR_DOMAIN_ARGUMENTS
          LIBERROR_ARGUMENT_ERROR_UNSUPPORTED_VALUE error_message.unsupported_column_type
      ↔ (column_type ≠ LIBESEDB_COLUMN_TYPE_BINARY_DATA
        ∧ column_type ≠ LIBESEDB_COLUMN_TYPE_CURRENCY))
    ∧ (exchange_export_record_value_filetime env (some record) record_value_entry byte_order
        (some written) error
      = return_error (some written) error LIBERROR_ERROR_DOMAIN_ARGUMENTS
          LIBERROR_ARGUMENT_ERROR_UNSUPPORTED_VALUE error_message.unsupported_column_type
      ↔ (column_type ≠ LIBESEDB_COLUMN_TYPE_BINARY_DATA
        ∧ column_type ≠ LIBESEDB_COLUMN_TYPE_CURRENCY))
    ∧ (exchange_export_record_value_guid env (some record) record_value_entry byte_order
        (some written) error
      = return_error (some written) error LIBERROR_ERROR_DOMAIN_ARGUMENTS
          LIBERROR_ARGUMENT_ERROR_UNSUPPORTED_VALUE error_message.unsupported_column_type
      ↔ column_type ≠ LIBESEDB_COLUMN_TYPE_BINARY_DATA)
    ∧ (exchange_export_record_value_sid env (some record) record_value_entry
        (some written) error
      = return_error (some written) error LIBERROR_ERROR_DOMAIN_ARGUMENTS
          LIBERROR_ARGUMENT_ERROR_UNSUPPORTED_VALUE error_message.unsupported_column_type
      ↔ column_type ≠ LIBESEDB_COLUMN_TYPE_BINARY_DATA)
    ∧ (exchange_export_record_value_string (some record) record_value_entry
        (some written) error
      = return_error (some written) error LIBERROR_ERROR_DOMAIN_ARGUMENTS
          LIBERROR_ARGUMENT_ERROR_UNSUPPORTED_VALUE error_message.unsupported_column_type
      ↔ (column_type ≠ LIBESEDB_COLUMN_TYPE_BINARY_DATA
        ∧ column_type ≠ LIBESEDB_COLUMN_TYPE_LARGE_BINARY_DATA)) := by
  have hbo : ¬ (byte_order ≠ BYTE_STREAM_ENDIAN_BIG ∧ byte_order ≠ BYTE_STREAM_ENDIAN_LITTLE) := by
    rcases horder with rfl | rfl <;> simp
  refine ⟨?_, ?_, ?_, ?_, ?_, ?_⟩
  · by_cases hct : column_type = LIBESEDB_COLUMN_TYPE_BINARY_DATA
    · simp only [exchange_export_record_value_32bit, htype, hbo, hct, if_false, ne_eq,
        not_true_eq_false, reduceCtorEq]
      repeat' split
      all_goals simp_all [return_error, liberror_error_set]
    · simp [exchange_export_record_value_32bit, htype, hbo, hct]
  · by_cases hct : column_type ≠ LIBESEDB_COLUMN_TYPE_BINARY_DATA
        ∧ column_type ≠ LIBESEDB_COLUMN_TYPE_CURRENCY
    · simp [exchange_export_record_value_64bit, htype, hbo, hct]
    · simp only [exchange_export_record_value_64bit, htype, hbo, hct, if_false, ne_eq,
        reduceCtorEq]
      repeat' split
      all_goals simp_all [return_error, liberror_error_set]
  · by_cases hct : column_type ≠ LIBESEDB_COLUMN_TYPE_BINARY_DATA
        ∧ column_type ≠ LIBESEDB_COLUMN_TYPE_CURRENCY
    · simp [exchange_export_record_value_filetime, htype, hct]
    · simp only [exchange_export_record_value_filetime, htype, hct, if_false, ne_eq,
        reduceCtorEq]
      repeat' split
      all_goals simp_all [return_error, liberror_error_set]
  · by_cases hct : column_type = LIBESEDB_COLUMN_TYPE_BINARY_DATA
    · simp only [exchange_export_record_value_guid, htype, hct, if_false, ne_eq,
        not_true_eq_false, reduceCtorEq]
      repeat' split
      all_goals simp_all [return_error, liberror_error_set]
    · simp [exchange_export_record_value_guid, htype, hct]
  · by_cases hct : column_type = LIBESEDB_COLUMN_TYPE_BINARY_DATA
    · simp only [exchange_export_record_value_sid, htype, hct, if_false, ne_eq,
        not_true_eq_false, reduceCtorEq]
      repeat' split
      all_goals simp_all [return_error, liberror_error_set]
    · simp [exchange_export_record_value_sid, htype, hct]
  · by_cases hct : column_type ≠ LIBESEDB_COLUMN_TYPE_BINARY_DATA
        ∧ column_type ≠ LIBESEDB_COLUMN_TYPE_LARGE_BINARY_DATA
    · simp [exchange_export_record_value_string, htype, hct]
    · simp only [exchange_export_record_value_string, htype, hct, if_false, ne_eq,
        reduceCtorEq]
      repeat' split
      all_goals simp_all [return_error, liberror_error_set]

/-- C12, at a concrete input: the GUID exporter rejects a currency column. -/
theorem C12_unsupported_column_type_witness :
    exchange_export_record_value_guid example_collaborators
        (some (uniform_record 1 "N3880".toList LIBESEDB_COLUMN_TYPE_CURRENCY
          (libesedb_value.mk none 0 0)))
        0 BYTE_STREAM_ENDIAN_LITTLE (some []) []
      = return_error (some []) [] LIBERROR_ERROR_DOMAIN_ARGUMENTS
          LIBERROR_ARGUMENT_ERROR_UNSUPPORTED_VALUE error_message.unsupported_column_type :=
  (C12_unsupported_column_type example_collaborators
    (uniform_record 1 "N3880".toList LIBESEDB_COLUMN_TYPE_CURRENCY (libesedb_value.mk none 0 0))
    0 BYTE_STREAM_ENDIAN_LITTLE [] [] LIBESEDB_COLUMN_TYPE_CURRENCY (Or.inr rfl) rfl).2.2.2.1.mpr
    (by decide)

/-- C13: when the positions 0..k-1 of a record export successfully and
position k fails in a metadata lookup (name size, name or column type), on a
name size above 256, or in the typed exporter dispatched for a kind other
than Undefined, both record exporters return -1 and the stream holds exactly
text_0 TAB ... text_(k-1) TAB after what it held before: the earlier fields
stay, nothing is written for position k.  No later position is looked at: a
record that answers alike at the positions 0..k gives the same outcome. -/
theorem C13_failure_aborts_record (env : Collaborators) (record : libesedb_record_t)
    (N k : Nat) (hcount : record.get_number_of_values = some (N : Int)) (hk : k < N)
    (written : FILE) (error : List liberror_error) :
    ((∀ i : Nat, i < k → exports_successfully
        exchange_export_record_folders_known_column_type env record (i : Int)) →
      fails_in_lookup_or_typed_exporter exchange_export_record_folders_known_column_type env
        record (k : Int) →
      (exchange_export_record_folders env (some record) (some written) error).result = -1
      ∧ (exchange_export_record_folders env (some record) (some written)
          error).table_file_stream
        = some (written ++ ((List.range k).map (fun i : Nat =>
            field_text exchange_export_record_folders_known_column_type env record (i : Int)
              ++ ['\t'])).flatten)
      ∧ ∀ record' : libesedb_record_t,
          record'.get_number_of_values = some (N : Int) →
          (∀ i : Nat, i ≤ k → same_entry env record record' (i : Int)) →
          exchange_export_record_folders env (some record') (some written) error
            = exchange_export_record_folders env (some record) (some written) error)
    ∧ ((∀ i : Nat, i < k → exports_successfully
        exchange_export_record_mailbox_known_column_type env record (i : Int)) →
      fails_in_lookup_or_typed_exporter exchange_export_record_mailbox_known_column_type env
        record (k : Int) →
      (exchange_export_record_mailbox env (some record) (some written) error).result = -1
      ∧ (exchange_export_record_mailbox env (some record) (some written)
          error).table_file_stream
        = some (written ++ ((List.range k).map (fun i : Nat =>
            field_text exchange_export_record_mailbox_known_column_type env record (i : Int)
              ++ ['\t'])).flatten)
      ∧ ∀ record' : libesedb_record_t,
          record'.get_number_of_values = some (N : Int) →
          (∀ i : Nat, i ≤ k → same_entry env record record' (i : Int)) →
          exchange_export_record_mailbox env (some record') (some written) error
            = exchange_export_record_mailbox env (some record) (some written) error) :=
  ⟨fun hbefore hfail => exchange_export_record_aborts _ env record N k hcount hk hbefore hfail
      written error,
   fun hbefore hfail => exchange_export_record_aborts _ env record N k hcount hk hbefore hfail
      written error⟩

/-- C13, at a concrete input: in a record of three columns whose second
column is a GUID column holding 15 bytes, the Folders exporter returns -1
after writing the first field and its tab. -/
theorem C13_failure_aborts_record_witness :
    (exchange_export_record_folders example_collaborators
        (some (record_of_columns
          [("Qx".toList, LIBESEDB_COLUMN_TYPE_BINARY_DATA,
              libesedb_value.mk (some [1, 0, 0, 0, 0, 0, 0, 0]) 8 0),
           ("N3880".toList, LIBESEDB_COLUMN_TYPE_BINARY_DATA,
              libesedb_value.mk (some [0, 0, 0, 0, 0, 0, 0, 0, 0, 0, 0, 0, 0, 0, 0]) 15 0),
           ("Qx".toList, LIBESEDB_COLUMN_TYPE_BINARY_DATA,
              libesedb_value.mk (some [1, 0, 0, 0, 0, 0, 0, 0]) 8 0)]))
        (some []) []).result = -1
    ∧ (exchange_export_record_folders example_collaborators
        (some (record_of_columns
          [("Qx".toList, LIBESEDB_COLUMN_TYPE_BINARY_DATA,
              libesedb_value.mk (some [1, 0, 0, 0, 0, 0, 0, 0]) 8 0),
           ("N3880".toList, LIBESEDB_COLUMN_TYPE_BINARY_DATA,
              libesedb_value.mk (some [0, 0, 0, 0, 0, 0, 0, 0, 0, 0, 0, 0, 0, 0, 0]) 15 0),
           ("Qx".toList, LIBESEDB_COLUMN_TYPE_BINARY_DATA,
              libesedb_value.mk (some [1, 0, 0, 0, 0, 0, 0, 0]) 8 0)]))
        (some []) []).table_file_stream = some "0x1\t".toList := by
  have h := (C13_failure_aborts_record example_collaborators
    (record_of_columns
      [("Qx".toList, LIBESEDB_COLUMN_TYPE_BINARY_DATA,
          libesedb_value.mk (some [1, 0, 0, 0, 0, 0, 0, 0]) 8 0),
       ("N3880".toList, LIBESEDB_COLUMN_TYPE_BINARY_DATA,
          libesedb_value.mk (some [0, 0, 0, 0, 0, 0, 0, 0, 0, 0, 0, 0, 0, 0, 0]) 15 0),
       ("Qx".toList, LIBESEDB_COLUMN_TYPE_BINARY_DATA,
          libesedb_value.mk (some [1, 0, 0, 0, 0, 0, 0, 0]) 8 0)])
    3 1 rfl (by decide) [] []).1
    (fun i hi => by
      have hi0 : i = 0 := by omega
      subst hi0
      decide)
    (Or.inr ⟨utf8_column_name_size "N3880".toList, rfl, Or.inr (Or.inr
      ⟨utf8_column_name "N3880".toList, rfl, Or.inr
        ⟨LIBESEDB_COLUMN_TYPE_BINARY_DATA, rfl, by decide, by decide⟩⟩)⟩)
  exact ⟨h.1, h.2.1⟩

/-- C14: for a value with no flag set and 8 present bytes b0..b7 in a binary
data or currency column, the 64-bit exporter returns 1 and appends "0x"
followed by the hexadecimal digits of b0 + b1*256 + ... + b7*256^7 in
little-endian byte order and of b0*256^7 + ... + b7 in big-endian byte order;
the digits are lowercase, denote that number and have no leading zero ("0" for
zero); a position that either record exporter classifies Integer64 is exported
in little-endian byte order. -/
theorem C14_integer_64bit_hexadecimal (env : Collaborators) (record : libesedb_record_t)
    (record_value_entry : Int) (written : FILE) (error : List liberror_error)
    (column_type : LIBESEDB_COLUMN_TYPES) (value : libesedb_value)
    (b0 b1 b2 b3 b4 b5 b6 b7 : uint8_t)
    (htype : record.get_column_type record_value_entry = some column_type)
    (haccepted : column_type = LIBESEDB_COLUMN_TYPE_BINARY_DATA
      ∨ column_type = LIBESEDB_COLUMN_TYPE_CURRENCY)
    (hvalue : record.get_value record_value_entry = some value)
    (hflags : value.value_flags = 0)
    (hdata : value.value_data = some [b0, b1, b2, b3, b4, b5, b6, b7])
    (hsize : value.value_data_size = 8) :
    exchange_export_record_value_64bit env (some record) record_value_entry
        BYTE_STREAM_ENDIAN_LITTLE (some written) error
      = Outcome.mk 1
          (some (written ++ "0x".toList ++ Nat.toDigits 16
            (b0.val + b1.val * 256 + b2.val * 256 ^ 2 + b3.val * 256 ^ 3 + b4.val * 256 ^ 4
              + b5.val * 256 ^ 5 + b6.val * 256 ^ 6 + b7.val * 256 ^ 7)))
          error
    ∧ exchange_export_record_value_64bit env (some record) record_value_entry
        BYTE_STREAM_ENDIAN_BIG (some written) error
      = Outcome.mk 1
          (some (written ++ "0x".toList ++ Nat.toDigits 16
            (b0.val * 256 ^ 7 + b1.val * 256 ^ 6 + b2.val * 256 ^ 5 + b3.val * 256 ^ 4
              + b4.val * 256 ^ 3 + b5.val * 256 ^ 2 + b6.val * 256 + b7.val)))
          error
    ∧ (∀ n : Nat, digits_value 16 (Nat.toDigits 16 n) = n
        ∧ (∀ c ∈ Nat.toDigits 16 n, c ∈ "0123456789abcdef".toList)
        ∧ (n ≠ 0 → (Nat.toDigits 16 n).head? ≠ some '0')
        ∧ (n = 0 → Nat.toDigits 16 n = "0".toList))
    ∧ (∀ (known_column_type : List Char → Nat → LIBESEDB_COLUMN_TYPES →
          EXCHANGE_KNOWN_COLUMN_TYPES) (column_name_size : Nat) (column_name : List Char),
        record.get_utf8_column_name_size record_value_entry = some column_name_size →
        column_name_size ≤ 256 →
        record.get_utf8_column_name record_value_entry column_name_size = some column_name →
        known_column_type column_name column_name_size column_type
          = EXCHANGE_KNOWN_COLUMN_TYPE_INTEGER_64BIT →
        exchange_export_record_value known_column_type env record record_value_entry
            (some written) error
          = Outcome.mk 1
              (some (written ++ "0x".toList ++ Nat.toDigits 16
                (b0.val + b1.val * 256 + b2.val * 256 ^ 2 + b3.val * 256 ^ 3
                  + b4.val * 256 ^ 4 + b5.val * 256 ^ 5 + b6.val * 256 ^ 6
                  + b7.val * 256 ^ 7)))
              error) := by
  have hnumber := exchange_export_record_value_64bit_number env record record_value_entry
    written error column_type value b0 b1 b2 b3 b4 b5 b6 b7 htype haccepted hvalue hflags hdata
    hsize
  refine ⟨hnumber.1, hnumber.2, ?_, ?_⟩
  · intro n
    obtain ⟨h1, h2, h3, h4, _⟩ := toDigits_spec 16 (by decide) (by decide) n
    exact ⟨h1, h2, h3, h4⟩
  · intro known_column_type column_name_size column_name hnsize hfit hname hknown
    have hbig : ¬ column_name_size > 256 := by omega
    simp only [exchange_export_record_value, hnsize, hbig, hname, htype, hknown,
      exchange_export_record_dispatch, hnumber.1, if_false]
    simp

/-- C14, at a concrete input: the bytes 01 02 00 00 00 00 00 00 of a binary
data column are written as 0x201 in little-endian byte order. -/
theorem C14_integer_64bit_hexadecimal_witness :
    exchange_export_record_value_64bit example_collaborators
        (some (uniform_record 1 "Qx".toList LIBESEDB_COLUMN_TYPE_BINARY_DATA
          (libesedb_value.mk (some [1, 2, 0, 0, 0, 0, 0, 0]) 8 0)))
        0 BYTE_STREAM_ENDIAN_LITTLE (some []) []
      = Outcome.mk 1 (some "0x201".toList) [] :=
  (C14_integer_64bit_hexadecimal example_collaborators
    (uniform_record 1 "Qx".toList LIBESEDB_COLUMN_TYPE_BINARY_DATA
      (libesedb_value.mk (some [1, 2, 0, 0, 0, 0, 0, 0]) 8 0))
    0 [] [] LIBESEDB_COLUMN_TYPE_BINARY_DATA
    (libesedb_value.mk (some [1, 2, 0, 0, 0, 0, 0, 0]) 8 0) 1 2 0 0 0 0 0 0
    rfl (Or.inl rfl) rfl rfl rfl rfl).1

/-- C15: for a binary data or large binary data column whose raw bytes are
present (`value_data_size` bytes), the string exporter returns 1 and appends
exactly one character per byte, in the order of the bytes and with the value
of the byte (so tab, newline and zero bytes pass through as they are), as many
characters as the value has bytes, whatever the value flags. -/
theorem C15_string_is_raw_bytes (record : libesedb_record_t) (record_value_entry : Int)
    (written : FILE) (error : List liberror_error) (column_type : LIBESEDB_COLUMN_TYPES)
    (value : libesedb_value) (value_data : List uint8_t)
    (htype : record.get_column_type record_value_entry = some column_type)
    (haccepted : column_type = LIBESEDB_COLUMN_TYPE_BINARY_DATA
      ∨ column_type = LIBESEDB_COLUMN_TYPE_LARGE_BINARY_DATA)
    (hvalue : record.get_value record_value_entry = some value)
    (hdata : value.value_data = some value_data)
    (hsize : value.value_data_size = value_data.length) :
    exchange_export_record_value_string (some record) record_value_entry (some written) error
      = Outcome.mk 1 (some (written ++ value_data.map (fun byte => Char.ofNat byte.val))) error
    ∧ (value_data.map (fun byte => Char.ofNat byte.val)).length = value.value_data_size
    ∧ (value_data.map (fun byte => Char.ofNat byte.val)).map Char.toNat
      = value_data.map (fun byte => byte.val) := by
  refine ⟨?_, ?_, ?_⟩
  · have hloop : while_fprintf_c value.value_data_size value_data (some written)
        = some (written ++ value_data.map (fun byte => Char.ofNat byte.val)) := by
      rw [while_fprintf_c_some, hsize, List.take_length]
    rcases haccepted with rfl | rfl <;>
      simp [exchange_export_record_value_string, htype, hvalue, hdata, hloop]
  · simp [hsize]
  · simp [List.map_map, Function.comp, toNat_ofNat_byte]

/-- C15, at a concrete input: the bytes 09 41 0a of a large binary data column
are written as tab, 'A', newline. -/
theorem C15_string_is_raw_bytes_witness :
    exchange_export_record_value_string
        (some (uniform_record 1 "Sx".toList LIBESEDB_COLUMN_TYPE_LARGE_BINARY_DATA
          (libesedb_value.mk (some [9, 65, 10]) 3 2)))
        0 (some []) []
      = Outcome.mk 1 (some "\tA\n".toList) [] :=
  (C15_string_is_raw_bytes
    (uniform_record 1 "Sx".toList LIBESEDB_COLUMN_TYPE_LARGE_BINARY_DATA
      (libesedb_value.mk (some [9, 65, 10]) 3 2))
    0 [] [] LIBESEDB_COLUMN_TYPE_LARGE_BINARY_DATA (libesedb_value.mk (some [9, 65, 10]) 3 2)
    [9, 65, 10] rfl (Or.inr rfl) rfl rfl rfl).1

/-- C16 (fails as stated): with a byte order that is neither big endian nor
little endian (here the value 0x55) the 32-bit and the 64-bit exporter return
-1 on a NULL value in a binary data column: the byte order is checked before
the value is looked at. -/
theorem C16_null_value_other_byte_order_fails :
    exchange_export_record_value_32bit example_collaborators
        (some (uniform_record 1 "Lx".toList LIBESEDB_COLUMN_TYPE_BINARY_DATA
          (libesedb_value.mk none 0 0)))
        0 (BYTE_STREAM_ENDIAN_OTHER 0x55) (some []) []
      = Outcome.mk (-1) (some [])
          [liberror_error.mk LIBERROR_ERROR_DOMAIN_ARGUMENTS
            LIBERROR_ARGUMENT_ERROR_UNSUPPORTED_VALUE error_message.unsupported_byte_order]
    ∧ exchange_export_record_value_64bit example_collaborators
        (some (uniform_record 1 "Qx".toList LIBESEDB_COLUMN_TYPE_BINARY_DATA
          (libesedb_value.mk none 0 0)))
        0 (BYTE_STREAM_ENDIAN_OTHER 0x55) (some []) []
      = Outcome.mk (-1) (some [])
          [liberror_error.mk LIBERROR_ERROR_DOMAIN_ARGUMENTS
            LIBERROR_ARGUMENT_ERROR_UNSUPPORTED_VALUE error_message.unsupported_byte_order] := by
  decide

/-- C16 (amended): a value whose data pointer is NULL, in a column of an
accepted type, makes each of the six exporters return 1 without writing
anything and without setting an error, whatever the value flags and the value
data size are; for the 32-bit and the 64-bit exporter when the byte order is
big or little endian, for the FileTime and the GUID exporter whatever the byte
order is.  With any other byte order the 32-bit and the 64-bit exporter
return -1 with the unsupported byte order error and leave the stream as it
was. -/
theorem C16_null_value_writes_nothing (env : Collaborators) (record : libesedb_record_t)
    (record_value_entry : Int) (byte_order : BYTE_STREAM_ENDIAN) (written : FILE)
    (error : List liberror_error) (column_type : LIBESEDB_COLUMN_TYPES)
    (value : libesedb_value)
    (htype : record.get_column_type record_value_entry = some column_type)
    (hvalue : record.get_value record_value_entry = some value)
    (hnull : value.value_data = none) :
    (byte_order = BYTE_STREAM_ENDIAN_BIG ∨ byte_order = BYTE_STREAM_ENDIAN_LITTLE →
      column_type = LIBESEDB_COLUMN_TYPE_BINARY_DATA →
      exchange_export_record_value_32bit env (some record) record_value_entry byte_order
        (some written) error = Outcome.mk 1 (some written) error)
    ∧ (byte_order = BYTE_STREAM_ENDIAN_BIG ∨ byte_order = BYTE_STREAM_ENDIAN_LITTLE →
      column_type = LIBESEDB_COLUMN_TYPE_BINARY_DATA
        ∨ column_type = LIBESEDB_COLUMN_TYPE_CURRENCY →
      exchange_export_record_value_64bit env (some record) record_value_entry byte_order
        (some written) error = Outcome.mk 1 (some written) error)
    ∧ (column_type = LIBESEDB_COLUMN_TYPE_BINARY_DATA
        ∨ column_type = LIBESEDB_COLUMN_TYPE_CURRENCY →
      exchange_export_record_value_filetime env (some record) record_value_entry byte_order
        (some written) error = Outcome.mk 1 (some written) error)
    ∧ (column_type = LIBESEDB_COLUMN_TYPE_BINARY_DATA →
      exchange_export_record_value_guid env (some record) record_value_entry byte_order
        (some written) error = Outcome.mk 1 (some written) error)
    ∧ (column_type = LIBESEDB_COLUMN_TYPE_BINARY_DATA →
      exchange_export_record_value_sid env (some record) record_value_entry
        (some written) error = Outcome.mk 1 (some written) error)
    ∧ (column_type = LIBESEDB_COLUMN_TYPE_BINARY_DATA
        ∨ column_type = LIBESEDB_COLUMN_TYPE_LARGE_BINARY_DATA →
      exchange_export_record_value_string (some record) record_value_entry
        (some written) error = Outcome.mk 1 (some written) error)
    ∧ (byte_order ≠ BYTE_STREAM_ENDIAN_BIG → byte_order ≠ BYTE_STREAM_ENDIAN_LITTLE →
      exchange_export_record_value_32bit env (some record) record_value_entry byte_order
          (some written) error
        = return_error (some written) error LIBERROR_ERROR_DOMAIN_ARGUMENTS
            LIBERROR_ARGUMENT_ERROR_UNSUPPORTED_VALUE error_message.unsupported_byte_order
      ∧ exchange_export_record_value_64bit env (some record) record_value_entry byte_order
          (some written) error
        = return_error (some written) error LIBERROR_ERROR_DOMAIN_ARGUMENTS
            LIBERROR_ARGUMENT_ERROR_UNSUPPORTED_VALUE error_message.unsupported_byte_order) := by
  have hbo : byte_order = BYTE_STREAM_ENDIAN_BIG ∨ byte_order = BYTE_STREAM_ENDIAN_LITTLE →
      ¬ (byte_order ≠ BYTE_STREAM_ENDIAN_BIG ∧ byte_order ≠ BYTE_STREAM_ENDIAN_LITTLE) := by
    intro horder
    rcases horder with rfl | rfl <;> simp
  refine ⟨?_, ?_, ?_, ?_, ?_, ?_, ?_⟩
  · intro horder hct
    have hbo := hbo horder
    subst hct
    simp only [exchange_export_record_value_32bit, htype, hvalue, hnull, hbo]
    simp
  · intro horder hct
    have hbo := hbo horder
    rcases hct with rfl | rfl <;>
      (simp only [exchange_export_record_value_64bit, htype, hvalue, hnull, hbo]; simp)
  · intro hct
    rcases hct with rfl | rfl <;>
      (simp only [exchange_export_record_value_filetime, htype, hvalue, hnull]; simp)
  · intro hct
    subst hct
    simp only [exchange_export_record_value_guid, htype, hvalue, hnull]
    simp
  · intro hct
    subst hct
    simp only [exchange_export_record_value_sid, htype, hvalue, hnull]
    simp
  · intro hct
    rcases hct with rfl | rfl <;>
      (simp only [exchange_export_record_value_string, htype, hvalue, hnull]; simp)
  · intro hbig hlittle
    have hother : byte_order ≠ BYTE_STREAM_ENDIAN_BIG
        ∧ byte_order ≠ BYTE_STREAM_ENDIAN_LITTLE := ⟨hbig, hlittle⟩
    constructor
    · simp only [exchange_export_record_value_32bit]
      rw [if_pos hother]
    · simp only [exchange_export_record_value_64bit]
      rw [if_pos hother]

/-- C16 (amended), at a concrete input: a NULL value with flags 3 and a reported
size of 12 makes the 64-bit exporter return 1 and write nothing in
little-endian byte order, and the GUID exporter with the byte order value
0x55. -/
theorem C16_null_value_writes_nothing_witness :
    exchange_export_record_value_64bit example_collaborators
        (some (uniform_record 1 "Qx".toList LIBESEDB_COLUMN_TYPE_BINARY_DATA
          (libesedb_value.mk none 12 3)))
        0 BYTE_STREAM_ENDIAN_LITTLE (some "x".toList) []
      = Outcome.mk 1 (some "x".toList) []
    ∧ exchange_export_record_value_guid example_collaborators
        (some (uniform_record 1 "Qx".toList LIBESEDB_COLUMN_TYPE_BINARY_DATA
          (libesedb_value.mk none 12 3)))
        0 (BYTE_STREAM_ENDIAN_OTHER 0x55) (some "x".toList) []
      = Outcome.mk 1 (some "x".toList) [] :=
  ⟨(C16_null_value_writes_nothing example_collaborators
      (uniform_record 1 "Qx".toList LIBESEDB_COLUMN_TYPE_BINARY_DATA
        (libesedb_value.mk none 12 3))
      0 BYTE_STREAM_ENDIAN_LITTLE "x".toList [] LIBESEDB_COLUMN_TYPE_BINARY_DATA
      (libesedb_value.mk none 12 3) rfl rfl rfl).2.1 (Or.inr rfl) (Or.inl rfl),
   (C16_null_value_writes_nothing example_collaborators
      (uniform_record 1 "Qx".toList LIBESEDB_COLUMN_TYPE_BINARY_DATA
        (libesedb_value.mk none 12 3))
      0 (BYTE_STREAM_ENDIAN_OTHER 0x55) "x".toList [] LIBESEDB_COLUMN_TYPE_BINARY_DATA
      (libesedb_value.mk none 12 3) rfl rfl rfl).2.2.2.1 rfl⟩

/-- C17: if the reported column name size of a position exceeds 256, the loop
body of either record exporter returns -1 with the value out of range error
"column name size value exceeds maximum" and the stream untouched, whatever
the name, the column type and the value are (they are not looked at); after
positions that exported successfully this makes both record exporters return
-1 with that error.  If the size is at most 256, that error is not returned,
and the name is read with the full size and classified as read. -/
theorem C17_column_name_size_bound (env : Collaborators) (record : libesedb_record_t)
    (N k : Nat) (column_name_size : Nat) (written : FILE) (error : List liberror_error)
    (hsize : record.get_utf8_column_name_size (k : Int) = some column_name_size) :
    (256 < column_name_size →
      (∀ known_column_type : List Char → Nat → LIBESEDB_COLUMN_TYPES →
          EXCHANGE_KNOWN_COLUMN_TYPES,
        exchange_export_record_value known_column_type env record (k : Int) (some written) error
          = return_error (some written) error LIBERROR_ERROR_DOMAIN_RUNTIME
              LIBERROR_RUNTIME_ERROR_VALUE_OUT_OF_RANGE
              error_message.column_name_size_exceeds_maximum)
      ∧ (record.get_number_of_values = some (N : Int) → k < N →
          (∀ i : Nat, i < k → exports_successfully
            exchange_export_record_folders_known_column_type env record (i : Int)) →
          exchange_export_record_folders env (some record) (some written) error
            = Outcome.mk (-1)
                (some (written ++ ((List.range k).map (fun i : Nat =>
                  field_text exchange_export_record_folders_known_column_type env record
                    (i : Int) ++ ['\t'])).flatten))
                (error ++ [liberror_error.mk LIBERROR_ERROR_DOMAIN_RUNTIME
                  LIBERROR_RUNTIME_ERROR_VALUE_OUT_OF_RANGE
                  error_message.column_name_size_exceeds_maximum]))
      ∧ (record.get_number_of_values = some (N : Int) → k < N →
          (∀ i : Nat, i < k → exports_successfully
            exchange_export_record_mailbox_known_column_type env record (i : Int)) →
          exchange_export_record_mailbox env (some record) (some written) error
            = Outcome.mk (-1)
                (some (written ++ ((List.range k).map (fun i : Nat =>
                  field_text exchange_export_record_mailbox_known_column_type env record
                    (i : Int) ++ ['\t'])).flatten))
                (error ++ [liberror_error.mk LIBERROR_ERROR_DOMAIN_RUNTIME
                  LIBERROR_RUNTIME_ERROR_VALUE_OUT_OF_RANGE
                  error_message.column_name_size_exceeds_maximum])))
    ∧ (column_name_size ≤ 256 →
      ∀ known_column_type : List Char → Nat → LIBESEDB_COLUMN_TYPES →
          EXCHANGE_KNOWN_COLUMN_TYPES,
        exchange_export_record_value known_column_type env record (k : Int) (some written) error
          ≠ return_error (some written) error LIBERROR_ERROR_DOMAIN_RUNTIME
              LIBERROR_RUNTIME_ERROR_VALUE_OUT_OF_RANGE
              error_message.column_name_size_exceeds_maximum
        ∧ ∀ (column_name : List Char) (column_type : LIBESEDB_COLUMN_TYPES),
            record.get_utf8_column_name (k : Int) column_name_size = some column_name →
            record.get_column_type (k : Int) = some column_type →
            (exports_successfully known_column_type env record (k : Int)
              ↔ returned (exchange_export_record_dispatch env record (k : Int)
                  BYTE_STREAM_ENDIAN_LITTLE
                  (known_column_type column_name column_name_size column_type)) = 1)
            ∧ field_text known_column_type env record (k : Int)
              = appended_text (exchange_export_record_dispatch env record (k : Int)
                  BYTE_STREAM_ENDIAN_LITTLE
                  (known_column_type column_name column_name_size column_type))) := by
  constructor
  · intro hbig
    have hbig' : column_name_size > 256 := hbig
    have hbody : ∀ (known_column_type : List Char → Nat → LIBESEDB_COLUMN_TYPES →
        EXCHANGE_KNOWN_COLUMN_TYPES) (table_file_stream : Option FILE)
        (error : List liberror_error),
        exchange_export_record_value known_column_type env record (k : Int) table_file_stream
            error
          = return_error table_file_stream error LIBERROR_ERROR_DOMAIN_RUNTIME
              LIBERROR_RUNTIME_ERROR_VALUE_OUT_OF_RANGE
              error_message.column_name_size_exceeds_maximum := by
      intro known_column_type table_file_stream error
      simp [exchange_export_record_value, hsize, hbig']
    have hrecord : ∀ known_column_type : List Char → Nat → LIBESEDB_COLUMN_TYPES →
        EXCHANGE_KNOWN_COLUMN_TYPES,
        record.get_number_of_values = some (N : Int) → k < N →
        (∀ i : Nat, i < k → exports_successfully known_column_type env record (i : Int)) →
        exchange_export_record known_column_type env (some record) (some written) error
          = Outcome.mk (-1)
              (some (written ++ ((List.range k).map (fun i : Nat =>
                field_text known_column_type env record (i : Int) ++ ['\t'])).flatten))
              (error ++ [liberror_error.mk LIBERROR_ERROR_DOMAIN_RUNTIME
                LIBERROR_RUNTIME_ERROR_VALUE_OUT_OF_RANGE
                error_message.column_name_size_exceeds_maximum]) := by
      intro known_column_type hcount hk hbefore
      have hfail : fails_in_lookup_or_typed_exporter known_column_type env record (k : Int) :=
        Or.inr ⟨column_name_size, hsize, Or.inl hbig⟩
      have htext := fails_in_lookup_or_typed_exporter_text known_column_type env record
        (k : Int) hfail
      rw [exchange_export_record_failure known_column_type env record N k hcount hk hbefore
        htext.1 written error, htext.2, hbody]
      simp [return_error, liberror_error_set]
    exact ⟨fun known_column_type => hbody known_column_type (some written) error,
      hrecord _, hrecord _⟩
  · intro hfit known_column_type
    have hbig : ¬ column_name_size > 256 := by omega
    constructor
    · cases hname : record.get_utf8_column_name (k : Int) column_name_size with
      | none =>
        simp [exchange_export_record_value, hsize, hbig, hname, return_error,
          liberror_error_set]
      | some column_name =>
        cases htype : record.get_column_type (k : Int) with
        | none =>
          simp [exchange_export_record_value, hsize, hbig, hname, htype, return_error,
            liberror_error_set]
        | some column_type =>
          by_cases hres : (exchange_export_record_dispatch env record (k : Int)
              BYTE_STREAM_ENDIAN_LITTLE
              (known_column_type column_name column_name_size column_type)
              (some written) error).result = 1
          · simp only [exchange_export_record_value, hsize, hbig, hname, htype, hres, ne_eq,
              not_true_eq_false, if_false]
            intro h
            rw [h] at hres
            simp [return_error] at hres
          · simp only [exchange_export_record_value, hsize, hbig, hname, htype, hres, ne_eq,
              not_false_eq_true, if_true, if_false]
            intro h
            have herr := congrArg Outcome.error h
            simp only [return_error, liberror_error_set] at herr
            exact append_singleton_ne _ _ _ _ (by decide) herr
    · intro column_name column_type hname htype
      exact exchange_export_record_value_of_lookups known_column_type env record (k : Int)
        column_name_size column_name column_type hsize hfit hname htype

/-- C17, at a concrete input: a reported name size of 257 makes the loop body
of the Mailbox exporter fail with the value out of range error. -/
theorem C17_column_name_size_bound_witness :
    exchange_export_record_value exchange_export_record_mailbox_known_column_type
        example_collaborators
        (libesedb_record_t.mk (some 1) (fun _ => some 257) (fun _ _ => some "T".toList)
          (fun _ => some LIBESEDB_COLUMN_TYPE_CURRENCY) (fun _ => none))
        ((0 : Nat) : Int) (some []) []
      = return_error (some []) [] LIBERROR_ERROR_DOMAIN_RUNTIME
          LIBERROR_RUNTIME_ERROR_VALUE_OUT_OF_RANGE
          error_message.column_name_size_exceeds_maximum :=
  ((C17_column_name_size_bound example_collaborators
    (libesedb_record_t.mk (some 1) (fun _ => some 257) (fun _ _ => some "T".toList)
      (fun _ => some LIBESEDB_COLUMN_TYPE_CURRENCY) (fun _ => none))
    1 0 257 [] [] rfl).1 (by decide)).1 exchange_export_record_mailbox_known_column_type

/-- C18: a binary data column named "N3880" in the Folders schema, or "N676a"
in the Mailbox schema, whose value has no flag set, is classified GUID; 16 zero
bytes are exported as 00000000-0000-0000-0000-000000000000 when the GUID codec
succeeds and renders the canonical text; and a payload of 15 bytes makes the
loop body and (after positions that exported successfully) the record exporter
return -1 with the unsupported value data size error, whatever the codec
does. -/
theorem C18_guid_zero_and_malformed (env : Collaborators) (record : libesedb_record_t)
    (N k : Nat) (value : libesedb_value) (written : FILE) (error : List liberror_error)
    (htype : record.get_column_type (k : Int) = some LIBESEDB_COLUMN_TYPE_BINARY_DATA)
    (hvalue : record.get_value (k : Int) = some value)
    (hflags : value.value_flags = 0) :
    (record.get_utf8_column_name_size (k : Int) = some (utf8_column_name_size "N3880".toList) →
      record.get_utf8_column_name (k : Int) (utf8_column_name_size "N3880".toList)
        = some (utf8_column_name "N3880".toList) →
      exchange_export_record_folders_known_column_type (utf8_column_name "N3880".toList)
          (utf8_column_name_size "N3880".toList) LIBESEDB_COLUMN_TYPE_BINARY_DATA
        = EXCHANGE_KNOWN_COLUMN_TYPE_GUID
      ∧ (value.value_data = some (List.replicate 16 0) → value.value_data_size = 16 →
        env.libfguid_identifier_initialize_result = true →
        env.libfguid_identifier_copy_from_byte_stream (List.replicate 16 0) 16
          BYTE_STREAM_ENDIAN_LITTLE = true →
        env.libfguid_identifier_copy_to_utf8_string (List.replicate 16 0)
            BYTE_STREAM_ENDIAN_LITTLE
          = some (libfguid_identifier_canonical_string (List.replicate 16 0)
              BYTE_STREAM_ENDIAN_LITTLE) →
        env.libfguid_identifier_free = true →
        exchange_export_record_value exchange_export_record_folders_known_column_type env record
            (k : Int) (some written) error
          = Outcome.mk 1 (some (written ++ "00000000-0000-0000-0000-000000000000".toList))
              error)
      ∧ (∀ value_data : List uint8_t, value.value_data = some value_data →
        value.value_data_size = 15 →
        exchange_export_record_value exchange_export_record_folders_known_column_type env record
            (k : Int) (some written) error
          = Outcome.mk (-1) (some written)
              (error ++ [liberror_error.mk LIBERROR_ERROR_DOMAIN_ARGUMENTS
                  LIBERROR_ARGUMENT_ERROR_UNSUPPORTED_VALUE
                  error_message.unsupported_value_data_size,
                liberror_error.mk LIBERROR_ERROR_DOMAIN_RUNTIME
                  LIBERROR_RUNTIME_ERROR_GENERIC error_message.unable_to_export_record_value])
        ∧ (record.get_number_of_values = some (N : Int) → k < N →
            (∀ i : Nat, i < k → exports_successfully
              exchange_export_record_folders_known_column_type env record (i : Int)) →
            (exchange_export_record_folders env (some record) (some written) error).result = -1
            ∧ (exchange_export_record_folders env (some record) (some written) error).error
              = error ++ [liberror_error.mk LIBERROR_ERROR_DOMAIN_ARGUMENTS
                  LIBERROR_ARGUMENT_ERROR_UNSUPPORTED_VALUE
                  error_message.unsupported_value_data_size,
                liberror_error.mk LIBERROR_ERROR_DOMAIN_RUNTIME
                  LIBERROR_RUNTIME_ERROR_GENERIC
                  error_message.unable_to_export_record_value])))
    ∧ (record.get_utf8_column_name_size (k : Int) = some (utf8_column_name_size "N676a".toList) →
      record.get_utf8_column_name (k : Int) (utf8_column_name_size "N676a".toList)
        = some (utf8_column_name "N676a".toList) →
      exchange_export_record_mailbox_known_column_type (utf8_column_name "N676a".toList)
          (utf8_column_name_size "N676a".toList) LIBESEDB_COLUMN_TYPE_BINARY_DATA
        = EXCHANGE_KNOWN_COLUMN_TYPE_GUID
      ∧ (value.value_data = some (List.replicate 16 0) → value.value_data_size = 16 →
        env.libfguid_identifier_initialize_result = true →
        env.libfguid_identifier_copy_from_byte_stream (List.replicate 16 0) 16
          BYTE_STREAM_ENDIAN_LITTLE = true →
        env.libfguid_identifier_copy_to_utf8_string (List.replicate 16 0)
            BYTE_STREAM_ENDIAN_LITTLE
          = some (libfguid_identifier_canonical_string (List.replicate 16 0)
              BYTE_STREAM_ENDIAN_LITTLE) →
        env.libfguid_identifier_free = true →
        exchange_export_record_value exchange_export_record_mailbox_known_column_type env record
            (k : Int) (some written) error
          = Outcome.mk 1 (some (written ++ "00000000-0000-0000-0000-000000000000".toList))
              error)
      ∧ (∀ value_data : List uint8_t, value.value_data = some value_data →
        value.value_data_size = 15 →
        exchange_export_record_value exchange_export_record_mailbox_known_column_type env record
            (k : Int) (some written) error
          = Outcome.mk (-1) (some written)
              (error ++ [liberror_error.mk LIBERROR_ERROR_DOMAIN_ARGUMENTS
                  LIBERROR_ARGUMENT_ERROR_UNSUPPORTED_VALUE
                  error_message.unsupported_value_data_size,
                liberror_error.mk LIBERROR_ERROR_DOMAIN_RUNTIME
                  LIBERROR_RUNTIME_ERROR_GENERIC error_message.unable_to_export_record_value])
        ∧ (record.get_number_of_values = some (N : Int) → k < N →
            (∀ i : Nat, i < k → exports_successfully
              exchange_export_record_mailbox_known_column_type env record (i : Int)) →
            (exchange_export_record_mailbox env (some record) (some written) error).result = -1
            ∧ (exchange_export_record_mailbox env (some record) (some written) error).error
              = error ++ [liberror_error.mk LIBERROR_ERROR_DOMAIN_ARGUMENTS
                  LIBERROR_ARGUMENT_ERROR_UNSUPPORTED_VALUE
                  error_message.unsupported_value_data_size,
                liberror_error.mk LIBERROR_ERROR_DOMAIN_RUNTIME
                  LIBERROR_RUNTIME_ERROR_GENERIC
                  error_message.unable_to_export_record_value]))) := by
  have hf : exchange_export_record_folders_known_column_type (utf8_column_name "N3880".toList)
      (utf8_column_name_size "N3880".toList) LIBESEDB_COLUMN_TYPE_BINARY_DATA
      = EXCHANGE_KNOWN_COLUMN_TYPE_GUID := by decide
  have hm : exchange_export_record_mailbox_known_column_type (utf8_column_name "N676a".toList)
      (utf8_column_name_size "N676a".toList) LIBESEDB_COLUMN_TYPE_BINARY_DATA
      = EXCHANGE_KNOWN_COLUMN_TYPE_GUID := by decide
  constructor
  · intro hsize hname
    exact ⟨hf, guid_scenario exchange_export_record_folders_known_column_type env record N k
      "N3880".toList value written error hf (by decide) hsize hname htype hvalue hflags⟩
  · intro hsize hname
    exact ⟨hm, guid_scenario exchange_export_record_mailbox_known_column_type env record N k
      "N676a".toList value written error hm (by decide) hsize hname htype hvalue hflags⟩

/-- C18, at a concrete input: 16 zero bytes in a binary data column named
"N3880" are exported by the Folders loop body as the zero GUID text. -/
theorem C18_guid_zero_and_malformed_witness :
    exchange_export_record_value exchange_export_record_folders_known_column_type
        example_collaborators_canonical_guid
        (uniform_record 1 "N3880".toList LIBESEDB_COLUMN_TYPE_BINARY_DATA
          (libesedb_value.mk (some (List.replicate 16 0)) 16 0))
        ((0 : Nat) : Int) (some []) []
      = Outcome.mk 1 (some "00000000-0000-0000-0000-000000000000".toList) [] :=
  ((C18_guid_zero_and_malformed example_collaborators_canonical_guid
    (uniform_record 1 "N3880".toList LIBESEDB_COLUMN_TYPE_BINARY_DATA
      (libesedb_value.mk (some (List.replicate 16 0)) 16 0))
    1 0 (libesedb_value.mk (some (List.replicate 16 0)) 16 0) [] []
    rfl rfl rfl).1 rfl rfl).2.1 rfl rfl rfl rfl rfl rfl

/-- C19: in the SID exporter, for a binary data value with present data on the
typed path (no flag bit outside the variable-size flag) whose SID was created
and copied from the byte stream, with the codec reporting the string size
`sid_string_size`: if the size exceeds 128 the exporter returns -1 with the
value out of range error and the stream untouched; if the size is at most 128
that check passes and the exporter goes on to copy the string with the buffer
size 128.  Hence, when the string the codec copies has the size it reported
(its characters and the end-of-string character), a string that is written
fits the 128 element buffer. -/
theorem C19_sid_string_size_bound (env : Collaborators) (record : libesedb_record_t)
    (record_value_entry : Int) (written : FILE) (error : List liberror_error)
    (value : libesedb_value) (value_data : List uint8_t) (sid_string_size : Nat)
    (htype : record.get_column_type record_value_entry = some LIBESEDB_COLUMN_TYPE_BINARY_DATA)
    (hvalue : record.get_value record_value_entry = some value)
    (hflags : and_not value.value_flags env.LIBESEDB_VALUE_FLAG_VARIABLE_SIZE = 0)
    (hdata : value.value_data = some value_data)
    (hinit : env.libfwnt_security_identifier_initialize_result = true)
    (hcopy : env.libfwnt_security_identifier_copy_from_byte_stream value_data
      value.value_data_size = true)
    (hstring_size : env.libfwnt_security_identifier_get_string_size value_data
      = some sid_string_size) :
    (128 < sid_string_size →
      exchange_export_record_value_sid env (some record) record_value_entry (some written) error
        = return_error (some written) error LIBERROR_ERROR_DOMAIN_RUNTIME
            LIBERROR_RUNTIME_ERROR_VALUE_OUT_OF_RANGE
            error_message.SID_string_size_exceeds_maximum)
    ∧ (sid_string_size ≤ 128 →
      exchange_export_record_value_sid env (some record) record_value_entry (some written) error
        = (match env.libfwnt_security_identifier_copy_to_utf8_string value_data with
          | none => return_error (some written) error LIBERROR_ERROR_DOMAIN_RUNTIME
              LIBERROR_RUNTIME_ERROR_COPY_FAILED error_message.unable_to_copy_to_string
          | some sid_string =>
            if env.libfwnt_security_identifier_free = true then
              Outcome.mk 1 (some (written ++ sid_string)) error
            else
              return_error (some written) error LIBERROR_ERROR_DOMAIN_RUNTIME
                LIBERROR_RUNTIME_ERROR_FINALIZE_FAILED error_message.unable_to_free))
    ∧ ((∀ sid_string, env.libfwnt_security_identifier_copy_to_utf8_string value_data
          = some sid_string → sid_string.length + 1 = sid_string_size) →
      (exchange_export_record_value_sid env (some record) record_value_entry (some written)
        error).result = 1 →
      ∃ sid_string, env.libfwnt_security_identifier_copy_to_utf8_string value_data
          = some sid_string
        ∧ (exchange_export_record_value_sid env (some record) record_value_entry (some written)
            error).table_file_stream = some (written ++ sid_string)
        ∧ sid_string.length + 1 ≤ 128) := by
  have hbig : 128 < sid_string_size →
      exchange_export_record_value_sid env (some record) record_value_entry (some written) error
        = return_error (some written) error LIBERROR_ERROR_DOMAIN_RUNTIME
            LIBERROR_RUNTIME_ERROR_VALUE_OUT_OF_RANGE
            error_message.SID_string_size_exceeds_maximum := by
    intro h
    have h' : sid_string_size > 128 := h
    simp [exchange_export_record_value_sid, htype, hvalue, hflags, hdata, hinit, hcopy,
      hstring_size, h']
  have hsmall : sid_string_size ≤ 128 →
      exchange_export_record_value_sid env (some record) record_value_entry (some written) error
        = (match env.libfwnt_security_identifier_copy_to_utf8_string value_data with
          | none => return_error (some written) error LIBERROR_ERROR_DOMAIN_RUNTIME
              LIBERROR_RUNTIME_ERROR_COPY_FAILED error_message.unable_to_copy_to_string
          | some sid_string =>
            if env.libfwnt_security_identifier_free = true then
              Outcome.mk 1 (some (written ++ sid_string)) error
            else
              return_error (some written) error LIBERROR_ERROR_DOMAIN_RUNTIME
                LIBERROR_RUNTIME_ERROR_FINALIZE_FAILED error_message.unable_to_free) := by
    intro h
    have h' : ¬ sid_string_size > 128 := by omega
    cases hs : env.libfwnt_security_identifier_copy_to_utf8_string value_data with
    | none =>
      simp [exchange_export_record_value_sid, htype, hvalue, hflags, hdata, hinit, hcopy,
        hstring_size, h', hs]
    | some sid_string =>
      by_cases hfree : env.libfwnt_security_identifier_free = true
      · simp [exchange_export_record_value_sid, htype, hvalue, hflags, hdata, hinit, hcopy,
          hstring_size, h', hs, hfree, fprintf_some]
      · simp [exchange_export_record_value_sid, htype, hvalue, hflags, hdata, hinit, hcopy,
          hstring_size, h', hs, hfree]
  refine ⟨hbig, hsmall, ?_⟩
  intro hcodec hres
  by_cases h : 128 < sid_string_size
  · rw [hbig h] at hres
    simp [return_error] at hres
  · have hle : sid_string_size ≤ 128 := by omega
    rw [hsmall hle] at hres ⊢
    cases hs : env.libfwnt_security_identifier_copy_to_utf8_string value_data with
    | none =>
      rw [hs] at hres
      simp [return_error] at hres
    | some sid_string =>
      rw [hs] at hres
      by_cases hfree : env.libfwnt_security_identifier_free = true
      · refine ⟨sid_string, rfl, ?_, ?_⟩
        · simp [hfree]
        · have := hcodec sid_string hs
          omega
      · simp [hfree, return_error] at hres

/-- C19, at a concrete input: a SID whose string size is reported as 7 passes
the bound check and is written. -/
theorem C19_sid_string_size_bound_witness :
    exchange_export_record_value_sid example_collaborators
        (some (uniform_record 1 "Ne58".toList LIBESEDB_COLUMN_TYPE_BINARY_DATA
          (libesedb_value.mk (some [1, 1, 0, 0, 0, 0, 0, 5, 18, 0, 0, 0]) 12 0)))
        0 (some []) []
      = Outcome.mk 1 (some "<sid>".toList) [] :=
  (C19_sid_string_size_bound example_collaborators
    (uniform_record 1 "Ne58".toList LIBESEDB_COLUMN_TYPE_BINARY_DATA
      (libesedb_value.mk (some [1, 1, 0, 0, 0, 0, 0, 5, 18, 0, 0, 0]) 12 0))
    0 [] [] (libesedb_value.mk (some [1, 1, 0, 0, 0, 0, 0, 5, 18, 0, 0, 0]) 12 0)
    [1, 1, 0, 0, 0, 0, 0, 5, 18, 0, 0, 0] 7 rfl rfl (by decide) rfl rfl rfl rfl).2.1
    (by decide)

/-- C20: neither classification block ever yields Integer32, for any name, name
size and column type, so the chain of the loop body never calls the 32-bit
exporter; and a column whose name begins with 'L' is Undefined in both
schemas, whatever its column type and name size, and is exported by the
generic exporter. -/
theorem C20_integer_32bit_never_assigned (env : Collaborators) (record : libesedb_record_t)
    (value_iterator : Int) (column_name_size : Nat) (column_name : List Char)
    (column_type : LIBESEDB_COLUMN_TYPES) :
    exchange_export_record_folders_known_column_type column_name column_name_size column_type
      ≠ EXCHANGE_KNOWN_COLUMN_TYPE_INTEGER_32BIT
    ∧ exchange_export_record_mailbox_known_column_type column_name column_name_size column_type
      ≠ EXCHANGE_KNOWN_COLUMN_TYPE_INTEGER_32BIT
    ∧ (column_name[0]? = some 'L' →
      exchange_export_record_folders_known_column_type column_name column_name_size column_type
        = EXCHANGE_KNOWN_COLUMN_TYPE_UNDEFINED
      ∧ exchange_export_record_mailbox_known_column_type column_name column_name_size column_type
        = EXCHANGE_KNOWN_COLUMN_TYPE_UNDEFINED
      ∧ (record.get_utf8_column_name_size value_iterator = some column_name_size →
        column_name_size ≤ 256 →
        record.get_utf8_column_name value_iterator column_name_size = some column_name →
        record.get_column_type value_iterator = some column_type →
        field_text exchange_export_record_folders_known_column_type env record value_iterator
          = (env.export_handle_export_record_value record value_iterator).2
        ∧ field_text exchange_export_record_mailbox_known_column_type env record value_iterator
          = (env.export_handle_export_record_value record value_iterator).2
        ∧ (exports_successfully exchange_export_record_folders_known_column_type env record
            value_iterator
          ↔ (env.export_handle_export_record_value record value_iterator).1 = 1)
        ∧ (exports_successfully exchange_export_record_mailbox_known_column_type env record
            value_iterator
          ↔ (env.export_handle_export_record_value record value_iterator).1 = 1))) := by
  refine ⟨?_, ?_, ?_⟩
  · exact folders_known_column_type_ne_integer_32bit column_name column_name_size column_type
  · exact mailbox_known_column_type_ne_integer_32bit column_name column_name_size column_type
  · intro hL
    have hf : exchange_export_record_folders_known_column_type column_name column_name_size
        column_type = EXCHANGE_KNOWN_COLUMN_TYPE_UNDEFINED := by
      simp [exchange_export_record_folders_known_column_type, hL]
    have hm : exchange_export_record_mailbox_known_column_type column_name column_name_size
        column_type = EXCHANGE_KNOWN_COLUMN_TYPE_UNDEFINED := by
      simp [exchange_export_record_mailbox_known_column_type, hL]
    refine ⟨hf, hm, ?_⟩
    intro hsize hfit hname htype
    have hlf := exchange_export_record_value_of_lookups
      exchange_export_record_folders_known_column_type env record value_iterator
      column_name_size column_name column_type hsize hfit hname htype
    have hlm := exchange_export_record_value_of_lookups
      exchange_export_record_mailbox_known_column_type env record value_iterator
      column_name_size column_name column_type hsize hfit hname htype
    rw [hf] at hlf
    rw [hm] at hlm
    have hgen_text : appended_text (exchange_export_record_dispatch env record value_iterator
        BYTE_STREAM_ENDIAN_LITTLE EXCHANGE_KNOWN_COLUMN_TYPE_UNDEFINED)
        = (env.export_handle_export_record_value record value_iterator).2 := by
      simp [appended_text, exchange_export_record_dispatch, fprintf_some]
    have hgen_res : returned (exchange_export_record_dispatch env record value_iterator
        BYTE_STREAM_ENDIAN_LITTLE EXCHANGE_KNOWN_COLUMN_TYPE_UNDEFINED)
        = (env.export_handle_export_record_value record value_iterator).1 := by
      simp [returned, exchange_export_record_dispatch]
    rw [hgen_text, hgen_res] at hlf hlm
    exact ⟨hlf.2, hlm.2, hlf.1, hlm.1⟩

/-- C20, at a concrete input: a binary data column named "Lx" is Undefined in
the Folders schema and its field text is what the generic exporter writes. -/
theorem C20_integer_32bit_never_assigned_witness :
    exchange_export_record_folders_known_column_type (utf8_column_name "Lx".toList)
        (utf8_column_name_size "Lx".toList) LIBESEDB_COLUMN_TYPE_BINARY_DATA
      = EXCHANGE_KNOWN_COLUMN_TYPE_UNDEFINED
    ∧ field_text exchange_export_record_folders_known_column_type example_collaborators
        (uniform_record 1 "Lx".toList LIBESEDB_COLUMN_TYPE_BINARY_DATA
          (libesedb_value.mk (some [1, 0, 0, 0]) 4 0)) 0
      = "<generic>".toList := by
  have h := (C20_integer_32bit_never_assigned example_collaborators
    (uniform_record 1 "Lx".toList LIBESEDB_COLUMN_TYPE_BINARY_DATA
      (libesedb_value.mk (some [1, 0, 0, 0]) 4 0))
    0 (utf8_column_name_size "Lx".toList) (utf8_column_name "Lx".toList)
    LIBESEDB_COLUMN_TYPE_BINARY_DATA).2.2 rfl
  exact ⟨h.1, (h.2.2 rfl (by decide) rfl rfl).1⟩

/-! ## Numbers, flags, the hexadecimal dump and the two schemas -/

/-- The little-endian copy of 4 bytes is the sum of the bytes weighted by powers
of 256, least significant byte first. -/
theorem byte_stream_copy_to_uint32_little_endian_eq (b0 b1 b2 b3 : uint8_t) :
    byte_stream_copy_to_uint32_little_endian [b0, b1, b2, b3]
      = b0.val + b1.val * 256 + b2.val * 256 ^ 2 + b3.val * 256 ^ 3 := by
  simp [byte_stream_copy_to_uint32_little_endian]
  omega

/-- The big-endian copy of 4 bytes is the sum of the bytes weighted by powers of
256, most significant byte first. -/
theorem byte_stream_copy_to_uint32_big_endian_eq (b0 b1 b2 b3 : uint8_t) :
    byte_stream_copy_to_uint32_big_endian [b0, b1, b2, b3]
      = b0.val * 256 ^ 3 + b1.val * 256 ^ 2 + b2.val * 256 + b3.val := by
  simp [byte_stream_copy_to_uint32_big_endian]
  omega

/-- A number made of 4 bytes fits 32 bits. -/
theorem uint32_of_bytes_lt (b0 b1 b2 b3 : uint8_t) :
    b0.val + b1.val * 256 + b2.val * 256 ^ 2 + b3.val * 256 ^ 3 < 2 ^ 32 := by
  have h0 := b0.isLt
  have h1 := b1.isLt
  have h2 := b2.isLt
  have h3 := b3.isLt
  norm_num
  omega

/-- A decimal digit character is one of "0123456789". -/
theorem digitChar_mem_decimal (d : Nat) (hd : d < 10) :
    Nat.digitChar d ∈ "0123456789".toList := by
  interval_cases d <;> decide

/-- The decimal digits that `Nat.toDigits` writes are among "0123456789". -/
theorem toDigits_decimal_mem (n : Nat) :
    ∀ c ∈ Nat.toDigits 10 n, c ∈ "0123456789".toList := by
  induction n using Nat.strong_induction_on with
  | _ n ih =>
    have hmod : n % 10 < 10 := Nat.mod_lt n (by decide)
    rw [toDigits_step 10 (by decide) n]
    by_cases hq : n / 10 = 0
    · simp only [hq, if_true]
      intro c hc
      simp only [List.mem_singleton] at hc
      rw [hc]
      exact digitChar_mem_decimal _ hmod
    · have hlt : n / 10 < n := by omega
      simp only [hq, if_false]
      intro c hc
      rw [List.mem_append] at hc
      rcases hc with hc | hc
      · exact ih (n / 10) hlt c hc
      · simp only [List.mem_singleton] at hc
        rw [hc]
        exact digitChar_mem_decimal _ hmod

/-- The 32-bit exporter on 4 present bytes with no flag set, in a binary data
column. -/
theorem exchange_export_record_value_32bit_number (env : Collaborators)
    (record : libesedb_record_t) (record_value_entry : Int) (written : FILE)
    (error : List liberror_error) (value : libesedb_value) (b0 b1 b2 b3 : uint8_t)
    (htype : record.get_column_type record_value_entry = some LIBESEDB_COLUMN_TYPE_BINARY_DATA)
    (hvalue : record.get_value record_value_entry = some value)
    (hflags : and_not value.value_flags env.LIBESEDB_VALUE_FLAG_VARIABLE_SIZE = 0)
    (hdata : value.value_data = some [b0, b1, b2, b3])
    (hsize : value.value_data_size = 4) :
    exchange_export_record_value_32bit env (some record) record_value_entry
        BYTE_STREAM_ENDIAN_LITTLE (some written) error
      = Outcome.mk 1
          (some (written ++ Nat.toDigits 10
            (b0.val + b1.val * 256 + b2.val * 256 ^ 2 + b3.val * 256 ^ 3)))
          error
    ∧ exchange_export_record_value_32bit env (some record) record_value_entry
        BYTE_STREAM_ENDIAN_BIG (some written) error
      = Outcome.mk 1
          (some (written ++ Nat.toDigits 10
            (b0.val * 256 ^ 3 + b1.val * 256 ^ 2 + b2.val * 256 + b3.val)))
          error := by
  have hle := byte_stream_copy_to_uint32_little_endian_eq b0 b1 b2 b3
  have hbe := byte_stream_copy_to_uint32_big_endian_eq b0 b1 b2 b3
  have hlt := uint32_of_bytes_lt b0 b1 b2 b3
  have hrev := uint32_of_bytes_lt b3 b2 b1 b0
  have hbe_lt : b0.val * 256 ^ 3 + b1.val * 256 ^ 2 + b2.val * 256 + b3.val < 2 ^ 32 := by
    have e : b0.val * 256 ^ 3 + b1.val * 256 ^ 2 + b2.val * 256 + b3.val
        = b3.val + b2.val * 256 + b1.val * 256 ^ 2 + b0.val * 256 ^ 3 := by ring
    rw [e]; exact hrev
  have hfle : format_PRIu32 (byte_stream_copy_to_uint32_little_endian [b0, b1, b2, b3])
      = Nat.toDigits 10 (b0.val + b1.val * 256 + b2.val * 256 ^ 2 + b3.val * 256 ^ 3) := by
    unfold format_PRIu32
    rw [hle, Nat.mod_eq_of_lt hlt]
  have hfbe : format_PRIu32 (byte_stream_copy_to_uint32_big_endian [b0, b1, b2, b3])
      = Nat.toDigits 10 (b0.val * 256 ^ 3 + b1.val * 256 ^ 2 + b2.val * 256 + b3.val) := by
    unfold format_PRIu32
    rw [hbe, Nat.mod_eq_of_lt hbe_lt]
  constructor
  · simp only [exchange_export_record_value_32bit, htype, hvalue, hflags, hdata, hsize,
      fprintf_some]
    simp [hfle]
  · simp only [exchange_export_record_value_32bit, htype, hvalue, hflags, hdata, hsize,
      fprintf_some]
    simp [hfbe]

/-- The loop body on a position whose lookups succeed is the exporter that the
chain selects for the kind of (name, name size, column type), followed by the
test `if( result != 1 )`. -/
theorem exchange_export_record_value_eq_dispatch
    (known_column_type : List Char → Nat → LIBESEDB_COLUMN_TYPES → EXCHANGE_KNOWN_COLUMN_TYPES)
    (env : Collaborators) (record : libesedb_record_t) (value_iterator : Int)
    (column_name_size : Nat) (column_name : List Char) (column_type : LIBESEDB_COLUMN_TYPES)
    (table_file_stream : Option FILE) (error : List liberror_error)
    (hsize : record.get_utf8_column_name_size value_iterator = some column_name_size)
    (hfit : column_name_size ≤ 256)
    (hname : record.get_utf8_column_name value_iterator column_name_size = some column_name)
    (htype : record.get_column_type value_iterator = some column_type) :
    exchange_export_record_value known_column_type env record value_iterator table_file_stream
        error
      = if (exchange_export_record_dispatch env record value_iterator BYTE_STREAM_ENDIAN_LITTLE
            (known_column_type column_name column_name_size column_type) table_file_stream
            error).result ≠ 1 then
          return_error
            (exchange_export_record_dispatch env record value_iterator
              BYTE_STREAM_ENDIAN_LITTLE
              (known_column_type column_name column_name_size column_type) table_file_stream
              error).table_file_stream
            (exchange_export_record_dispatch env record value_iterator
              BYTE_STREAM_ENDIAN_LITTLE
              (known_column_type column_name column_name_size column_type) table_file_stream
              error).error
            LIBERROR_ERROR_DOMAIN_RUNTIME LIBERROR_RUNTIME_ERROR_GENERIC
            error_message.unable_to_export_record_value
        else
          exchange_export_record_dispatch env record value_iterator BYTE_STREAM_ENDIAN_LITTLE
            (known_column_type column_name column_name_size column_type) table_file_stream
            error := by
  have hbig : ¬ column_name_size > 256 := by omega
  simp only [exchange_export_record_value, hsize, hbig, hname, htype, if_false]

/-- Every month name has three characters. -/
theorem libfdatetime_month_string_length (month : Nat) :
    (libfdatetime_month_string month).length = 3 := by
  unfold libfdatetime_month_string
  split <;> rfl

/-- A number below 10^(k+1) has at most k + 1 decimal digits. -/
theorem toDigits_length_le (k : Nat) :
    ∀ n : Nat, n < 10 ^ (k + 1) → (Nat.toDigits 10 n).length ≤ k + 1 := by
  induction k with
  | zero =>
    intro n hn
    rw [toDigits_step 10 (by decide) n]
    have hq : n / 10 = 0 := by omega
    simp [hq]
  | succ k ih =>
    intro n hn
    rw [toDigits_step 10 (by decide) n]
    by_cases hq : n / 10 = 0
    · simp [hq]
    · have hlt : n / 10 < 10 ^ (k + 1) := by
        rw [Nat.div_lt_iff_lt_mul (by decide)]
        rw [pow_succ] at hn
        exact hn
      have := ih (n / 10) hlt
      simp only [hq, if_false, List.length_append, List.length_singleton]
      omega

/-- The year of a FILETIME has at most 6 digits. -/
theorem libfdatetime_date_of_days_year_lt (filetime : Nat) (hfiletime : filetime < 2 ^ 64) :
    (libfdatetime_date_of_days (filetime / 10000000 / 86400)).1 < 10 ^ 6 := by
  simp only [libfdatetime_date_of_days]
  norm_num at hfiletime ⊢
  omega

/-- The ctime style string of a FILETIME of 8 bytes has at most 23 characters,
24 with the end-of-string character. -/
theorem libfdatetime_filetime_ctime_string_length (b0 b1 b2 b3 b4 b5 b6 b7 : uint8_t)
    (byte_order : BYTE_STREAM_ENDIAN) :
    (libfdatetime_filetime_ctime_string [b0, b1, b2, b3, b4, b5, b6, b7] byte_order).length + 1
      ≤ 24 := by
  have hle := byte_stream_copy_to_uint64_little_endian_eq b0 b1 b2 b3 b4 b5 b6 b7
  have hbe := byte_stream_copy_to_uint64_big_endian_eq b0 b1 b2 b3 b4 b5 b6 b7
  have hlt := uint64_of_bytes_lt b0 b1 b2 b3 b4 b5 b6 b7
  have hrev := uint64_of_bytes_lt b7 b6 b5 b4 b3 b2 b1 b0
  have hfiletime : (if byte_order = BYTE_STREAM_ENDIAN_BIG then
        byte_stream_copy_to_uint64_big_endian [b0, b1, b2, b3, b4, b5, b6, b7]
      else byte_stream_copy_to_uint64_little_endian [b0, b1, b2, b3, b4, b5, b6, b7])
      < 2 ^ 64 := by
    split
    · rw [hbe]
      have e : b0.val * 256 ^ 7 + b1.val * 256 ^ 6 + b2.val * 256 ^ 5 + b3.val * 256 ^ 4
          + b4.val * 256 ^ 3 + b5.val * 256 ^ 2 + b6.val * 256 + b7.val
          = b7.val + b6.val * 256 + b5.val * 256 ^ 2 + b4.val * 256 ^ 3 + b3.val * 256 ^ 4
            + b2.val * 256 ^ 5 + b1.val * 256 ^ 6 + b0.val * 256 ^ 7 := by ring
      rw [e]; exact hrev
    · rw [hle]; exact hlt
  have hyear := toDigits_length_le 5 _ (libfdatetime_date_of_days_year_lt _ hfiletime)
  simp only [libfdatetime_filetime_ctime_string, List.length_append,
    libfdatetime_month_string_length, format_02u, List.length_cons, List.length_nil]
  omega

/-- The loop body on a column classified FileTime whose value has no flag set
and 8 present bytes, in a binary data or currency column, with a FILETIME
codec that succeeds: the string the codec renders from the bytes in
little-endian byte order is written. -/
theorem exchange_export_record_value_filetime_column
    (known_column_type : List Char → Nat → LIBESEDB_COLUMN_TYPES → EXCHANGE_KNOWN_COLUMN_TYPES)
    (env : Collaborators) (record : libesedb_record_t) (value_iterator : Int)
    (column_name_size : Nat) (column_name : List Char) (column_type : LIBESEDB_COLUMN_TYPES)
    (value : libesedb_value) (value_data : List uint8_t) (filetime_string : List Char)
    (written : FILE) (error : List liberror_error)
    (hsize : record.get_utf8_column_name_size value_iterator = some column_name_size)
    (hfit : column_name_size ≤ 256)
    (hname : record.get_utf8_column_name value_iterator column_name_size = some column_name)
    (htype : record.get_column_type value_iterator = some column_type)
    (haccepted : column_type = LIBESEDB_COLUMN_TYPE_BINARY_DATA
      ∨ column_type = LIBESEDB_COLUMN_TYPE_CURRENCY)
    (hknown : known_column_type column_name column_name_size column_type
      = EXCHANGE_KNOWN_COLUMN_TYPE_FILETIME)
    (hvalue : record.get_value value_iterator = some value)
    (hflags : value.value_flags = 0)
    (hdata : value.value_data = some value_data)
    (h8 : value.value_data_size = 8)
    (hinit : env.libfdatetime_filetime_initialize_result = true)
    (hcopy : env.libfdatetime_filetime_copy_from_byte_stream value_data 8
      BYTE_STREAM_ENDIAN_LITTLE = true)
    (hstring : env.libfdatetime_filetime_copy_to_utf8_string value_data
      BYTE_STREAM_ENDIAN_LITTLE = some filetime_string)
    (hfree : env.libfdatetime_filetime_free = true) :
    exchange_export_record_value known_column_type env record value_iterator (some written)
        error
      = Outcome.mk 1 (some (written ++ filetime_string)) error := by
  have hbig : ¬ column_name_size > 256 := by omega
  have hz : and_not value.value_flags env.LIBESEDB_VALUE_FLAG_VARIABLE_SIZE = 0 := by
    rw [hflags]; exact and_not_zero _
  have hcopy' : env.libfdatetime_filetime_copy_from_byte_stream value_data
      value.value_data_size BYTE_STREAM_ENDIAN_LITTLE = true := by
    rw [h8]; exact hcopy
  rcases haccepted with rfl | rfl <;>
    simp [exchange_export_record_value, hsize, hbig, hname, htype, hknown,
      exchange_export_record_dispatch, exchange_export_record_value_filetime, hvalue, hz, hdata,
      h8, hinit, hcopy, hcopy', hstring, hfree, fprintf_some]

/-- `value_flags & ~( mask )` is 0 exactly when every bit of the flags is a bit
of the mask. -/
theorem and_not_eq_zero_iff (value_flags mask : Nat) :
    and_not value_flags mask = 0
      ↔ ∀ i : Nat, value_flags.testBit i = true → mask.testBit i = true := by
  constructor
  · intro h i hset
    by_contra hout
    have hout' : mask.testBit i = false := by simpa using hout
    exact and_not_ne_zero value_flags mask i hset hout' h
  · intro h
    apply Nat.eq_of_testBit_eq
    intro i
    have hi := h i
    simp only [and_not, Nat.testBit_xor, Nat.testBit_and, Nat.zero_testBit]
    cases hf : value_flags.testBit i with
    | false => simp
    | true => simp [hi hf]

/-- Toggling the bits of the mask does not change `value_flags & ~( mask )`. -/
theorem and_not_xor (value_flags mask : Nat) :
    and_not (value_flags ^^^ mask) mask = and_not value_flags mask := by
  apply Nat.eq_of_testBit_eq
  intro i
  simp only [and_not, Nat.testBit_xor, Nat.testBit_and]
  cases value_flags.testBit i <;> cases mask.testBit i <;> rfl

/-- The 32-bit exporter looks at the value flags only through the test
`( value_flags & ~( LIBESEDB_VALUE_FLAG_VARIABLE_SIZE ) ) == 0`. -/
theorem exchange_export_record_value_32bit_flags (env : Collaborators)
    (record : libesedb_record_t) (record_value_entry : Int) (byte_order : BYTE_STREAM_ENDIAN)
    (table_file_stream : Option FILE) (error : List liberror_error) (value_flags : Nat → Nat)
    (hflags : ∀ value, record.get_value record_value_entry = some value →
      (and_not (value_flags value.value_flags) env.LIBESEDB_VALUE_FLAG_VARIABLE_SIZE = 0
        ↔ and_not value.value_flags env.LIBESEDB_VALUE_FLAG_VARIABLE_SIZE = 0)) :
    exchange_export_record_value_32bit env (some (with_value_flags record value_flags))
        record_value_entry byte_order table_file_stream error
      = exchange_export_record_value_32bit env (some record) record_value_entry byte_order
          table_file_stream error := by
  cases htype : record.get_column_type record_value_entry with
  | none => simp [exchange_export_record_value_32bit, with_value_flags, htype]
  | some column_type =>
    cases hvalue : record.get_value record_value_entry with
    | none => simp [exchange_export_record_value_32bit, with_value_flags, htype, hvalue]
    | some value =>
      have h := hflags value hvalue
      by_cases hz : and_not value.value_flags env.LIBESEDB_VALUE_FLAG_VARIABLE_SIZE = 0
      · simp [exchange_export_record_value_32bit, with_value_flags, htype, hvalue, hz, h.2 hz]
      · have hz' : ¬ and_not (value_flags value.value_flags)
            env.LIBESEDB_VALUE_FLAG_VARIABLE_SIZE = 0 := fun h' => hz (h.1 h')
        simp [exchange_export_record_value_32bit, with_value_flags, htype, hvalue, hz, hz']

/-- The 64-bit exporter looks at the value flags only through the flag test. -/
theorem exchange_export_record_value_64bit_flags (env : Collaborators)
    (record : libesedb_record_t) (record_value_entry : Int) (byte_order : BYTE_STREAM_ENDIAN)
    (table_file_stream : Option FILE) (error : List liberror_error) (value_flags : Nat → Nat)
    (hflags : ∀ value, record.get_value record_value_entry = some value →
      (and_not (value_flags value.value_flags) env.LIBESEDB_VALUE_FLAG_VARIABLE_SIZE = 0
        ↔ and_not value.value_flags env.LIBESEDB_VALUE_FLAG_VARIABLE_SIZE = 0)) :
    exchange_export_record_value_64bit env (some (with_value_flags record value_flags))
        record_value_entry byte_order table_file_stream error
      = exchange_export_record_value_64bit env (some record) record_value_entry byte_order
          table_file_stream error := by
  cases htype : record.get_column_type record_value_entry with
  | none => simp [exchange_export_record_value_64bit, with_value_flags, htype]
  | some column_type =>
    cases hvalue : record.get_value record_value_entry with
    | none => simp [exchange_export_record_value_64bit, with_value_flags, htype, hvalue]
    | some value =>
      have h := hflags value hvalue
      by_cases hz : and_not value.value_flags env.LIBESEDB_VALUE_FLAG_VARIABLE_SIZE = 0
      · simp [exchange_export_record_value_64bit, with_value_flags, htype, hvalue, hz, h.2 hz]
      · have hz' : ¬ and_not (value_flags value.value_flags)
            env.LIBESEDB_VALUE_FLAG_VARIABLE_SIZE = 0 := fun h' => hz (h.1 h')
        simp [exchange_export_record_value_64bit, with_value_flags, htype, hvalue, hz, hz']

/-- The FileTime exporter looks at the value flags only through the flag test. -/
theorem exchange_export_record_value_filetime_flags (env : Collaborators)
    (record : libesedb_record_t) (record_value_entry : Int) (byte_order : BYTE_STREAM_ENDIAN)
    (table_file_stream : Option FILE) (error : List liberror_error) (value_flags : Nat → Nat)
    (hflags : ∀ value, record.get_value record_value_entry = some value →
      (and_not (value_flags value.value_flags) env.LIBESEDB_VALUE_FLAG_VARIABLE_SIZE = 0
        ↔ and_not value.value_flags env.LIBESEDB_VALUE_FLAG_VARIABLE_SIZE = 0)) :
    exchange_export_record_value_filetime env (some (with_value_flags record value_flags))
        record_value_entry byte_order table_file_stream error
      = exchange_export_record_value_filetime env (some record) record_value_entry byte_order
          table_file_stream error := by
  cases htype : record.get_column_type record_value_entry with
  | none => simp [exchange_export_record_value_filetime, with_value_flags, htype]
  | some column_type =>
    cases hvalue : record.get_value record_value_entry with
    | none => simp [exchange_export_record_value_filetime, with_value_flags, htype, hvalue]
    | some value =>
      have h := hflags value hvalue
      by_cases hz : and_not value.value_flags env.LIBESEDB_VALUE_FLAG_VARIABLE_SIZE = 0
      · simp [exchange_export_record_value_filetime, with_value_flags, htype, hvalue, hz,
          h.2 hz]
      · have hz' : ¬ and_not (value_flags value.value_flags)
            env.LIBESEDB_VALUE_FLAG_VARIABLE_SIZE = 0 := fun h' => hz (h.1 h')
        simp [exchange_export_record_value_filetime, with_value_flags, htype, hvalue, hz, hz']

/-- The GUID exporter looks at the value flags only through the flag test. -/
theorem exchange_export_record_value_guid_flags (env : Collaborators)
    (record : libesedb_record_t) (record_value_entry : Int) (byte_order : BYTE_STREAM_ENDIAN)
    (table_file_stream : Option FILE) (error : List liberror_error) (value_flags : Nat → Nat)
    (hflags : ∀ value, record.get_value record_value_entry = some value →
      (and_not (value_flags value.value_flags) env.LIBESEDB_VALUE_FLAG_VARIABLE_SIZE = 0
        ↔ and_not value.value_flags env.LIBESEDB_VALUE_FLAG_VARIABLE_SIZE = 0)) :
    exchange_export_record_value_guid env (some (with_value_flags record value_flags))
        record_value_entry byte_order table_file_stream error
      = exchange_export_record_value_guid env (some record) record_value_entry byte_order
          table_file_stream error := by
  cases htype : record.get_column_type record_value_entry with
  | none => simp [exchange_export_record_value_guid, with_value_flags, htype]
  | some column_type =>
    cases hvalue : record.get_value record_value_entry with
    | none => simp [exchange_export_record_value_guid, with_value_flags, htype, hvalue]
    | some value =>
      have h := hflags value hvalue
      by_cases hz : and_not value.value_flags env.LIBESEDB_VALUE_FLAG_VARIABLE_SIZE = 0
      · simp [exchange_export_record_value_guid, with_value_flags, htype, hvalue, hz, h.2 hz]
      · have hz' : ¬ and_not (value_flags value.value_flags)
            env.LIBESEDB_VALUE_FLAG_VARIABLE_SIZE = 0 := fun h' => hz (h.1 h')
        simp [exchange_export_record_value_guid, with_value_flags, htype, hvalue, hz, hz']

/-- The SID exporter looks at the value flags only through the flag test. -/
theorem exchange_export_record_value_sid_flags (env : Collaborators)
    (record : libesedb_record_t) (record_value_entry : Int)
    (table_file_stream : Option FILE) (error : List liberror_error) (value_flags : Nat → Nat)
    (hflags : ∀ value, record.get_value record_value_entry = some value →
      (and_not (value_flags value.value_flags) env.LIBESEDB_VALUE_FLAG_VARIABLE_SIZE = 0
        ↔ and_not value.value_flags env.LIBESEDB_VALUE_FLAG_VARIABLE_SIZE = 0)) :
    exchange_export_record_value_sid env (some (with_value_flags record value_flags))
        record_value_entry table_file_stream error
      = exchange_export_record_value_sid env (some record) record_value_entry
          table_file_stream error := by
  cases htype : record.get_column_type record_value_entry with
  | none => simp [exchange_export_record_value_sid, with_value_flags, htype]
  | some column_type =>
    cases hvalue : record.get_value record_value_entry with
    | none => simp [exchange_export_record_value_sid, with_value_flags, htype, hvalue]
    | some value =>
      have h := hflags value hvalue
      by_cases hz : and_not value.value_flags env.LIBESEDB_VALUE_FLAG_VARIABLE_SIZE = 0
      · simp [exchange_export_record_value_sid, with_value_flags, htype, hvalue, hz, h.2 hz]
      · have hz' : ¬ and_not (value_flags value.value_flags)
            env.LIBESEDB_VALUE_FLAG_VARIABLE_SIZE = 0 := fun h' => hz (h.1 h')
        simp [exchange_export_record_value_sid, with_value_flags, htype, hvalue, hz, hz']

/-- The dump of a byte followed by more bytes. -/
theorem hex_dump_cons (byte : uint8_t) (value_data : List uint8_t) :
    hex_dump (byte :: value_data)
      = Nat.digitChar (byte.val / 16) :: Nat.digitChar (byte.val % 16) :: hex_dump value_data := by
  simp [hex_dump, format_02x]

/-- The state of the dump loop after `k` iterations. -/
theorem while_fprintf_02x_iterate (k : Nat) :
    ∀ (value_data_size : Nat) (value_data : List uint8_t) (written : FILE),
      k ≤ value_data.length →
      Nat.iterate while_fprintf_02x_iteration k (value_data_size, value_data, some written)
        = (value_data_size - k, value_data.drop k,
            some (written ++ hex_dump (value_data.take k))) := by
  induction k with
  | zero =>
    intro value_data_size value_data written _
    simp [hex_dump]
  | succ k ih =>
    intro value_data_size value_data written hk
    cases value_data with
    | nil => simp at hk
    | cons byte rest =>
      have hk' : k ≤ rest.length := by simpa using hk
      rw [Function.iterate_succ_apply]
      simp only [while_fprintf_02x_iteration, fprintf_some]
      rw [ih (value_data_size - 1) rest (written ++ format_02x byte) hk']
      simp [hex_dump, Nat.sub_sub, Nat.add_comm]

/-- The characters of the dump at the two positions of a byte. -/
theorem hex_dump_getElem (value_data : List uint8_t) :
    ∀ (i : Nat) (byte : uint8_t), value_data[i]? = some byte →
      (hex_dump value_data)[2 * i]? = some (Nat.digitChar (byte.val / 16))
      ∧ (hex_dump value_data)[2 * i + 1]? = some (Nat.digitChar (byte.val % 16)) := by
  induction value_data with
  | nil => intro i byte h; simp at h
  | cons b rest ih =>
    intro i byte h
    rw [hex_dump_cons]
    cases i with
    | zero =>
      simp at h
      subst h
      simp
    | succ i =>
      have h' : rest[i]? = some byte := by simpa using h
      have e : 2 * (i + 1) = 2 * i + 1 + 1 := by omega
      rw [e]
      simpa using ih i byte h'

/-- Reading the dump pairwise gives the bytes back. -/
theorem hex_parse_hex_dump (value_data : List uint8_t) :
    hex_parse (hex_dump value_data) = value_data.map (fun byte => byte.val) := by
  induction value_data with
  | nil => simp [hex_dump, hex_parse]
  | cons b rest ih =>
    have hb := b.isLt
    rw [hex_dump_cons]
    simp only [hex_parse, ih, List.map_cons]
    rw [digit_value_digitChar _ (by omega), digit_value_digitChar _ (Nat.mod_lt _ (by decide))]
    congr 1
    omega

/-- A property that follows from each branch of an `if` having a given value
follows from the `if` having that value. -/
theorem ite_eq_imp {α : Type} {c : Prop} [Decidable c] {a b x : α} {P : Prop}
    (ha : c → a = x → P) (hb : ¬ c → b = x → P) : (if c then a else b) = x → P := by
  by_cases h : c
  · rw [if_pos h]; exact ha h
  · rw [if_neg h]; exact hb h

/-- A kind other than Undefined is assigned by the Folders block only to a
name size of 2 to 6; SecurityIdentifier only at size 5, GUID only at size 6. -/
theorem folders_known_column_type_sizes (column_name : List Char) (column_name_size : Nat)
    (column_type : LIBESEDB_COLUMN_TYPES) :
    (exchange_export_record_folders_known_column_type column_name column_name_size column_type
        ≠ EXCHANGE_KNOWN_COLUMN_TYPE_UNDEFINED → 1 < column_name_size ∧ column_name_size ≤ 6)
    ∧ (exchange_export_record_folders_known_column_type column_name column_name_size
        column_type = EXCHANGE_KNOWN_COLUMN_TYPE_SID → column_name_size = 5)
    ∧ (exchange_export_record_folders_known_column_type column_name column_name_size
        column_type = EXCHANGE_KNOWN_COLUMN_TYPE_GUID → column_name_size = 6) := by
  refine ⟨?_, ?_, ?_⟩
  · intro h
    by_contra hgate
    have hgate' : ¬ (column_name_size > 1 ∧ column_name_size ≤ 6) := hgate
    apply h
    simp [exchange_export_record_folders_known_column_type, hgate']
  · unfold exchange_export_record_folders_known_column_type
    repeat' (first | refine ite_eq_imp ?_ ?_ | intro _)
    all_goals first | assumption | contradiction
  · unfold exchange_export_record_folders_known_column_type
    repeat' (first | refine ite_eq_imp ?_ ?_ | intro _)
    all_goals first | assumption | contradiction

/-- A kind other than Undefined is assigned by the Mailbox block only to a
name size of 2 to 6; SecurityIdentifier and GUID only at size 6. -/
theorem mailbox_known_column_type_sizes (column_name : List Char) (column_name_size : Nat)
    (column_type : LIBESEDB_COLUMN_TYPES) :
    (exchange_export_record_mailbox_known_column_type column_name column_name_size column_type
        ≠ EXCHANGE_KNOWN_COLUMN_TYPE_UNDEFINED → 1 < column_name_size ∧ column_name_size ≤ 6)
    ∧ (exchange_export_record_mailbox_known_column_type column_name column_name_size
        column_type = EXCHANGE_KNOWN_COLUMN_TYPE_SID → column_name_size = 6)
    ∧ (exchange_export_record_mailbox_known_column_type column_name column_name_size
        column_type = EXCHANGE_KNOWN_COLUMN_TYPE_GUID → column_name_size = 6) := by
  refine ⟨?_, ?_, ?_⟩
  · intro h
    by_contra hgate
    have hgate' : ¬ (column_name_size > 1 ∧ column_name_size ≤ 6) := hgate
    apply h
    simp [exchange_export_record_mailbox_known_column_type, hgate']
  · unfold exchange_export_record_mailbox_known_column_type
    repeat' (first | refine ite_eq_imp ?_ ?_ | intro _)
    all_goals first | assumption | contradiction
  · unfold exchange_export_record_mailbox_known_column_type
    repeat' (first | refine ite_eq_imp ?_ ?_ | intro _)
    all_goals first | assumption | contradiction

/-- On a column that is neither binary data nor large binary data the two
classification blocks are the same text. -/
theorem known_column_type_eq_of_not_binary (column_name : List Char) (column_name_size : Nat)
    (column_type : LIBESEDB_COLUMN_TYPES)
    (hb : column_type ≠ LIBESEDB_COLUMN_TYPE_BINARY_DATA)
    (hl : column_type ≠ LIBESEDB_COLUMN_TYPE_LARGE_BINARY_DATA) :
    exchange_export_record_folders_known_column_type column_name column_name_size column_type
      = exchange_export_record_mailbox_known_column_type column_name column_name_size
          column_type := by
  unfold exchange_export_record_folders_known_column_type
    exchange_export_record_mailbox_known_column_type
  have hbl : ¬ (column_type = LIBESEDB_COLUMN_TYPE_BINARY_DATA
      ∨ column_type = LIBESEDB_COLUMN_TYPE_LARGE_BINARY_DATA) := by
    intro h; rcases h with h | h
    · exact hb h
    · exact hl h
  rw [if_neg hbl, if_neg hbl]

/-- On a binary data or large binary data column whose name is stored with its
end-of-string character, the two classification blocks differ only on the six
tokens. -/
theorem known_column_type_ne_of_name (name : List Char) (column_type : LIBESEDB_COLUMN_TYPES)
    (htype : column_type = LIBESEDB_COLUMN_TYPE_BINARY_DATA
      ∨ column_type = LIBESEDB_COLUMN_TYPE_LARGE_BINARY_DATA)
    (hne : exchange_export_record_folders_known_column_type (utf8_column_name name)
        (utf8_column_name_size name) column_type
      ≠ exchange_export_record_mailbox_known_column_type (utf8_column_name name)
        (utf8_column_name_size name) column_type) :
    name = ['N', 'e', '5', '8'] ∨ name = ['N', 'e', '5', '9'] ∨ name = ['N', '3', '8', '8', '0']
      ∨ name = ['N', '6', '6', 'a', '0'] ∨ name = ['N', '6', '7', '6', 'a']
      ∨ name = ['N', '6', '7', '6', 'c'] := by
  rw [folders_known_column_type_of_name name column_type htype,
    mailbox_known_column_type_of_name name column_type htype] at hne
  by_contra hnot
  simp only [not_or] at hnot
  obtain ⟨h1, h2, h3, h4, h5, h6⟩ := hnot
  apply hne
  simp only [h1, h2, h3, h4, h5, h6, or_self, if_false]

/-- A call that returns 1, or returns -1 and leaves the stream, is atomic. -/
theorem atomic_of (call : Option FILE → List liberror_error → Outcome)
    (h : ∀ (table_file_stream : Option FILE) (error : List liberror_error),
      (call table_file_stream error).result = 1
      ∨ ((call table_file_stream error).result = -1
        ∧ (call table_file_stream error).table_file_stream = table_file_stream)) :
    atomic call := by
  intro table_file_stream error
  rcases h table_file_stream error with h1 | ⟨h1, h2⟩
  · refine ⟨Or.inl h1, ?_, fun _ => h1⟩
    intro hneg
    rw [h1] at hneg
    exact absurd hneg (by decide)
  · exact ⟨Or.inr h1, fun _ => h2, fun hne => absurd h2 hne⟩

/-! ## The claims C21 to C29 -/

/-- C21: for a value with no flag set and 4 present bytes b0..b3 in a binary
data column, the 32-bit exporter returns 1 and appends the decimal digits of
b0 + b1*256 + b2*256^2 + b3*256^3 in little-endian byte order and of
b0*256^3 + b1*256^2 + b2*256 + b3 in big-endian byte order, a number below
2^32; the digits are among 0..9 (no sign), denote that number and have no
leading zero ("0" for zero), also when the most significant byte is 128 or
more. -/
theorem C21_integer_32bit_decimal (env : Collaborators) (record : libesedb_record_t)
    (record_value_entry : Int) (written : FILE) (error : List liberror_error)
    (value : libesedb_value) (b0 b1 b2 b3 : uint8_t)
    (htype : record.get_column_type record_value_entry = some LIBESEDB_COLUMN_TYPE_BINARY_DATA)
    (hvalue : record.get_value record_value_entry = some value)
    (hflags : value.value_flags = 0)
    (hdata : value.value_data = some [b0, b1, b2, b3])
    (hsize : value.value_data_size = 4) :
    exchange_export_record_value_32bit env (some record) record_value_entry
        BYTE_STREAM_ENDIAN_LITTLE (some written) error
      = Outcome.mk 1
          (some (written ++ Nat.toDigits 10
            (b0.val + b1.val * 256 + b2.val * 256 ^ 2 + b3.val * 256 ^ 3)))
          error
    ∧ exchange_export_record_value_32bit env (some record) record_value_entry
        BYTE_STREAM_ENDIAN_BIG (some written) error
      = Outcome.mk 1
          (some (written ++ Nat.toDigits 10
            (b0.val * 256 ^ 3 + b1.val * 256 ^ 2 + b2.val * 256 + b3.val)))
          error
    ∧ b0.val + b1.val * 256 + b2.val * 256 ^ 2 + b3.val * 256 ^ 3 < 2 ^ 32
    ∧ b0.val * 256 ^ 3 + b1.val * 256 ^ 2 + b2.val * 256 + b3.val < 2 ^ 32
    ∧ (∀ n : Nat, digits_value 10 (Nat.toDigits 10 n) = n
        ∧ (∀ c ∈ Nat.toDigits 10 n, c ∈ "0123456789".toList)
        ∧ '-' ∉ Nat.toDigits 10 n
        ∧ (n ≠ 0 → (Nat.toDigits 10 n).head? ≠ some '0')
        ∧ (n = 0 → Nat.toDigits 10 n = "0".toList)) := by
  have hz : and_not value.value_flags env.LIBESEDB_VALUE_FLAG_VARIABLE_SIZE = 0 := by
    rw [hflags]; exact and_not_zero _
  have hnumber := exchange_export_record_value_32bit_number env record record_value_entry
    written error value b0 b1 b2 b3 htype hvalue hz hdata hsize
  have hrev := uint32_of_bytes_lt b3 b2 b1 b0
  refine ⟨hnumber.1, hnumber.2, uint32_of_bytes_lt b0 b1 b2 b3, ?_, ?_⟩
  · have e : b0.val * 256 ^ 3 + b1.val * 256 ^ 2 + b2.val * 256 + b3.val
        = b3.val + b2.val * 256 + b1.val * 256 ^ 2 + b0.val * 256 ^ 3 := by ring
    rw [e]; exact hrev
  · intro n
    obtain ⟨h1, _, h3, h4, _⟩ := toDigits_spec 10 (by decide) (by decide) n
    refine ⟨h1, toDigits_decimal_mem n, ?_, h3, h4⟩
    intro hmem
    have := toDigits_decimal_mem n _ hmem
    revert this
    decide

/-- C21, at a concrete input: the bytes 00 00 00 80 of a binary data column are
written as 2147483648 in little-endian byte order. -/
theorem C21_integer_32bit_decimal_witness :
    exchange_export_record_value_32bit example_collaborators
        (some (uniform_record 1 "Lx".toList LIBESEDB_COLUMN_TYPE_BINARY_DATA
          (libesedb_value.mk (some [0, 0, 0, 128]) 4 0)))
        0 BYTE_STREAM_ENDIAN_LITTLE (some []) []
      = Outcome.mk 1 (some "2147483648".toList) [] :=
  (C21_integer_32bit_decimal example_collaborators
    (uniform_record 1 "Lx".toList LIBESEDB_COLUMN_TYPE_BINARY_DATA
      (libesedb_value.mk (some [0, 0, 0, 128]) 4 0))
    0 [] [] (libesedb_value.mk (some [0, 0, 0, 128]) 4 0) 0 0 0 128
    rfl rfl rfl rfl rfl).1

/-- C22: the exporter that either record exporter calls for a position is
fixed by the column name, its size and the column type alone.  For a name
size of at most 256, the kind that the classification block of the Folders
exporter (and likewise of the Mailbox exporter) assigns to (name, size, type)
names one exporter (the generic exporter for Undefined, the 32-bit, 64-bit,
FileTime and GUID exporters in little-endian byte order, the SID and the
string exporter), and every position of every record whose lookups answer that
name size, name and column type is exported by the loop body with exactly that
exporter, whatever the value, its flags and size, the position and the rest of
the record are. -/
theorem C22_exporter_fixed_by_name_and_type (env : Collaborators)
    (column_name_size : Nat) (column_name : List Char) (column_type : LIBESEDB_COLUMN_TYPES)
    (hfit : column_name_size ≤ 256) :
    ((exchange_export_record_folders_known_column_type column_name column_name_size column_type
          = EXCHANGE_KNOWN_COLUMN_TYPE_UNDEFINED →
        exported_with exchange_export_record_folders_known_column_type env column_name_size
          column_name column_type
          (fun record value_iterator table_file_stream error =>
            Outcome.mk (env.export_handle_export_record_value record value_iterator).1
              (fprintf table_file_stream
                (env.export_handle_export_record_value record value_iterator).2) error))
      ∧ (exchange_export_record_folders_known_column_type column_name column_name_size
          column_type = EXCHANGE_KNOWN_COLUMN_TYPE_INTEGER_32BIT →
        exported_with exchange_export_record_folders_known_column_type env column_name_size
          column_name column_type
          (fun record value_iterator =>
            exchange_export_record_value_32bit env (some record) value_iterator
              BYTE_STREAM_ENDIAN_LITTLE))
      ∧ (exchange_export_record_folders_known_column_type column_name column_name_size
          column_type = EXCHANGE_KNOWN_COLUMN_TYPE_INTEGER_64BIT →
        exported_with exchange_export_record_folders_known_column_type env column_name_size
          column_name column_type
          (fun record value_iterator =>
            exchange_export_record_value_64bit env (some record) value_iterator
              BYTE_STREAM_ENDIAN_LITTLE))
      ∧ (exchange_export_record_folders_known_column_type column_name column_name_size
          column_type = EXCHANGE_KNOWN_COLUMN_TYPE_FILETIME →
        exported_with exchange_export_record_folders_known_column_type env column_name_size
          column_name column_type
          (fun record value_iterator =>
            exchange_export_record_value_filetime env (some record) value_iterator
              BYTE_STREAM_ENDIAN_LITTLE))
      ∧ (exchange_export_record_folders_known_column_type column_name column_name_size
          column_type = EXCHANGE_KNOWN_COLUMN_TYPE_GUID →
        exported_with exchange_export_record_folders_known_column_type env column_name_size
          column_name column_type
          (fun record value_iterator =>
            exchange_export_record_value_guid env (some record) value_iterator
              BYTE_STREAM_ENDIAN_LITTLE))
      ∧ (exchange_export_record_folders_known_column_type column_name column_name_size
          column_type = EXCHANGE_KNOWN_COLUMN_TYPE_SID →
        exported_with exchange_export_record_folders_known_column_type env column_name_size
          column_name column_type
          (fun record value_iterator =>
            exchange_export_record_value_sid env (some record) value_iterator))
      ∧ (exchange_export_record_folders_known_column_type column_name column_name_size
          column_type = EXCHANGE_KNOWN_COLUMN_TYPE_STRING →
        exported_with exchange_export_record_folders_known_column_type env column_name_size
          column_name column_type
          (fun record value_iterator =>
            exchange_export_record_value_string (some record) value_iterator)))
    ∧ ((exchange_export_record_mailbox_known_column_type column_name column_name_size
          column_type = EXCHANGE_KNOWN_COLUMN_TYPE_UNDEFINED →
        exported_with exchange_export_record_mailbox_known_column_type env column_name_size
          column_name column_type
          (fun record value_iterator table_file_stream error =>
            Outcome.mk (env.export_handle_export_record_value record value_iterator).1
              (fprintf table_file_stream
                (env.export_handle_export_record_value record value_iterator).2) error))
      ∧ (exchange_export_record_mailbox_known_column_type column_name column_name_size
          column_type = EXCHANGE_KNOWN_COLUMN_TYPE_INTEGER_32BIT →
        exported_with exchange_export_record_mailbox_known_column_type env column_name_size
          column_name column_type
          (fun record value_iterator =>
            exchange_export_record_value_32bit env (some record) value_iterator
              BYTE_STREAM_ENDIAN_LITTLE))
      ∧ (exchange_export_record_mailbox_known_column_type column_name column_name_size
          column_type = EXCHANGE_KNOWN_COLUMN_TYPE_INTEGER_64BIT →
        exported_with exchange_export_record_mailbox_known_column_type env column_name_size
          column_name column_type
          (fun record value_iterator =>
            exchange_export_record_value_64bit env (some record) value_iterator
              BYTE_STREAM_ENDIAN_LITTLE))
      ∧ (exchange_export_record_mailbox_known_column_type column_name column_name_size
          column_type = EXCHANGE_KNOWN_COLUMN_TYPE_FILETIME →
        exported_with exchange_export_record_mailbox_known_column_type env column_name_size
          column_name column_type
          (fun record value_iterator =>
            exchange_export_record_value_filetime env (some record) value_iterator
              BYTE_STREAM_ENDIAN_LITTLE))
      ∧ (exchange_export_record_mailbox_known_column_type column_name column_name_size
          column_type = EXCHANGE_KNOWN_COLUMN_TYPE_GUID →
        exported_with exchange_export_record_mailbox_known_column_type env column_name_size
          column_name column_type
          (fun record value_iterator =>
            exchange_export_record_value_guid env (some record) value_iterator
              BYTE_STREAM_ENDIAN_LITTLE))
      ∧ (exchange_export_record_mailbox_known_column_type column_name column_name_size
          column_type = EXCHANGE_KNOWN_COLUMN_TYPE_SID →
        exported_with exchange_export_record_mailbox_known_column_type env column_name_size
          column_name column_type
          (fun record value_iterator =>
            exchange_export_record_value_sid env (some record) value_iterator))
      ∧ (exchange_export_record_mailbox_known_column_type column_name column_name_size
          column_type = EXCHANGE_KNOWN_COLUMN_TYPE_STRING →
        exported_with exchange_export_record_mailbox_known_column_type env column_name_size
          column_name column_type
          (fun record value_iterator =>
            exchange_export_record_value_string (some record) value_iterator))) := by
  have hbig : ¬ column_name_size > 256 := by omega
  refine ⟨⟨?_, ?_, ?_, ?_, ?_, ?_, ?_⟩, ⟨?_, ?_, ?_, ?_, ?_, ?_, ?_⟩⟩ <;>
    (intro hkind record value_iterator table_file_stream error hsize hname htype
     simp only [exchange_export_record_value, hsize, hbig, hname, htype, hkind, if_false,
       exchange_export_record_dispatch, after_export])

/-- C22, at a concrete input: a binary data column "Qx" is exported by the
64-bit exporter whatever its value is: at position 1 of a record where it
holds 3 bytes with flag bit 1 set the bytes are dumped by that exporter, and
at position 0 of a record where it holds 8 bytes without flags the number is
written. -/
theorem C22_exporter_fixed_by_name_and_type_witness :
    exchange_export_record_value exchange_export_record_folders_known_column_type
        example_collaborators
        (record_of_columns
          [("Sx".toList, LIBESEDB_COLUMN_TYPE_BINARY_DATA, libesedb_value.mk (some [65]) 1 0),
           ("Qx".toList, LIBESEDB_COLUMN_TYPE_BINARY_DATA,
              libesedb_value.mk (some [0xab, 0x01, 0xff]) 3 2)])
        1 (some []) []
      = Outcome.mk 1 (some "ab01ff".toList) []
    ∧ exchange_export_record_value exchange_export_record_folders_known_column_type
        example_collaborators
        (uniform_record 1 "Qx".toList LIBESEDB_COLUMN_TYPE_BINARY_DATA
          (libesedb_value.mk (some [1, 0, 0, 0, 0, 0, 0, 0]) 8 0))
        0 (some []) []
      = Outcome.mk 1 (some "0x1".toList) [] :=
  ⟨((C22_exporter_fixed_by_name_and_type example_collaborators
      (utf8_column_name_size "Qx".toList) (utf8_column_name "Qx".toList)
      LIBESEDB_COLUMN_TYPE_BINARY_DATA (by decide)).1.2.2.1
      (by decide) _ 1 (some []) [] rfl rfl rfl).trans (by decide),
   ((C22_exporter_fixed_by_name_and_type example_collaborators
      (utf8_column_name_size "Qx".toList) (utf8_column_name "Qx".toList)
      LIBESEDB_COLUMN_TYPE_BINARY_DATA (by decide)).1.2.2.1
      (by decide) _ 0 (some []) [] rfl rfl rfl).trans (by decide)⟩

/-- C23: a binary data column named "Ttag" is classified FileTime by both
schemas.  With a value that has no flag set and 8 present bytes the size test
passes, and when the FILETIME codec succeeds both record exporters write for
the position exactly the string the codec renders from the 8 bytes in
little-endian byte order.  The ctime style date-time string of 8 bytes takes at
most 24 characters with its end-of-string character; for the 8 zero bytes it
is "Jan 01, 1601 00:00:00" and for the FILETIME of 1 January 1970 it is
"Jan 01, 1970 00:00:00". -/
theorem C23_ttag_filetime (env : Collaborators) (record : libesedb_record_t)
    (value_iterator : Int) (value : libesedb_value) (b0 b1 b2 b3 b4 b5 b6 b7 : uint8_t)
    (written : FILE) (error : List liberror_error)
    (hsize : record.get_utf8_column_name_size value_iterator
      = some (utf8_column_name_size "Ttag".toList))
    (hname : record.get_utf8_column_name value_iterator (utf8_column_name_size "Ttag".toList)
      = some (utf8_column_name "Ttag".toList))
    (htype : record.get_column_type value_iterator = some LIBESEDB_COLUMN_TYPE_BINARY_DATA)
    (hvalue : record.get_value value_iterator = some value)
    (hflags : value.value_flags = 0)
    (hdata : value.value_data = some [b0, b1, b2, b3, b4, b5, b6, b7])
    (h8 : value.value_data_size = 8) :
    exchange_export_record_folders_known_column_type (utf8_column_name "Ttag".toList)
        (utf8_column_name_size "Ttag".toList) LIBESEDB_COLUMN_TYPE_BINARY_DATA
      = EXCHANGE_KNOWN_COLUMN_TYPE_FILETIME
    ∧ exchange_export_record_mailbox_known_column_type (utf8_column_name "Ttag".toList)
        (utf8_column_name_size "Ttag".toList) LIBESEDB_COLUMN_TYPE_BINARY_DATA
      = EXCHANGE_KNOWN_COLUMN_TYPE_FILETIME
    ∧ (∀ filetime_string : List Char,
        env.libfdatetime_filetime_initialize_result = true →
        env.libfdatetime_filetime_copy_from_byte_stream [b0, b1, b2, b3, b4, b5, b6, b7] 8
          BYTE_STREAM_ENDIAN_LITTLE = true →
        env.libfdatetime_filetime_copy_to_utf8_string [b0, b1, b2, b3, b4, b5, b6, b7]
          BYTE_STREAM_ENDIAN_LITTLE = some filetime_string →
        env.libfdatetime_filetime_free = true →
        exchange_export_record_value exchange_export_record_folders_known_column_type env
            record value_iterator (some written) error
          = Outcome.mk 1 (some (written ++ filetime_string)) error
        ∧ exchange_export_record_value exchange_export_record_mailbox_known_column_type env
            record value_iterator (some written) error
          = Outcome.mk 1 (some (written ++ filetime_string)) error
        ∧ field_text exchange_export_record_folders_known_column_type env record
            value_iterator = filetime_string
        ∧ field_text exchange_export_record_mailbox_known_column_type env record
            value_iterator = filetime_string)
    ∧ (libfdatetime_filetime_ctime_string [b0, b1, b2, b3, b4, b5, b6, b7]
        BYTE_STREAM_ENDIAN_LITTLE).length + 1 ≤ 24
    ∧ libfdatetime_filetime_ctime_string [0, 0, 0, 0, 0, 0, 0, 0] BYTE_STREAM_ENDIAN_LITTLE
      = "Jan 01, 1601 00:00:00".toList
    ∧ libfdatetime_filetime_ctime_string [0x00, 0x80, 0x3e, 0xd5, 0xde, 0xb1, 0x9d, 0x01]
        BYTE_STREAM_ENDIAN_LITTLE
      = "Jan 01, 1970 00:00:00".toList := by
  have hf : exchange_export_record_folders_known_column_type (utf8_column_name "Ttag".toList)
      (utf8_column_name_size "Ttag".toList) LIBESEDB_COLUMN_TYPE_BINARY_DATA
      = EXCHANGE_KNOWN_COLUMN_TYPE_FILETIME := by decide
  have hm : exchange_export_record_mailbox_known_column_type (utf8_column_name "Ttag".toList)
      (utf8_column_name_size "Ttag".toList) LIBESEDB_COLUMN_TYPE_BINARY_DATA
      = EXCHANGE_KNOWN_COLUMN_TYPE_FILETIME := by decide
  refine ⟨hf, hm, ?_, libfdatetime_filetime_ctime_string_length b0 b1 b2 b3 b4 b5 b6 b7 _,
    by decide, by decide⟩
  intro filetime_string hinit hcopy hstring hfree
  have hbody := fun (known_column_type : List Char → Nat → LIBESEDB_COLUMN_TYPES →
      EXCHANGE_KNOWN_COLUMN_TYPES)
      (hknown : known_column_type (utf8_column_name "Ttag".toList)
        (utf8_column_name_size "Ttag".toList) LIBESEDB_COLUMN_TYPE_BINARY_DATA
        = EXCHANGE_KNOWN_COLUMN_TYPE_FILETIME) (written : FILE) (error : List liberror_error) =>
    exchange_export_record_value_filetime_column known_column_type env record value_iterator
      (utf8_column_name_size "Ttag".toList) (utf8_column_name "Ttag".toList)
      LIBESEDB_COLUMN_TYPE_BINARY_DATA value [b0, b1, b2, b3, b4, b5, b6, b7] filetime_string
      written error hsize (by decide) hname htype (Or.inl rfl) hknown hvalue hflags hdata h8
      hinit hcopy hstring hfree
  refine ⟨hbody _ hf written error, hbody _ hm written error, ?_, ?_⟩
  · unfold field_text appended_text
    rw [hbody _ hf [] []]
    simp
  · unfold field_text appended_text
    rw [hbody _ hm [] []]
    simp

/-- C23, at a concrete input: the FILETIME of 1 January 1970 in a binary data
column named "Ttag" is written by the Folders loop body as
"Jan 01, 1970 00:00:00" when the codec renders the ctime style string. -/
theorem C23_ttag_filetime_witness :
    exchange_export_record_value exchange_export_record_folders_known_column_type
        example_collaborators_ctime_filetime
        (uniform_record 1 "Ttag".toList LIBESEDB_COLUMN_TYPE_BINARY_DATA
          (libesedb_value.mk (some [0x00, 0x80, 0x3e, 0xd5, 0xde, 0xb1, 0x9d, 0x01]) 8 0))
        0 (some []) []
      = Outcome.mk 1 (some "Jan 01, 1970 00:00:00".toList) [] := by
  have h := (C23_ttag_filetime example_collaborators_ctime_filetime
    (uniform_record 1 "Ttag".toList LIBESEDB_COLUMN_TYPE_BINARY_DATA
      (libesedb_value.mk (some [0x00, 0x80, 0x3e, 0xd5, 0xde, 0xb1, 0x9d, 0x01]) 8 0))
    0 (libesedb_value.mk (some [0x00, 0x80, 0x3e, 0xd5, 0xde, 0xb1, 0x9d, 0x01]) 8 0)
    0x00 0x80 0x3e 0xd5 0xde 0xb1 0x9d 0x01 [] [] rfl rfl rfl rfl rfl rfl rfl)
  rw [(h.2.2.1 _ rfl rfl rfl rfl).1, h.2.2.2.2.2]
  rfl

/-- C24: in the 32-bit, 64-bit, FileTime, GUID and SID exporters the flag test
`( value_flags & ~( LIBESEDB_VALUE_FLAG_VARIABLE_SIZE ) ) == 0` holds exactly
when every bit of the value flags is a bit of the variable-size flag.  When it
holds, each exporter does what it does for the same value without flags (the
typed path: a present value whose size is not the fixed width makes the 32-bit,
64-bit, FileTime and GUID exporters return -1).  When it does not hold, present
data in a column of an accepted type is written as its hexadecimal dump,
whatever its size.  Hence toggling the bits of the variable-size flag changes
nothing (all five exporters return the same and leave the same stream and
error), and 8 bytes whose flags are the variable-size flag alone are written
by the 64-bit exporter as a number after "0x". -/
theorem C24_typed_path_iff_no_other_flag (env : Collaborators) (record : libesedb_record_t)
    (record_value_entry : Int) (byte_order : BYTE_STREAM_ENDIAN)
    (table_file_stream : Option FILE) (written : FILE) (error : List liberror_error)
    (value : libesedb_value)
    (hvalue : record.get_value record_value_entry = some value) :
    (and_not value.value_flags env.LIBESEDB_VALUE_FLAG_VARIABLE_SIZE = 0
      ↔ ∀ i : Nat, value.value_flags.testBit i = true →
          env.LIBESEDB_VALUE_FLAG_VARIABLE_SIZE.testBit i = true)
    ∧ (and_not value.value_flags env.LIBESEDB_VALUE_FLAG_VARIABLE_SIZE = 0 →
      exchange_export_record_value_32bit env (some record) record_value_entry byte_order
          table_file_stream error
        = exchange_export_record_value_32bit env (some (with_value_flags record (fun _ => 0)))
            record_value_entry byte_order table_file_stream error
      ∧ exchange_export_record_value_64bit env (some record) record_value_entry byte_order
          table_file_stream error
        = exchange_export_record_value_64bit env (some (with_value_flags record (fun _ => 0)))
            record_value_entry byte_order table_file_stream error
      ∧ exchange_export_record_value_filetime env (some record) record_value_entry byte_order
          table_file_stream error
        = exchange_export_record_value_filetime env
            (some (with_value_flags record (fun _ => 0))) record_value_entry byte_order
            table_file_stream error
      ∧ exchange_export_record_value_guid env (some record) record_value_entry byte_order
          table_file_stream error
        = exchange_export_record_value_guid env (some (with_value_flags record (fun _ => 0)))
            record_value_entry byte_order table_file_stream error
      ∧ exchange_export_record_value_sid env (some record) record_value_entry
          table_file_stream error
        = exchange_export_record_value_sid env (some (with_value_flags record (fun _ => 0)))
            record_value_entry table_file_stream error
      ∧ (∀ value_data : List uint8_t, value.value_data = some value_data →
          (value.value_data_size ≠ 4 →
            (exchange_export_record_value_32bit env (some record) record_value_entry
              byte_order table_file_stream error).result = -1)
          ∧ (value.value_data_size ≠ 8 →
            (exchange_export_record_value_64bit env (some record) record_value_entry
              byte_order table_file_stream error).result = -1)
          ∧ (value.value_data_size ≠ 8 →
            (exchange_export_record_value_filetime env (some record) record_value_entry
              byte_order table_file_stream error).result = -1)
          ∧ (value.value_data_size ≠ 16 →
            (exchange_export_record_value_guid env (some record) record_value_entry
              byte_order table_file_stream error).result = -1)))
    ∧ (and_not value.value_flags env.LIBESEDB_VALUE_FLAG_VARIABLE_SIZE ≠ 0 →
      ∀ value_data : List uint8_t, value.value_data = some value_data →
        value.value_data_size = value_data.length →
        (byte_order = BYTE_STREAM_ENDIAN_BIG ∨ byte_order = BYTE_STREAM_ENDIAN_LITTLE →
          record.get_column_type record_value_entry = some LIBESEDB_COLUMN_TYPE_BINARY_DATA →
          exchange_export_record_value_32bit env (some record) record_value_entry byte_order
              (some written) error
            = Outcome.mk 1 (some (written ++ hex_dump value_data)) error)
        ∧ (byte_order = BYTE_STREAM_ENDIAN_BIG ∨ byte_order = BYTE_STREAM_ENDIAN_LITTLE →
          record.get_column_type record_value_entry = some LIBESEDB_COLUMN_TYPE_BINARY_DATA
            ∨ record.get_column_type record_value_entry
              = some LIBESEDB_COLUMN_TYPE_CURRENCY →
          exchange_export_record_value_64bit env (some record) record_value_entry byte_order
              (some written) error
            = Outcome.mk 1 (some (written ++ hex_dump value_data)) error)
        ∧ (record.get_column_type record_value_entry = some LIBESEDB_COLUMN_TYPE_BINARY_DATA
            ∨ record.get_column_type record_value_entry
              = some LIBESEDB_COLUMN_TYPE_CURRENCY →
          exchange_export_record_value_filetime env (some record) record_value_entry
              byte_order (some written) error
            = Outcome.mk 1 (some (written ++ hex_dump value_data)) error)
        ∧ (record.get_column_type record_value_entry = some LIBESEDB_COLUMN_TYPE_BINARY_DATA →
          exchange_export_record_value_guid env (some record) record_value_entry byte_order
              (some written) error
            = Outcome.mk 1 (some (written ++ hex_dump value_data)) error)
        ∧ (record.get_column_type record_value_entry = some LIBESEDB_COLUMN_TYPE_BINARY_DATA →
          exchange_export_record_value_sid env (some record) record_value_entry
              (some written) error
            = Outcome.mk 1 (some (written ++ hex_dump value_data)) error))
    ∧ (exchange_export_record_value_32bit env
          (some (with_value_flags record
            (fun value_flags => value_flags ^^^ env.LIBESEDB_VALUE_FLAG_VARIABLE_SIZE)))
          record_value_entry byte_order table_file_stream error
        = exchange_export_record_value_32bit env (some record) record_value_entry byte_order
            table_file_stream error
      ∧ exchange_export_record_value_64bit env
          (some (with_value_flags record
            (fun value_flags => value_flags ^^^ env.LIBESEDB_VALUE_FLAG_VARIABLE_SIZE)))
          record_value_entry byte_order table_file_stream error
        = exchange_export_record_value_64bit env (some record) record_value_entry byte_order
            table_file_stream error
      ∧ exchange_export_record_value_filetime env
          (some (with_value_flags record
            (fun value_flags => value_flags ^^^ env.LIBESEDB_VALUE_FLAG_VARIABLE_SIZE)))
          record_value_entry byte_order table_file_stream error
        = exchange_export_record_value_filetime env (some record) record_value_entry
            byte_order table_file_stream error
      ∧ exchange_export_record_value_guid env
          (some (with_value_flags record
            (fun value_flags => value_flags ^^^ env.LIBESEDB_VALUE_FLAG_VARIABLE_SIZE)))
          record_value_entry byte_order table_file_stream error
        = exchange_export_record_value_guid env (some record) record_value_entry byte_order
            table_file_stream error
      ∧ exchange_export_record_value_sid env
          (some (with_value_flags record
            (fun value_flags => value_flags ^^^ env.LIBESEDB_VALUE_FLAG_VARIABLE_SIZE)))
          record_value_entry table_file_stream error
        = exchange_export_record_value_sid env (some record) record_value_entry
            table_file_stream error)
    ∧ (value.value_flags = env.LIBESEDB_VALUE_FLAG_VARIABLE_SIZE →
      ∀ b0 b1 b2 b3 b4 b5 b6 b7 : uint8_t,
        value.value_data = some [b0, b1, b2, b3, b4, b5, b6, b7] →
        value.value_data_size = 8 →
        record.get_column_type record_value_entry = some LIBESEDB_COLUMN_TYPE_BINARY_DATA
          ∨ record.get_column_type record_value_entry = some LIBESEDB_COLUMN_TYPE_CURRENCY →
        exchange_export_record_value_64bit env (some record) record_value_entry
            BYTE_STREAM_ENDIAN_LITTLE (some written) error
          = Outcome.mk 1
              (some (written ++ "0x".toList ++ Nat.toDigits 16
                (b0.val + b1.val * 256 + b2.val * 256 ^ 2 + b3.val * 256 ^ 3
                  + b4.val * 256 ^ 4 + b5.val * 256 ^ 5 + b6.val * 256 ^ 6
                  + b7.val * 256 ^ 7)))
              error) := by
  have hzero : ∀ value', record.get_value record_value_entry = some value' →
      and_not value.value_flags env.LIBESEDB_VALUE_FLAG_VARIABLE_SIZE = 0 →
      (and_not ((fun _ => 0) value'.value_flags) env.LIBESEDB_VALUE_FLAG_VARIABLE_SIZE = 0
        ↔ and_not value'.value_flags env.LIBESEDB_VALUE_FLAG_VARIABLE_SIZE = 0) := by
    intro value' hvalue' hz
    rw [hvalue] at hvalue'
    cases hvalue'
    simp [and_not_zero, hz]
  have htoggle : ∀ value', record.get_value record_value_entry = some value' →
      (and_not ((fun value_flags => value_flags ^^^ env.LIBESEDB_VALUE_FLAG_VARIABLE_SIZE)
          value'.value_flags) env.LIBESEDB_VALUE_FLAG_VARIABLE_SIZE = 0
        ↔ and_not value'.value_flags env.LIBESEDB_VALUE_FLAG_VARIABLE_SIZE = 0) := by
    intro value' _
    simp only [and_not_xor]
  refine ⟨and_not_eq_zero_iff _ _, ?_, ?_, ?_, ?_⟩
  · intro hz
    have hflags := fun value' hvalue' => hzero value' hvalue' hz
    refine ⟨(exchange_export_record_value_32bit_flags env record record_value_entry byte_order
        table_file_stream error _ hflags).symm,
      (exchange_export_record_value_64bit_flags env record record_value_entry byte_order
        table_file_stream error _ hflags).symm,
      (exchange_export_record_value_filetime_flags env record record_value_entry byte_order
        table_file_stream error _ hflags).symm,
      (exchange_export_record_value_guid_flags env record record_value_entry byte_order
        table_file_stream error _ hflags).symm,
      (exchange_export_record_value_sid_flags env record record_value_entry
        table_file_stream error _ hflags).symm, ?_⟩
    intro value_data hdata
    exact ⟨fun hne => (exchange_export_record_value_32bit_size_mismatch env record
        record_value_entry byte_order table_file_stream error value value_data hvalue hz hdata
        hne).1,
      fun hne => (exchange_export_record_value_64bit_size_mismatch env record
        record_value_entry byte_order table_file_stream error value value_data hvalue hz hdata
        hne).1,
      fun hne => (exchange_export_record_value_filetime_size_mismatch env record
        record_value_entry byte_order table_file_stream error value value_data hvalue hz hdata
        hne).1,
      fun hne => (exchange_export_record_value_guid_size_mismatch env record
        record_value_entry byte_order table_file_stream error value value_data hvalue hz hdata
        hne).1⟩
  · intro hflags value_data hdata hsize
    have hdump : while_fprintf_02x value.value_data_size value_data (some written)
        = some (written ++ hex_dump value_data) := by
      rw [while_fprintf_02x_some, hsize, List.take_length]
    refine ⟨?_, ?_, ?_, ?_, ?_⟩
    · intro horder hct
      rcases horder with rfl | rfl <;>
        simp [exchange_export_record_value_32bit, hct, hvalue, hflags, hdata, hdump]
    · intro horder hct
      rcases hct with hct | hct <;> rcases horder with rfl | rfl <;>
        simp [exchange_export_record_value_64bit, hct, hvalue, hflags, hdata, hdump]
    · intro hct
      rcases hct with hct | hct <;>
        simp [exchange_export_record_value_filetime, hct, hvalue, hflags, hdata, hdump]
    · intro hct
      simp [exchange_export_record_value_guid, hct, hvalue, hflags, hdata, hdump]
    · intro hct
      simp [exchange_export_record_value_sid, hct, hvalue, hflags, hdata, hdump]
  · exact ⟨exchange_export_record_value_32bit_flags env record record_value_entry byte_order
        table_file_stream error _ htoggle,
      exchange_export_record_value_64bit_flags env record record_value_entry byte_order
        table_file_stream error _ htoggle,
      exchange_export_record_value_filetime_flags env record record_value_entry byte_order
        table_file_stream error _ htoggle,
      exchange_export_record_value_guid_flags env record record_value_entry byte_order
        table_file_stream error _ htoggle,
      exchange_export_record_value_sid_flags env record record_value_entry
        table_file_stream error _ htoggle⟩
  · intro hflags b0 b1 b2 b3 b4 b5 b6 b7 hdata hsize hct
    have hz : and_not value.value_flags env.LIBESEDB_VALUE_FLAG_VARIABLE_SIZE = 0 := by
      rw [hflags]; exact and_not_self _
    have hcongr := exchange_export_record_value_64bit_flags env record record_value_entry
      BYTE_STREAM_ENDIAN_LITTLE (some written) error (fun _ => 0)
      (fun value' hvalue' => hzero value' hvalue' hz)
    rw [← hcongr]
    have hvalue0 : (with_value_flags record (fun _ => 0)).get_value record_value_entry
        = some (libesedb_value.mk value.value_data value.value_data_size 0) := by
      simp [with_value_flags, hvalue]
    rcases hct with hct | hct
    · exact (exchange_export_record_value_64bit_number env
        (with_value_flags record (fun _ => 0)) record_value_entry written error
        LIBESEDB_COLUMN_TYPE_BINARY_DATA _ b0 b1 b2 b3 b4 b5 b6 b7 hct (Or.inl rfl) hvalue0 rfl
        hdata hsize).1
    · exact (exchange_export_record_value_64bit_number env
        (with_value_flags record (fun _ => 0)) record_value_entry written error
        LIBESEDB_COLUMN_TYPE_CURRENCY _ b0 b1 b2 b3 b4 b5 b6 b7 hct (Or.inr rfl) hvalue0 rfl
        hdata hsize).1

/-- C24, at a concrete input: 8 bytes whose flags are the variable-size flag
alone are written by the 64-bit exporter as the number 0x201. -/
theorem C24_typed_path_iff_no_other_flag_witness :
    exchange_export_record_value_64bit example_collaborators
        (some (uniform_record 1 "Qx".toList LIBESEDB_COLUMN_TYPE_BINARY_DATA
          (libesedb_value.mk (some [1, 2, 0, 0, 0, 0, 0, 0]) 8 1)))
        0 BYTE_STREAM_ENDIAN_LITTLE (some []) []
      = Outcome.mk 1 (some "0x201".toList) [] :=
  (C24_typed_path_iff_no_other_flag example_collaborators
    (uniform_record 1 "Qx".toList LIBESEDB_COLUMN_TYPE_BINARY_DATA
      (libesedb_value.mk (some [1, 2, 0, 0, 0, 0, 0, 0]) 8 1))
    0 BYTE_STREAM_ENDIAN_LITTLE (some []) [] []
    (libesedb_value.mk (some [1, 2, 0, 0, 0, 0, 0, 0]) 8 1) rfl).2.2.2.2
    rfl 1 2 0 0 0 0 0 0 rfl rfl (Or.inl rfl)

/-- C25: the loop that dumps `n` present bytes runs exactly `n` iterations (after
`k ≤ n` iterations the size left is `n - k`, so the loop test holds before each
of the first `n` iterations and fails after the last) and leaves the dump
appended to the stream; the dump has exactly `2 * n` characters, all among
"0123456789abcdef"; byte `i` is at the positions `2 * i` (its high nibble) and
`2 * i + 1` (its low nibble); reading the dump pairwise as hexadecimal gives
the bytes back, so two byte sequences with the same dump are equal. -/
theorem C25_hex_dump (value_data : List uint8_t) (written : FILE) :
    while_fprintf_02x value_data.length value_data (some written)
      = some (written ++ hex_dump value_data)
    ∧ (∀ k : Nat, k ≤ value_data.length →
        (Nat.iterate while_fprintf_02x_iteration k
          (value_data.length, value_data, some written)).1 = value_data.length - k)
    ∧ Nat.iterate while_fprintf_02x_iteration value_data.length
        (value_data.length, value_data, some written)
      = (0, [], some (written ++ hex_dump value_data))
    ∧ (hex_dump value_data).length = 2 * value_data.length
    ∧ (∀ c ∈ hex_dump value_data, c ∈ "0123456789abcdef".toList)
    ∧ (∀ (i : Nat) (byte : uint8_t), value_data[i]? = some byte →
        (hex_dump value_data)[2 * i]? = some (Nat.digitChar (byte.val / 16))
        ∧ (hex_dump value_data)[2 * i + 1]? = some (Nat.digitChar (byte.val % 16)))
    ∧ hex_parse (hex_dump value_data) = value_data.map (fun byte => byte.val)
    ∧ (∀ value_data' : List uint8_t, hex_dump value_data' = hex_dump value_data →
        value_data' = value_data) := by
  refine ⟨?_, ?_, ?_, ?_, ?_, hex_dump_getElem value_data, hex_parse_hex_dump value_data, ?_⟩
  · rw [while_fprintf_02x_some, List.take_length]
  · intro k hk
    rw [while_fprintf_02x_iterate k value_data.length value_data written hk]
  · rw [while_fprintf_02x_iterate value_data.length value_data.length value_data written
      (le_refl _)]
    simp
  · induction value_data with
    | nil => simp [hex_dump]
    | cons b rest ih =>
      rw [hex_dump_cons]
      simp only [List.length_cons, ih]
      omega
  · induction value_data with
    | nil => simp [hex_dump]
    | cons b rest ih =>
      have hb := b.isLt
      rw [hex_dump_cons]
      intro c hc
      simp only [List.mem_cons] at hc
      rcases hc with hc | hc | hc
      · rw [hc]; exact digitChar_mem _ (by omega)
      · rw [hc]; exact digitChar_mem _ (by omega)
      · exact ih c hc
  · intro value_data' h
    have hparse := congrArg hex_parse h
    rw [hex_parse_hex_dump, hex_parse_hex_dump] at hparse
    exact List.map_injective_iff.mpr Fin.val_injective hparse

/-- C25, at a concrete input: the dump of the three bytes ab 01 ff is "ab01ff",
and after two iterations of the loop one byte is left. -/
theorem C25_hex_dump_witness :
    while_fprintf_02x 3 [0xab, 0x01, 0xff] (some []) = some "ab01ff".toList
    ∧ (Nat.iterate while_fprintf_02x_iteration 2
        (3, ([0xab, 0x01, 0xff] : List uint8_t), some [])).1 = 1 :=
  ⟨(C25_hex_dump [0xab, 0x01, 0xff] []).1,
   (C25_hex_dump [0xab, 0x01, 0xff] []).2.1 2 (by decide)⟩

/-- C26: the name size that the classification blocks test counts the
end-of-string character.  The tokens of four characters are matched only at
size 5 and those of five characters only at size 6, so a stored name
(`utf8_column_name_size` is the number of its characters plus 1) is matched by
a token only when it has as many characters as the token.  Counted in
characters, a name that either schema classifies has 1 to 5 characters: the
one-character name "T" (size 2) is FileTime on a currency or binary data
column, and a name of six characters (size 7) is Undefined whatever its first
character and the column type are. -/
theorem C26_name_size_counts_terminator (column_name : List Char) (column_name_size : Nat)
    (name : List Char) (column_type : LIBESEDB_COLUMN_TYPES) :
    (exchange_export_record_folders_known_column_type column_name column_name_size column_type
        = EXCHANGE_KNOWN_COLUMN_TYPE_SID → column_name_size = 5)
    ∧ (exchange_export_record_folders_known_column_type column_name column_name_size
        column_type = EXCHANGE_KNOWN_COLUMN_TYPE_GUID → column_name_size = 6)
    ∧ (exchange_export_record_mailbox_known_column_type column_name column_name_size
        column_type = EXCHANGE_KNOWN_COLUMN_TYPE_SID → column_name_size = 6)
    ∧ (exchange_export_record_mailbox_known_column_type column_name column_name_size
        column_type = EXCHANGE_KNOWN_COLUMN_TYPE_GUID → column_name_size = 6)
    ∧ utf8_column_name_size name = name.length + 1
    ∧ (exchange_export_record_folders_known_column_type (utf8_column_name name)
        (utf8_column_name_size name) column_type = EXCHANGE_KNOWN_COLUMN_TYPE_SID →
      name.length = 4)
    ∧ (exchange_export_record_folders_known_column_type (utf8_column_name name)
        (utf8_column_name_size name) column_type = EXCHANGE_KNOWN_COLUMN_TYPE_GUID →
      name.length = 5)
    ∧ (exchange_export_record_mailbox_known_column_type (utf8_column_name name)
        (utf8_column_name_size name) column_type = EXCHANGE_KNOWN_COLUMN_TYPE_SID
        ∨ exchange_export_record_mailbox_known_column_type (utf8_column_name name)
          (utf8_column_name_size name) column_type = EXCHANGE_KNOWN_COLUMN_TYPE_GUID →
      name.length = 5)
    ∧ (exchange_export_record_folders_known_column_type (utf8_column_name name)
        (utf8_column_name_size name) column_type ≠ EXCHANGE_KNOWN_COLUMN_TYPE_UNDEFINED
        ∨ exchange_export_record_mailbox_known_column_type (utf8_column_name name)
          (utf8_column_name_size name) column_type ≠ EXCHANGE_KNOWN_COLUMN_TYPE_UNDEFINED →
      1 ≤ name.length ∧ name.length ≤ 5)
    ∧ (column_name_size = 2 → column_name[0]? = some 'T' →
      column_type = LIBESEDB_COLUMN_TYPE_CURRENCY
        ∨ column_type = LIBESEDB_COLUMN_TYPE_BINARY_DATA →
      exchange_export_record_folders_known_column_type column_name column_name_size column_type
        = EXCHANGE_KNOWN_COLUMN_TYPE_FILETIME
      ∧ exchange_export_record_mailbox_known_column_type column_name column_name_size
          column_type = EXCHANGE_KNOWN_COLUMN_TYPE_FILETIME)
    ∧ (column_type = LIBESEDB_COLUMN_TYPE_CURRENCY
        ∨ column_type = LIBESEDB_COLUMN_TYPE_BINARY_DATA →
      utf8_column_name_size "T".toList = 2
      ∧ exchange_export_record_folders_known_column_type (utf8_column_name "T".toList)
          (utf8_column_name_size "T".toList) column_type = EXCHANGE_KNOWN_COLUMN_TYPE_FILETIME
      ∧ exchange_export_record_mailbox_known_column_type (utf8_column_name "T".toList)
          (utf8_column_name_size "T".toList) column_type = EXCHANGE_KNOWN_COLUMN_TYPE_FILETIME)
    ∧ (column_name_size = 7 →
      exchange_export_record_folders_known_column_type column_name column_name_size column_type
        = EXCHANGE_KNOWN_COLUMN_TYPE_UNDEFINED
      ∧ exchange_export_record_mailbox_known_column_type column_name column_name_size
          column_type = EXCHANGE_KNOWN_COLUMN_TYPE_UNDEFINED)
    ∧ (name.length = 6 →
      utf8_column_name_size name = 7
      ∧ exchange_export_record_folders_known_column_type (utf8_column_name name)
          (utf8_column_name_size name) column_type = EXCHANGE_KNOWN_COLUMN_TYPE_UNDEFINED
      ∧ exchange_export_record_mailbox_known_column_type (utf8_column_name name)
          (utf8_column_name_size name) column_type = EXCHANGE_KNOWN_COLUMN_TYPE_UNDEFINED) := by
  have hfs := folders_known_column_type_sizes column_name column_name_size column_type
  have hms := mailbox_known_column_type_sizes column_name column_name_size column_type
  have hfn := folders_known_column_type_sizes (utf8_column_name name)
    (utf8_column_name_size name) column_type
  have hmn := mailbox_known_column_type_sizes (utf8_column_name name)
    (utf8_column_name_size name) column_type
  have hlen : utf8_column_name_size name = name.length + 1 := rfl
  have hundefined : ∀ (column_name : List Char) (column_name_size : Nat),
      column_name_size = 7 →
      exchange_export_record_folders_known_column_type column_name column_name_size column_type
        = EXCHANGE_KNOWN_COLUMN_TYPE_UNDEFINED
      ∧ exchange_export_record_mailbox_known_column_type column_name column_name_size
          column_type = EXCHANGE_KNOWN_COLUMN_TYPE_UNDEFINED := by
    intro column_name column_name_size h7
    have hgate : ¬ (column_name_size > 1 ∧ column_name_size ≤ 6) := by omega
    simp [exchange_export_record_folders_known_column_type,
      exchange_export_record_mailbox_known_column_type, hgate]
  refine ⟨hfs.2.1, hfs.2.2, hms.2.1, hms.2.2, hlen, ?_, ?_, ?_, ?_, ?_, ?_,
    hundefined column_name column_name_size, ?_⟩
  · intro h
    have := hfn.2.1 h
    omega
  · intro h
    have := hfn.2.2 h
    omega
  · intro h
    rcases h with h | h
    · have := hmn.2.1 h
      omega
    · have := hmn.2.2 h
      omega
  · intro h
    rcases h with h | h
    · have := hfn.1 h
      omega
    · have := hmn.1 h
      omega
  · intro h2 hT hct
    have hgate : column_name_size > 1 ∧ column_name_size ≤ 6 := by omega
    rcases hct with rfl | rfl <;>
      simp [exchange_export_record_folders_known_column_type,
        exchange_export_record_mailbox_known_column_type, hgate, hT]
  · intro hct
    rcases hct with rfl | rfl <;> exact ⟨rfl, by decide, by decide⟩
  · intro h6
    have h7 : utf8_column_name_size name = 7 := by omega
    exact ⟨h7, hundefined _ _ h7⟩

/-- C26, at a concrete input: the six-character name "Tabcde" on a currency
column is Undefined in the Folders schema. -/
theorem C26_name_size_counts_terminator_witness :
    utf8_column_name_size "Tabcde".toList = 7
    ∧ exchange_export_record_folders_known_column_type (utf8_column_name "Tabcde".toList)
        (utf8_column_name_size "Tabcde".toList) LIBESEDB_COLUMN_TYPE_CURRENCY
      = EXCHANGE_KNOWN_COLUMN_TYPE_UNDEFINED :=
  ⟨((C26_name_size_counts_terminator [] 0 "Tabcde".toList
      LIBESEDB_COLUMN_TYPE_CURRENCY).2.2.2.2.2.2.2.2.2.2.2.2 rfl).1,
   ((C26_name_size_counts_terminator [] 0 "Tabcde".toList
      LIBESEDB_COLUMN_TYPE_CURRENCY).2.2.2.2.2.2.2.2.2.2.2.2 rfl).2.1⟩

/-- C27: for a name stored with its end-of-string character the two schemas
assign the same kind unless the column is binary data or large binary data and
the name is one of the six tokens; on a column of any other type they assign
the same kind to every name buffer and name size.  On a binary data or large
binary data column each token is classified by one schema (Ne58 and Ne59 as
SecurityIdentifier and N3880 as GUID by Folders; N66a0 as SecurityIdentifier
and N676a and N676c as GUID by Mailbox) and is Undefined in the other. -/
theorem C27_schemas_agree_except_tokens (column_name : List Char) (column_name_size : Nat)
    (name : List Char) (column_type : LIBESEDB_COLUMN_TYPES) :
    (exchange_export_record_folders_known_column_type (utf8_column_name name)
        (utf8_column_name_size name) column_type
      ≠ exchange_export_record_mailbox_known_column_type (utf8_column_name name)
        (utf8_column_name_size name) column_type →
      (column_type = LIBESEDB_COLUMN_TYPE_BINARY_DATA
        ∨ column_type = LIBESEDB_COLUMN_TYPE_LARGE_BINARY_DATA)
      ∧ (name = "Ne58".toList ∨ name = "Ne59".toList ∨ name = "N3880".toList
        ∨ name = "N66a0".toList ∨ name = "N676a".toList ∨ name = "N676c".toList))
    ∧ (column_type ≠ LIBESEDB_COLUMN_TYPE_BINARY_DATA →
      column_type ≠ LIBESEDB_COLUMN_TYPE_LARGE_BINARY_DATA →
      exchange_export_record_folders_known_column_type column_name column_name_size column_type
        = exchange_export_record_mailbox_known_column_type column_name column_name_size
            column_type)
    ∧ (column_type = LIBESEDB_COLUMN_TYPE_BINARY_DATA
        ∨ column_type = LIBESEDB_COLUMN_TYPE_LARGE_BINARY_DATA →
      (exchange_export_record_folders_known_column_type (utf8_column_name "Ne58".toList)
          (utf8_column_name_size "Ne58".toList) column_type = EXCHANGE_KNOWN_COLUMN_TYPE_SID
        ∧ exchange_export_record_mailbox_known_column_type (utf8_column_name "Ne58".toList)
          (utf8_column_name_size "Ne58".toList) column_type
          = EXCHANGE_KNOWN_COLUMN_TYPE_UNDEFINED)
      ∧ (exchange_export_record_folders_known_column_type (utf8_column_name "Ne59".toList)
          (utf8_column_name_size "Ne59".toList) column_type = EXCHANGE_KNOWN_COLUMN_TYPE_SID
        ∧ exchange_export_record_mailbox_known_column_type (utf8_column_name "Ne59".toList)
          (utf8_column_name_size "Ne59".toList) column_type
          = EXCHANGE_KNOWN_COLUMN_TYPE_UNDEFINED)
      ∧ (exchange_export_record_folders_known_column_type (utf8_column_name "N3880".toList)
          (utf8_column_name_size "N3880".toList) column_type = EXCHANGE_KNOWN_COLUMN_TYPE_GUID
        ∧ exchange_export_record_mailbox_known_column_type (utf8_column_name "N3880".toList)
          (utf8_column_name_size "N3880".toList) column_type
          = EXCHANGE_KNOWN_COLUMN_TYPE_UNDEFINED)
      ∧ (exchange_export_record_folders_known_column_type (utf8_column_name "N66a0".toList)
          (utf8_column_name_size "N66a0".toList) column_type
          = EXCHANGE_KNOWN_COLUMN_TYPE_UNDEFINED
        ∧ exchange_export_record_mailbox_known_column_type (utf8_column_name "N66a0".toList)
          (utf8_column_name_size "N66a0".toList) column_type = EXCHANGE_KNOWN_COLUMN_TYPE_SID)
      ∧ (exchange_export_record_folders_known_column_type (utf8_column_name "N676a".toList)
          (utf8_column_name_size "N676a".toList) column_type
          = EXCHANGE_KNOWN_COLUMN_TYPE_UNDEFINED
        ∧ exchange_export_record_mailbox_known_column_type (utf8_column_name "N676a".toList)
          (utf8_column_name_size "N676a".toList) column_type = EXCHANGE_KNOWN_COLUMN_TYPE_GUID)
      ∧ (exchange_export_record_folders_known_column_type (utf8_column_name "N676c".toList)
          (utf8_column_name_size "N676c".toList) column_type
          = EXCHANGE_KNOWN_COLUMN_TYPE_UNDEFINED
        ∧ exchange_export_record_mailbox_known_column_type (utf8_column_name "N676c".toList)
          (utf8_column_name_size "N676c".toList) column_type
          = EXCHANGE_KNOWN_COLUMN_TYPE_GUID)) := by
  refine ⟨?_, known_column_type_eq_of_not_binary column_name column_name_size column_type, ?_⟩
  · intro hne
    by_cases htype : column_type = LIBESEDB_COLUMN_TYPE_BINARY_DATA
        ∨ column_type = LIBESEDB_COLUMN_TYPE_LARGE_BINARY_DATA
    · exact ⟨htype, known_column_type_ne_of_name name column_type htype hne⟩
    · exfalso
      apply hne
      apply known_column_type_eq_of_not_binary
      · exact fun h => htype (Or.inl h)
      · exact fun h => htype (Or.inr h)
  · intro htype
    rcases htype with rfl | rfl <;> decide

/-- C27, at a concrete input: on a binary data column the name "N676a" is
Undefined in the Folders schema and GUID in the Mailbox schema. -/
theorem C27_schemas_agree_except_tokens_witness :
    exchange_export_record_folders_known_column_type (utf8_column_name "N676a".toList)
        (utf8_column_name_size "N676a".toList) LIBESEDB_COLUMN_TYPE_BINARY_DATA
      = EXCHANGE_KNOWN_COLUMN_TYPE_UNDEFINED
    ∧ exchange_export_record_mailbox_known_column_type (utf8_column_name "N676a".toList)
        (utf8_column_name_size "N676a".toList) LIBESEDB_COLUMN_TYPE_BINARY_DATA
      = EXCHANGE_KNOWN_COLUMN_TYPE_GUID :=
  ((C27_schemas_agree_except_tokens [] 0 [] LIBESEDB_COLUMN_TYPE_BINARY_DATA).2.2
    (Or.inl rfl)).2.2.2.2.1

/-- C28: each of the six typed exporters is atomic with respect to the stream,
for every record (also NULL), record value entry, byte order, stream and error
list: it returns 1 or -1, it leaves the stream as it was when it returns -1,
and it returns 1 when it has written to the stream. -/
theorem C28_typed_exporters_atomic (env : Collaborators) (record : Option libesedb_record_t)
    (record_value_entry : Int) (byte_order : BYTE_STREAM_ENDIAN) :
    atomic (exchange_export_record_value_32bit env record record_value_entry byte_order)
    ∧ atomic (exchange_export_record_value_64bit env record record_value_entry byte_order)
    ∧ atomic (exchange_export_record_value_filetime env record record_value_entry byte_order)
    ∧ atomic (exchange_export_record_value_guid env record record_value_entry byte_order)
    ∧ atomic (exchange_export_record_value_sid env record record_value_entry)
    ∧ atomic (exchange_export_record_value_string record record_value_entry) :=
  ⟨atomic_of _ (exchange_export_record_value_32bit_atomic env record record_value_entry
      byte_order),
   atomic_of _ (exchange_export_record_value_64bit_atomic env record record_value_entry
      byte_order),
   atomic_of _ (exchange_export_record_value_filetime_atomic env record record_value_entry
      byte_order),
   atomic_of _ (exchange_export_record_value_guid_atomic env record record_value_entry
      byte_order),
   atomic_of _ (exchange_export_record_value_sid_atomic env record record_value_entry),
   atomic_of _ (exchange_export_record_value_string_atomic record record_value_entry)⟩

/-- C28, at a concrete input: the GUID exporter on 15 bytes returns -1 and
leaves the stream "x" as it was. -/
theorem C28_typed_exporters_atomic_witness :
    (exchange_export_record_value_guid example_collaborators
        (some (uniform_record 1 "N3880".toList LIBESEDB_COLUMN_TYPE_BINARY_DATA
          (libesedb_value.mk (some (List.replicate 15 0)) 15 0)))
        0 BYTE_STREAM_ENDIAN_LITTLE (some "x".toList) []).table_file_stream
      = some "x".toList :=
  ((C28_typed_exporters_atomic example_collaborators
    (some (uniform_record 1 "N3880".toList LIBESEDB_COLUMN_TYPE_BINARY_DATA
      (libesedb_value.mk (some (List.replicate 15 0)) 15 0)))
    0 BYTE_STREAM_ENDIAN_LITTLE).2.2.2.1 (some "x".toList) []).2.1 (by decide)

/-- C29: the 32-bit and the 64-bit exporter, called with a record, return -1
with the unsupported byte order error (an unsupported value error of the
arguments domain) and leave the stream untouched when the byte order is
neither big endian nor little endian, whatever the record, the entry and the
stream are: the column type and the value are not looked at.  With a byte
order that is big endian or little endian they never return that error. -/
theorem C29_byte_order_validated (env : Collaborators) (record : libesedb_record_t)
    (record_value_entry : Int) (byte_order : BYTE_STREAM_ENDIAN)
    (table_file_stream : Option FILE) (error : List liberror_error) :
    (byte_order ≠ BYTE_STREAM_ENDIAN_BIG → byte_order ≠ BYTE_STREAM_ENDIAN_LITTLE →
      exchange_export_record_value_32bit env (some record) record_value_entry byte_order
          table_file_stream error
        = return_error table_file_stream error LIBERROR_ERROR_DOMAIN_ARGUMENTS
            LIBERROR_ARGUMENT_ERROR_UNSUPPORTED_VALUE error_message.unsupported_byte_order
      ∧ exchange_export_record_value_64bit env (some record) record_value_entry byte_order
          table_file_stream error
        = return_error table_file_stream error LIBERROR_ERROR_DOMAIN_ARGUMENTS
            LIBERROR_ARGUMENT_ERROR_UNSUPPORTED_VALUE error_message.unsupported_byte_order)
    ∧ (byte_order = BYTE_STREAM_ENDIAN_BIG ∨ byte_order = BYTE_STREAM_ENDIAN_LITTLE →
      exchange_export_record_value_32bit env (some record) record_value_entry byte_order
          table_file_stream error
        ≠ return_error table_file_stream error LIBERROR_ERROR_DOMAIN_ARGUMENTS
            LIBERROR_ARGUMENT_ERROR_UNSUPPORTED_VALUE error_message.unsupported_byte_order
      ∧ exchange_export_record_value_64bit env (some record) record_value_entry byte_order
          table_file_stream error
        ≠ return_error table_file_stream error LIBERROR_ERROR_DOMAIN_ARGUMENTS
            LIBERROR_ARGUMENT_ERROR_UNSUPPORTED_VALUE error_message.unsupported_byte_order) := by
  constructor
  · intro hbig hlittle
    have hbo : byte_order ≠ BYTE_STREAM_ENDIAN_BIG ∧ byte_order ≠ BYTE_STREAM_ENDIAN_LITTLE :=
      ⟨hbig, hlittle⟩
    constructor
    · simp only [exchange_export_record_value_32bit]
      rw [if_pos hbo]
    · simp only [exchange_export_record_value_64bit]
      rw [if_pos hbo]
  · intro horder
    have hbo : ¬ (byte_order ≠ BYTE_STREAM_ENDIAN_BIG
        ∧ byte_order ≠ BYTE_STREAM_ENDIAN_LITTLE) := by
      rcases horder with rfl | rfl <;> simp
    constructor
    · simp only [exchange_export_record_value_32bit, hbo, if_false]
      repeat' split
      all_goals simp_all [return_error, liberror_error_set]
    · simp only [exchange_export_record_value_64bit, hbo, if_false]
      repeat' split
      all_goals simp_all [return_error, liberror_error_set]

/-- C29, at a concrete input: with the byte order value 0x55 the 64-bit
exporter fails on a record whose value is NULL. -/
theorem C29_byte_order_validated_witness :
    exchange_export_record_value_64bit example_collaborators
        (some (uniform_record 1 "Qx".toList LIBESEDB_COLUMN_TYPE_BINARY_DATA
          (libesedb_value.mk none 0 0)))
        0 (BYTE_STREAM_ENDIAN_OTHER 0x55) (some []) []
      = return_error (some []) [] LIBERROR_ERROR_DOMAIN_ARGUMENTS
          LIBERROR_ARGUMENT_ERROR_UNSUPPORTED_VALUE error_message.unsupported_byte_order :=
  ((C29_byte_order_validated example_collaborators
    (uniform_record 1 "Qx".toList LIBESEDB_COLUMN_TYPE_BINARY_DATA (libesedb_value.mk none 0 0))
    0 (BYTE_STREAM_ENDIAN_OTHER 0x55) (some []) []).1 (by decide) (by decide)).2

end Exchange
